import Mathlib

/-!
# Mango rendering engine: a verification development

Shallow embedding of parts of the Mango engine
(`deferred_pbr_render_system.hpp`, `render_system_impl.cpp`, `input_codes.hpp`,
`shadow_map_step.hpp`, `ecs_internal.hpp`, `editor.cpp`) and proofs of
properties of the embedded code.

Conventions of the embedding:
* machine integers (`int8`, `int32`, `int64`) are values of `ℤ`; a conversion into
  `int8` is written out with `wrap_int8`;
* a `float` value is represented by the number it denotes; the material id is computed
  with every floating point operation rounding its exact result to single precision
  (`f32_round`), the camera of the editor, the transformations and the shadow cascades
  are in exact arithmetic over an ordered field, with the functions `sin`, `cos`,
  `sqrt`, `pow` and the value of `π` as parameters, the real numbers being the
  intended instance;
* the members of a C++ object are the fields of a structure, a member function takes
  the object and returns the updated object.
-/

namespace mango

/-! ## Single precision arithmetic -/

/-- Exponent of the binade that holds `x`; subnormal values share the exponent `-126`. -/
def f32_exp (x : ℚ) : ℤ := max (Int.log 2 |x|) (-126)

/-- Distance of two neighbouring single precision values around `x`
(24 bit significand). -/
def f32_ulp (x : ℚ) : ℚ := (2 : ℚ) ^ (f32_exp x - 23)

/-- Nearest integer, ties to the even one. -/
def round_half_even (y : ℚ) : ℤ :=
  let f := ⌊y⌋
  let r := y - f
  if r < 1 / 2 then f else if 1 / 2 < r then f + 1 else if f % 2 = 0 then f else f + 1

/-- Rounding of an exact result to single precision, round to nearest, ties to even.
Overflow to infinity is not represented: the development only rounds values below 16. -/
def f32_round (x : ℚ) : ℚ := round_half_even (x / f32_ulp x) * f32_ulp x

/-- The product `a * b` of two `float` values. -/
def f32_mul (a b : ℚ) : ℚ := f32_round (a * b)

/-- Conversion of a floating point value to an integer: the fraction is discarded
(truncation toward zero). -/
def trunc (x : ℚ) : ℤ := if 0 ≤ x then ⌊x⌋ else ⌈x⌉

/-- Conversion of an integer into the range of `int8` (two's complement wrap). -/
def wrap_int8 (n : ℤ) : ℤ := (n + 128) % 256 - 128

/-! ## Uniform blocks of `deferred_pbr_render_system` -/

/-- The element types of the uniform block structs. -/
inductive std140_type where
  | std140_float
  | std140_int
  | std140_bool
  | std140_vec3
  | std140_vec4
  | std140_mat3
  | std140_mat4
  deriving DecidableEq, Repr

/-- Modelled from the spec: the declarations of the `std140_*` wrapper types are not
part of the available sources; their byte sizes are the std140 element sizes, 4 bytes
for a scalar `float`/`int`/`bool`, 16 bytes for `vec3` and `vec4`, 48 bytes for `mat3`
and 64 bytes for `mat4`. -/
def std140_size : std140_type → Nat
  | .std140_float => 4
  | .std140_int => 4
  | .std140_bool => 4
  | .std140_vec3 => 16
  | .std140_vec4 => 16
  | .std140_mat3 => 48
  | .std140_mat4 => 64

/-- A scalar element occupies a single 4 byte slot. -/
def std140_type.is_scalar : std140_type → Bool
  | .std140_float => true
  | .std140_int => true
  | .std140_bool => true
  | _ => false

/-- A uniform block: its fields, with their names, in declaration order. -/
abbrev uniform_block := List (String × std140_type)

/-- Fields of `struct renderer_data`, in declaration order. -/
def renderer_data_fields : uniform_block :=
  [ ("view_matrix", .std140_mat4),
    ("projection_matrix", .std140_mat4),
    ("view_projection_matrix", .std140_mat4),
    ("camera_exposure", .std140_float),
    ("shadow_step_enabled", .std140_bool),
    ("padding1", .std140_float),
    ("padding2", .std140_float) ]

/-- Fields of `struct model_data`, in declaration order. -/
def model_data_fields : uniform_block :=
  [ ("model_matrix", .std140_mat4),
    ("normal_matrix", .std140_mat3),
    ("has_normals", .std140_bool),
    ("has_tangents", .std140_bool),
    ("padding0", .std140_float),
    ("padding1", .std140_float) ]

/-- Fields of `struct material_data`, in declaration order. -/
def material_data_fields : uniform_block :=
  [ ("base_color", .std140_vec4),
    ("emissive_color", .std140_vec3),
    ("metallic", .std140_float),
    ("roughness", .std140_float),
    ("base_color_texture", .std140_bool),
    ("roughness_metallic_texture", .std140_bool),
    ("occlusion_texture", .std140_bool),
    ("packed_occlusion", .std140_bool),
    ("normal_texture", .std140_bool),
    ("emissive_color_texture", .std140_bool),
    ("alpha_mode", .std140_int),
    ("alpha_cutoff", .std140_float),
    ("padding0", .std140_float),
    ("padding1", .std140_float) ]

/-- Fields of `struct lighting_pass_data`, in declaration order; the array
`debug_views.debug[9]` contributes nine elements and the nested structs are
flattened. -/
def lighting_pass_data_fields : uniform_block :=
  [ ("inverse_view_projection", .std140_mat4),
    ("view", .std140_mat4),
    ("camera_position", .std140_vec3),
    ("camera_params", .std140_vec4),
    ("debug_view_enabled", .std140_bool),
    ("debug_views.debug[0]", .std140_bool),
    ("debug_views.debug[1]", .std140_bool),
    ("debug_views.debug[2]", .std140_bool),
    ("debug_views.debug[3]", .std140_bool),
    ("debug_views.debug[4]", .std140_bool),
    ("debug_views.debug[5]", .std140_bool),
    ("debug_views.debug[6]", .std140_bool),
    ("debug_views.debug[7]", .std140_bool),
    ("debug_views.debug[8]", .std140_bool),
    ("debug_options.show_cascades", .std140_bool),
    ("debug_options.draw_shadow_maps", .std140_bool) ]

/-- Byte size of a block whose fields follow each other in declaration order. -/
def block_size (b : uniform_block) : Nat := (b.map (fun f => std140_size f.2)).sum

/-- Number of 4 byte scalar fields of a block, padding fields included. -/
def scalar_count (b : uniform_block) : Nat := (b.filter (fun f => f.2.is_scalar)).length

/-! ## The model cache -/

/-- The members of `struct material_data` that hold values.  Vectors are triples and
quadruples of `float` values. -/
structure material_data where
  base_color : ℚ × ℚ × ℚ × ℚ
  emissive_color : ℚ × ℚ × ℚ
  metallic : ℚ
  roughness : ℚ
  base_color_texture : Bool
  roughness_metallic_texture : Bool
  occlusion_texture : Bool
  packed_occlusion : Bool
  normal_texture : Bool
  emissive_color_texture : Bool
  alpha_mode : ℤ
  alpha_cutoff : ℚ
  padding0 : ℚ
  padding1 : ℚ

/-- The struct `deferred_pbr_render_system::model_cache`. -/
structure model_cache where
  model_data_offset : ℤ
  material_data_offset : ℤ
  material_id : ℤ
  position : ℚ × ℚ × ℚ
  base_color_texture_name : Nat
  roughness_metallic_texture_name : Nat
  occlusion_texture_name : Nat
  normal_texture_name : Nat
  emissive_color_texture_name : Nat
  blend : Bool
  face_culling : Bool

/-- The member `model_cache::valid`:
`return model_data_offset >= 0 && material_data_offset >= 0;`. -/
def model_cache.valid (c : model_cache) : Bool :=
  decide (c.model_data_offset ≥ 0) && decide (c.material_data_offset ≥ 0)

/-- The member `model_cache::create_material_id`:
`int8 v = int8(float(mat_data.metallic) * 10.0f); v += face_culling ? 0 : 100; return v;`.
The product is a single precision product, the conversion to `int8` truncates, and
the compound assignment converts the `int` sum back to `int8`. -/
def model_cache.create_material_id (c : model_cache) (mat_data : material_data) : ℤ :=
  let v : ℤ := wrap_int8 (trunc (f32_mul mat_data.metallic 10))
  let v : ℤ := wrap_int8 (v + (if c.face_culling then 0 else 100))
  v

/-! ## Assertions and results -/

/-- Result of a member function that contains `MANGO_ASSERT` checks: either the call
returns a value and leaves the object in a new state, or an assertion fails and the
program stops in the state reached at that point.

Modelled from the spec: the macro `MANGO_ASSERT` is defined outside the available
sources; a failed check is a fatal assertion, the call does not return and nothing
after the check is executed. -/
inductive outcome (α σ : Type) where
  | returned (value : α) (state : σ)
  | assertion_failed (message : String) (state : σ)

/-- The call returned normally. -/
def outcome.is_returned {α σ : Type} : outcome α σ → Bool
  | .returned _ _ => true
  | .assertion_failed _ _ => false

/-- The call stopped in a fatal assertion. -/
def outcome.is_assertion_failed {α σ : Type} : outcome α σ → Bool
  | .returned _ _ => false
  | .assertion_failed _ _ => true

/-- The state in which the call returned or stopped. -/
def outcome.final_state {α σ : Type} : outcome α σ → σ
  | .returned _ s => s
  | .assertion_failed _ s => s

/-! ## `render_system_impl` -/

/-- Modelled from the spec: the enum `render_pipeline` is declared outside the available
sources; `deferred_pbr` is the only pipeline the configuration recognises, every other
value of the enum type is `other`. -/
inductive render_pipeline where
  | deferred_pbr
  | other (code : Nat)
  deriving DecidableEq, Repr

/-- The part of `render_configuration` that `render_system_impl` reads. -/
structure render_configuration where
  base_render_pipeline : render_pipeline
  vsync : Bool
  render_steps : List Bool
  deriving DecidableEq, Repr

/-- The getter `render_configuration::get_base_render_pipeline`. -/
def render_configuration.get_base_render_pipeline (c : render_configuration) :
    render_pipeline :=
  c.base_render_pipeline

/-- Calls that `render_system_impl` makes on the current render system. -/
inductive system_call where
  | create
  | configure (configuration : render_configuration)
  | begin_render
  | finish_render
  | set_viewport (x y width height : ℤ)
  | set_model_info (model_matrix : List ℚ) (has_normals has_tangents : Bool)
  | draw_mesh (mat : Nat) (topology : Nat) (first count : ℤ) (type : Nat) (instance_count : ℤ)
  | set_view_projection_matrix (view_projection : List ℚ)
  | set_environment_texture (hdr_texture : Nat) (render_level : ℚ)
  | get_backbuffer
  | update (dt : ℚ)
  | destroy
  deriving DecidableEq, Repr

/-- Observable steps of `render_system_impl`, in the order in which they happen.
A render system instance is named by the number it received at construction. -/
inductive event where
  | construct_deferred_pbr (instance_id : Nat)
  | call (instance_id : Nat) (c : system_call)
  | share_command_buffer (instance_id : Nat)
  | log_error (message : String)
  deriving DecidableEq, Repr

/-- What the embedding cannot compute because the code is outside the available
sources: the result of `create()` of a render system instance and the pipeline its
`get_base_render_pipeline()` reports, both as functions of the instance and of the
steps taken so far. -/
structure environment where
  system_create : Nat → List event → Bool
  system_base_render_pipeline : Nat → List event → render_pipeline

/-- The object `render_system_impl`: the pointer `m_current_render_system` (empty or
the instance it points to), the number of instances constructed so far and the
steps taken so far. -/
structure render_system_impl where
  m_current_render_system : Option Nat
  constructed : Nat
  trace : List event
  deriving DecidableEq, Repr

/-- The object right after its constructor: no current render system. -/
def render_system_impl.init : render_system_impl :=
  { m_current_render_system := none, constructed := 0, trace := [] }

/-- Appends a step to the trace. -/
def render_system_impl.record (s : render_system_impl) (e : event) : render_system_impl :=
  { s with trace := s.trace ++ [e] }

/-- Modelled from the spec: the macro `MANGO_LOG_ERROR` is defined outside the available
sources; the message is logged and execution continues. -/
def MANGO_LOG_ERROR (s : render_system_impl) (message : String) : render_system_impl :=
  s.record (.log_error message)

/-- The member `render_system_impl::create`:
`if (m_current_render_system) return m_current_render_system->create(); return true;`. -/
def render_system_impl.create (env : environment) (s : render_system_impl) :
    Bool × render_system_impl :=
  match s.m_current_render_system with
  | some cur => (env.system_create cur s.trace, s.record (.call cur .create))
  | none => (true, s)

/-- The end of `render_system_impl::configure` (lines 52 to 58): the configuration is
forwarded to the current render system when there is one, and the error is logged
when `success` is false. -/
def render_system_impl.configure_finish (configuration : render_configuration)
    (success : Bool) (s : render_system_impl) : outcome Unit render_system_impl :=
  let s1 :=
    match s.m_current_render_system with
    | some cur => s.record (.call cur (.configure configuration))
    | none => s
  let s2 :=
    if !success then
      MANGO_LOG_ERROR s1 "Render pipeline  failed to create and render system cannot be created!"
    else s1
  .returned () s2

/-- The member `render_system_impl::configure`. -/
def render_system_impl.configure (env : environment) (configuration : render_configuration)
    (s : render_system_impl) : outcome Unit render_system_impl :=
  let success := false
  let configured_pipeline := configuration.get_base_render_pipeline
  let changed :=
    match s.m_current_render_system with
    | none => true
    | some cur => decide (configured_pipeline ≠ env.system_base_render_pipeline cur s.trace)
  if changed then
    -- Pipeline has changed and the current render system needs to be recreated.
    let s1 :=
      match s.m_current_render_system with
      | some cur => s.record (.call cur .destroy)
      | none => s
    match configured_pipeline with
    | .deferred_pbr =>
      let id := s1.constructed
      let s2 : render_system_impl :=
        { m_current_render_system := some id,
          constructed := s1.constructed + 1,
          trace := s1.trace ++ [.construct_deferred_pbr id] }
      let success := env.system_create id s2.trace
      let s3 := s2.record (.call id .create)
      if !success then
        .assertion_failed "Creation of the deferred pbr render system did fail!" s3
      else
        let s4 := s3.record (.share_command_buffer id)
        s4.configure_finish configuration success
    | .other _ =>
      let s2 :=
        MANGO_LOG_ERROR s1 "Render pipeline is unknown and the render system cannot be created!"
      s2.configure_finish configuration success
  else
    s.configure_finish configuration success

/-- The member `render_system_impl::set_viewport`: five assertions, then the call is
forwarded to the current render system. -/
def render_system_impl.set_viewport (x y width height : ℤ) (s : render_system_impl) :
    outcome Unit render_system_impl :=
  match s.m_current_render_system with
  | none => .assertion_failed "Current render sytem not valid!" s
  | some cur =>
    if ¬ (x ≥ 0) then .assertion_failed "Viewport x position has to be positive!" s
    else if ¬ (y ≥ 0) then .assertion_failed "Viewport y position has to be positive!" s
    else if ¬ (width ≥ 0) then .assertion_failed "Viewport width has to be positive!" s
    else if ¬ (height ≥ 0) then .assertion_failed "Viewport height has to be positive!" s
    else .returned () (s.record (.call cur (.set_viewport x y width height)))

/-! ## `deferred_pbr_render_system`: recording of draw calls -/

/-- The arguments of `deferred_pbr_render_system::draw_mesh`, as declared in the
header. -/
structure draw_mesh_arguments where
  vertex_array : Nat
  topology : Nat
  first : ℤ
  count : ℤ
  type : Nat
  instance_count : ℤ
  deriving DecidableEq, Repr

/-- A draw command in a command buffer: the arguments of the draw call, the cached
offsets it binds and the parts of its sort key. -/
structure draw_command where
  arguments : draw_mesh_arguments
  model_data_offset : ℤ
  material_data_offset : ℤ
  material_id : ℤ
  position : ℚ × ℚ × ℚ
  submission_order : Nat

/-- The members of `deferred_pbr_render_system` that take part in the recording of
draw calls: the active model cache, the command buffer of the gbuffer pass and the
command buffer of the transparent pass. -/
structure deferred_pbr_render_system where
  m_active_model : model_cache
  m_gbuffer_commands : List draw_command
  m_transparent_commands : List draw_command

/-- Modelled from the spec: the body of `deferred_pbr_render_system::begin_render` is
in `deferred_pbr_render_system.cpp`, which is not part of the available sources;
`begin_render` resets the active model cache to invalid (both offsets negative). -/
def deferred_pbr_render_system.begin_render (s : deferred_pbr_render_system) :
    deferred_pbr_render_system :=
  { s with m_active_model :=
      { s.m_active_model with model_data_offset := -1, material_data_offset := -1 } }

/-- Modelled from the spec: the body of `deferred_pbr_render_system::begin_mesh` is in
`deferred_pbr_render_system.cpp`, which is not part of the available sources;
`begin_mesh` stages a model uniform block, whose offset `staged_offset` the cache
keeps together with the world position, and marks the cache invalid until
`use_material` supplies material data. -/
def deferred_pbr_render_system.begin_mesh (staged_offset : Nat) (position : ℚ × ℚ × ℚ)
    (s : deferred_pbr_render_system) : deferred_pbr_render_system :=
  { s with m_active_model :=
      { s.m_active_model with
        model_data_offset := staged_offset,
        material_data_offset := -1,
        position := position } }

/-- Modelled from the spec: the body of `deferred_pbr_render_system::use_material` is in
`deferred_pbr_render_system.cpp`, which is not part of the available sources;
`use_material` stages a material uniform block at `staged_offset`, determines the
blend and face culling flags of the material and computes the material id. -/
def deferred_pbr_render_system.use_material (staged_offset : Nat) (mat_data : material_data)
    (blend face_culling : Bool) (s : deferred_pbr_render_system) :
    deferred_pbr_render_system :=
  let c : model_cache :=
    { s.m_active_model with
      material_data_offset := staged_offset,
      blend := blend,
      face_culling := face_culling }
  { s with m_active_model := { c with material_id := c.create_material_id mat_data } }

/-- Modelled from the spec: the body of `deferred_pbr_render_system::end_mesh` is in
`deferred_pbr_render_system.cpp`, which is not part of the available sources; the
cache is valid only up to `end_mesh`. -/
def deferred_pbr_render_system.end_mesh (s : deferred_pbr_render_system) :
    deferred_pbr_render_system :=
  { s with m_active_model :=
      { s.m_active_model with model_data_offset := -1, material_data_offset := -1 } }

/-- Modelled from the spec: the body of `deferred_pbr_render_system::draw_mesh` is in
`deferred_pbr_render_system.cpp`, which is not part of the available sources;
`draw_mesh` requires the active model cache to be valid and asserts otherwise, and it
emits one draw command, into the transparent buffer when the blend flag of the cache
is set and into the gbuffer buffer when it is not. -/
def deferred_pbr_render_system.draw_mesh (a : draw_mesh_arguments)
    (s : deferred_pbr_render_system) : outcome Unit deferred_pbr_render_system :=
  if !s.m_active_model.valid then
    .assertion_failed "Model cache not valid!" s
  else
    let command : draw_command :=
      { arguments := a,
        model_data_offset := s.m_active_model.model_data_offset,
        material_data_offset := s.m_active_model.material_data_offset,
        material_id := s.m_active_model.material_id,
        position := s.m_active_model.position,
        submission_order := s.m_gbuffer_commands.length + s.m_transparent_commands.length }
    if s.m_active_model.blend then
      .returned () { s with m_transparent_commands := s.m_transparent_commands ++ [command] }
    else
      .returned () { s with m_gbuffer_commands := s.m_gbuffer_commands ++ [command] }

/-- A render system before the first frame: empty command buffers and a cache that
holds nothing. -/
def deferred_pbr_render_system.init : deferred_pbr_render_system :=
  { m_active_model :=
      { model_data_offset := -1,
        material_data_offset := -1,
        material_id := 0,
        position := (0, 0, 0),
        base_color_texture_name := 0,
        roughness_metallic_texture_name := 0,
        occlusion_texture_name := 0,
        normal_texture_name := 0,
        emissive_color_texture_name := 0,
        blend := false,
        face_culling := true },
    m_gbuffer_commands := [],
    m_transparent_commands := [] }

/-- A material block with the given metallic value: opaque white, no textures. -/
def material_with_metallic (m : ℚ) : material_data :=
  { base_color := (1, 1, 1, 1),
    emissive_color := (0, 0, 0),
    metallic := m,
    roughness := 1,
    base_color_texture := false,
    roughness_metallic_texture := false,
    occlusion_texture := false,
    packed_occlusion := false,
    normal_texture := false,
    emissive_color_texture := false,
    alpha_mode := 0,
    alpha_cutoff := 1 / 2,
    padding0 := 0,
    padding1 := 0 }

/-- A cache with the given face culling flag and no staged data. -/
def cache_with_face_culling (face_culling : Bool) : model_cache :=
  { deferred_pbr_render_system.init.m_active_model with face_culling := face_culling }

/-- An environment in which `create()` of a render system succeeds and the render
system reports `deferred_pbr` as its base pipeline. -/
def environment.succeeding : environment :=
  { system_create := fun _ _ => true,
    system_base_render_pipeline := fun _ _ => .deferred_pbr }

/-- An environment in which `create()` of a render system fails. -/
def environment.failing : environment :=
  { system_create := fun _ _ => false,
    system_base_render_pipeline := fun _ _ => .deferred_pbr }

/-- The steps that `configure` takes to install a new deferred pbr render system up
to and including its `create()` call, from the state `s`: the current system, if
there is one, is destroyed, the new instance is constructed and created. -/
def render_system_impl.recreation_steps (s : render_system_impl) : List event :=
  (match s.m_current_render_system with
    | some cur => [event.call cur .destroy]
    | none => [])
  ++ [.construct_deferred_pbr s.constructed, .call s.constructed .create]

/-- The steps that `configure` takes for a base render pipeline other than
`deferred_pbr`, from the state `s`: without a current render system the two errors
are logged; a current render system that reports another pipeline is destroyed
first and still receives the configuration; a current render system that reports
the configured pipeline only receives the configuration. -/
def render_system_impl.unknown_pipeline_steps (env : environment)
    (configuration : render_configuration) (s : render_system_impl) : List event :=
  match s.m_current_render_system with
  | none =>
    [.log_error "Render pipeline is unknown and the render system cannot be created!",
     .log_error "Render pipeline  failed to create and render system cannot be created!"]
  | some cur =>
    if configuration.base_render_pipeline ≠ env.system_base_render_pipeline cur s.trace then
      [.call cur .destroy,
       .log_error "Render pipeline is unknown and the render system cannot be created!",
       .call cur (.configure configuration),
       .log_error "Render pipeline  failed to create and render system cannot be created!"]
    else
      [.call cur (.configure configuration),
       .log_error "Render pipeline  failed to create and render system cannot be created!"]

/-! ## Input codes (`input_codes.hpp`) -/

/-- The enumerators of `enum class key_code : uint32`, in declaration order. -/
inductive key_code where
  | KEY_UNKNOWN
  | KEY_SPACE
  | KEY_APOSTROPHE
  | KEY_COMMA
  | KEY_MINUS
  | KEY_PERIOD
  | KEY_SLASH
  | KEY_0
  | KEY_1
  | KEY_2
  | KEY_3
  | KEY_4
  | KEY_5
  | KEY_6
  | KEY_7
  | KEY_8
  | KEY_9
  | KEY_SEMICOLON
  | KEY_EQUAL
  | KEY_A
  | KEY_B
  | KEY_C
  | KEY_D
  | KEY_E
  | KEY_F
  | KEY_G
  | KEY_H
  | KEY_I
  | KEY_J
  | KEY_K
  | KEY_L
  | KEY_M
  | KEY_N
  | KEY_O
  | KEY_P
  | KEY_Q
  | KEY_R
  | KEY_S
  | KEY_T
  | KEY_U
  | KEY_V
  | KEY_W
  | KEY_X
  | KEY_Y
  | KEY_Z
  | KEY_LEFT_BRACKET
  | KEY_BACKSLASH
  | KEY_RIGHT_BRACKET
  | KEY_GRAVE_ACCENT
  | KEY_WORLD_1
  | KEY_WORLD_2
  | KEY_ESCAPE
  | KEY_ENTER
  | KEY_TAB
  | KEY_BACKSPACE
  | KEY_INSERT
  | KEY_DELETE
  | KEY_RIGHT
  | KEY_LEFT
  | KEY_DOWN
  | KEY_UP
  | KEY_PAGE_UP
  | KEY_PAGE_DOWN
  | KEY_HOME
  | KEY_END
  | KEY_CAPS_LOCK
  | KEY_SCROLL_LOCK
  | KEY_NUM_LOCK
  | KEY_PRINT_SCREEN
  | KEY_PAUSE
  | KEY_F1
  | KEY_F2
  | KEY_F3
  | KEY_F4
  | KEY_F5
  | KEY_F6
  | KEY_F7
  | KEY_F8
  | KEY_F9
  | KEY_F10
  | KEY_F11
  | KEY_F12
  | KEY_F13
  | KEY_F14
  | KEY_F15
  | KEY_F16
  | KEY_F17
  | KEY_F18
  | KEY_F19
  | KEY_F20
  | KEY_F21
  | KEY_F22
  | KEY_F23
  | KEY_F24
  | KEY_F25
  | KEY_KP_0
  | KEY_KP_1
  | KEY_KP_2
  | KEY_KP_3
  | KEY_KP_4
  | KEY_KP_5
  | KEY_KP_6
  | KEY_KP_7
  | KEY_KP_8
  | KEY_KP_9
  | KEY_KP_DECIMAL
  | KEY_KP_DIVIDE
  | KEY_KP_MULTIPLY
  | KEY_KP_SUBTRACT
  | KEY_KP_ADD
  | KEY_KP_ENTER
  | KEY_KP_EQUAL
  | KEY_LEFT_SHIFT
  | KEY_LEFT_CONTROL
  | KEY_LEFT_ALT
  | KEY_LEFT_SUPER
  | KEY_RIGHT_SHIFT
  | KEY_RIGHT_CONTROL
  | KEY_RIGHT_ALT
  | KEY_RIGHT_SUPER
  | KEY_MENU
  deriving DecidableEq, Repr

/-- The numeric value that the header gives to each enumerator of `key_code`. -/
def key_code.value : key_code → Nat
  | .KEY_UNKNOWN => 0
  | .KEY_SPACE => 32
  | .KEY_APOSTROPHE => 39
  | .KEY_COMMA => 44
  | .KEY_MINUS => 45
  | .KEY_PERIOD => 46
  | .KEY_SLASH => 47
  | .KEY_0 => 48
  | .KEY_1 => 49
  | .KEY_2 => 50
  | .KEY_3 => 51
  | .KEY_4 => 52
  | .KEY_5 => 53
  | .KEY_6 => 54
  | .KEY_7 => 55
  | .KEY_8 => 56
  | .KEY_9 => 57
  | .KEY_SEMICOLON => 59
  | .KEY_EQUAL => 61
  | .KEY_A => 65
  | .KEY_B => 66
  | .KEY_C => 67
  | .KEY_D => 68
  | .KEY_E => 69
  | .KEY_F => 70
  | .KEY_G => 71
  | .KEY_H => 72
  | .KEY_I => 73
  | .KEY_J => 74
  | .KEY_K => 75
  | .KEY_L => 76
  | .KEY_M => 77
  | .KEY_N => 78
  | .KEY_O => 79
  | .KEY_P => 80
  | .KEY_Q => 81
  | .KEY_R => 82
  | .KEY_S => 83
  | .KEY_T => 84
  | .KEY_U => 85
  | .KEY_V => 86
  | .KEY_W => 87
  | .KEY_X => 88
  | .KEY_Y => 89
  | .KEY_Z => 90
  | .KEY_LEFT_BRACKET => 91
  | .KEY_BACKSLASH => 92
  | .KEY_RIGHT_BRACKET => 93
  | .KEY_GRAVE_ACCENT => 96
  | .KEY_WORLD_1 => 161
  | .KEY_WORLD_2 => 162
  | .KEY_ESCAPE => 256
  | .KEY_ENTER => 257
  | .KEY_TAB => 258
  | .KEY_BACKSPACE => 259
  | .KEY_INSERT => 260
  | .KEY_DELETE => 261
  | .KEY_RIGHT => 262
  | .KEY_LEFT => 263
  | .KEY_DOWN => 264
  | .KEY_UP => 265
  | .KEY_PAGE_UP => 266
  | .KEY_PAGE_DOWN => 267
  | .KEY_HOME => 268
  | .KEY_END => 269
  | .KEY_CAPS_LOCK => 280
  | .KEY_SCROLL_LOCK => 281
  | .KEY_NUM_LOCK => 282
  | .KEY_PRINT_SCREEN => 283
  | .KEY_PAUSE => 284
  | .KEY_F1 => 290
  | .KEY_F2 => 291
  | .KEY_F3 => 292
  | .KEY_F4 => 293
  | .KEY_F5 => 294
  | .KEY_F6 => 295
  | .KEY_F7 => 296
  | .KEY_F8 => 297
  | .KEY_F9 => 298
  | .KEY_F10 => 299
  | .KEY_F11 => 300
  | .KEY_F12 => 301
  | .KEY_F13 => 302
  | .KEY_F14 => 303
  | .KEY_F15 => 304
  | .KEY_F16 => 305
  | .KEY_F17 => 306
  | .KEY_F18 => 307
  | .KEY_F19 => 308
  | .KEY_F20 => 309
  | .KEY_F21 => 310
  | .KEY_F22 => 311
  | .KEY_F23 => 312
  | .KEY_F24 => 313
  | .KEY_F25 => 314
  | .KEY_KP_0 => 320
  | .KEY_KP_1 => 321
  | .KEY_KP_2 => 322
  | .KEY_KP_3 => 323
  | .KEY_KP_4 => 324
  | .KEY_KP_5 => 325
  | .KEY_KP_6 => 326
  | .KEY_KP_7 => 327
  | .KEY_KP_8 => 328
  | .KEY_KP_9 => 329
  | .KEY_KP_DECIMAL => 330
  | .KEY_KP_DIVIDE => 331
  | .KEY_KP_MULTIPLY => 332
  | .KEY_KP_SUBTRACT => 333
  | .KEY_KP_ADD => 334
  | .KEY_KP_ENTER => 335
  | .KEY_KP_EQUAL => 336
  | .KEY_LEFT_SHIFT => 340
  | .KEY_LEFT_CONTROL => 341
  | .KEY_LEFT_ALT => 342
  | .KEY_LEFT_SUPER => 343
  | .KEY_RIGHT_SHIFT => 344
  | .KEY_RIGHT_CONTROL => 345
  | .KEY_RIGHT_ALT => 346
  | .KEY_RIGHT_SUPER => 347
  | .KEY_MENU => 348

/-- All enumerators of `key_code`, in declaration order. -/
def key_code.all : List key_code :=
  [ key_code.KEY_UNKNOWN,
    key_code.KEY_SPACE,
    key_code.KEY_APOSTROPHE,
    key_code.KEY_COMMA,
    key_code.KEY_MINUS,
    key_code.KEY_PERIOD,
    key_code.KEY_SLASH,
    key_code.KEY_0,
    key_code.KEY_1,
    key_code.KEY_2,
    key_code.KEY_3,
    key_code.KEY_4,
    key_code.KEY_5,
    key_code.KEY_6,
    key_code.KEY_7,
    key_code.KEY_8,
    key_code.KEY_9,
    key_code.KEY_SEMICOLON,
    key_code.KEY_EQUAL,
    key_code.KEY_A,
    key_code.KEY_B,
    key_code.KEY_C,
    key_code.KEY_D,
    key_code.KEY_E,
    key_code.KEY_F,
    key_code.KEY_G,
    key_code.KEY_H,
    key_code.KEY_I,
    key_code.KEY_J,
    key_code.KEY_K,
    key_code.KEY_L,
    key_code.KEY_M,
    key_code.KEY_N,
    key_code.KEY_O,
    key_code.KEY_P,
    key_code.KEY_Q,
    key_code.KEY_R,
    key_code.KEY_S,
    key_code.KEY_T,
    key_code.KEY_U,
    key_code.KEY_V,
    key_code.KEY_W,
    key_code.KEY_X,
    key_code.KEY_Y,
    key_code.KEY_Z,
    key_code.KEY_LEFT_BRACKET,
    key_code.KEY_BACKSLASH,
    key_code.KEY_RIGHT_BRACKET,
    key_code.KEY_GRAVE_ACCENT,
    key_code.KEY_WORLD_1,
    key_code.KEY_WORLD_2,
    key_code.KEY_ESCAPE,
    key_code.KEY_ENTER,
    key_code.KEY_TAB,
    key_code.KEY_BACKSPACE,
    key_code.KEY_INSERT,
    key_code.KEY_DELETE,
    key_code.KEY_RIGHT,
    key_code.KEY_LEFT,
    key_code.KEY_DOWN,
    key_code.KEY_UP,
    key_code.KEY_PAGE_UP,
    key_code.KEY_PAGE_DOWN,
    key_code.KEY_HOME,
    key_code.KEY_END,
    key_code.KEY_CAPS_LOCK,
    key_code.KEY_SCROLL_LOCK,
    key_code.KEY_NUM_LOCK,
    key_code.KEY_PRINT_SCREEN,
    key_code.KEY_PAUSE,
    key_code.KEY_F1,
    key_code.KEY_F2,
    key_code.KEY_F3,
    key_code.KEY_F4,
    key_code.KEY_F5,
    key_code.KEY_F6,
    key_code.KEY_F7,
    key_code.KEY_F8,
    key_code.KEY_F9,
    key_code.KEY_F10,
    key_code.KEY_F11,
    key_code.KEY_F12,
    key_code.KEY_F13,
    key_code.KEY_F14,
    key_code.KEY_F15,
    key_code.KEY_F16,
    key_code.KEY_F17,
    key_code.KEY_F18,
    key_code.KEY_F19,
    key_code.KEY_F20,
    key_code.KEY_F21,
    key_code.KEY_F22,
    key_code.KEY_F23,
    key_code.KEY_F24,
    key_code.KEY_F25,
    key_code.KEY_KP_0,
    key_code.KEY_KP_1,
    key_code.KEY_KP_2,
    key_code.KEY_KP_3,
    key_code.KEY_KP_4,
    key_code.KEY_KP_5,
    key_code.KEY_KP_6,
    key_code.KEY_KP_7,
    key_code.KEY_KP_8,
    key_code.KEY_KP_9,
    key_code.KEY_KP_DECIMAL,
    key_code.KEY_KP_DIVIDE,
    key_code.KEY_KP_MULTIPLY,
    key_code.KEY_KP_SUBTRACT,
    key_code.KEY_KP_ADD,
    key_code.KEY_KP_ENTER,
    key_code.KEY_KP_EQUAL,
    key_code.KEY_LEFT_SHIFT,
    key_code.KEY_LEFT_CONTROL,
    key_code.KEY_LEFT_ALT,
    key_code.KEY_LEFT_SUPER,
    key_code.KEY_RIGHT_SHIFT,
    key_code.KEY_RIGHT_CONTROL,
    key_code.KEY_RIGHT_ALT,
    key_code.KEY_RIGHT_SUPER,
    key_code.KEY_MENU ]

/-- The key tokens `GLFW_KEY_*` of the GLFW 3 header `glfw3.h`, a library outside this
repository, by the name of the matching `key_code` enumerator. -/
def glfw_key : key_code → ℤ
  | .KEY_UNKNOWN => -1
  | .KEY_SPACE => 32
  | .KEY_APOSTROPHE => 39
  | .KEY_COMMA => 44
  | .KEY_MINUS => 45
  | .KEY_PERIOD => 46
  | .KEY_SLASH => 47
  | .KEY_0 => 48
  | .KEY_1 => 49
  | .KEY_2 => 50
  | .KEY_3 => 51
  | .KEY_4 => 52
  | .KEY_5 => 53
  | .KEY_6 => 54
  | .KEY_7 => 55
  | .KEY_8 => 56
  | .KEY_9 => 57
  | .KEY_SEMICOLON => 59
  | .KEY_EQUAL => 61
  | .KEY_A => 65
  | .KEY_B => 66
  | .KEY_C => 67
  | .KEY_D => 68
  | .KEY_E => 69
  | .KEY_F => 70
  | .KEY_G => 71
  | .KEY_H => 72
  | .KEY_I => 73
  | .KEY_J => 74
  | .KEY_K => 75
  | .KEY_L => 76
  | .KEY_M => 77
  | .KEY_N => 78
  | .KEY_O => 79
  | .KEY_P => 80
  | .KEY_Q => 81
  | .KEY_R => 82
  | .KEY_S => 83
  | .KEY_T => 84
  | .KEY_U => 85
  | .KEY_V => 86
  | .KEY_W => 87
  | .KEY_X => 88
  | .KEY_Y => 89
  | .KEY_Z => 90
  | .KEY_LEFT_BRACKET => 91
  | .KEY_BACKSLASH => 92
  | .KEY_RIGHT_BRACKET => 93
  | .KEY_GRAVE_ACCENT => 96
  | .KEY_WORLD_1 => 161
  | .KEY_WORLD_2 => 162
  | .KEY_ESCAPE => 256
  | .KEY_ENTER => 257
  | .KEY_TAB => 258
  | .KEY_BACKSPACE => 259
  | .KEY_INSERT => 260
  | .KEY_DELETE => 261
  | .KEY_RIGHT => 262
  | .KEY_LEFT => 263
  | .KEY_DOWN => 264
  | .KEY_UP => 265
  | .KEY_PAGE_UP => 266
  | .KEY_PAGE_DOWN => 267
  | .KEY_HOME => 268
  | .KEY_END => 269
  | .KEY_CAPS_LOCK => 280
  | .KEY_SCROLL_LOCK => 281
  | .KEY_NUM_LOCK => 282
  | .KEY_PRINT_SCREEN => 283
  | .KEY_PAUSE => 284
  | .KEY_F1 => 290
  | .KEY_F2 => 291
  | .KEY_F3 => 292
  | .KEY_F4 => 293
  | .KEY_F5 => 294
  | .KEY_F6 => 295
  | .KEY_F7 => 296
  | .KEY_F8 => 297
  | .KEY_F9 => 298
  | .KEY_F10 => 299
  | .KEY_F11 => 300
  | .KEY_F12 => 301
  | .KEY_F13 => 302
  | .KEY_F14 => 303
  | .KEY_F15 => 304
  | .KEY_F16 => 305
  | .KEY_F17 => 306
  | .KEY_F18 => 307
  | .KEY_F19 => 308
  | .KEY_F20 => 309
  | .KEY_F21 => 310
  | .KEY_F22 => 311
  | .KEY_F23 => 312
  | .KEY_F24 => 313
  | .KEY_F25 => 314
  | .KEY_KP_0 => 320
  | .KEY_KP_1 => 321
  | .KEY_KP_2 => 322
  | .KEY_KP_3 => 323
  | .KEY_KP_4 => 324
  | .KEY_KP_5 => 325
  | .KEY_KP_6 => 326
  | .KEY_KP_7 => 327
  | .KEY_KP_8 => 328
  | .KEY_KP_9 => 329
  | .KEY_KP_DECIMAL => 330
  | .KEY_KP_DIVIDE => 331
  | .KEY_KP_MULTIPLY => 332
  | .KEY_KP_SUBTRACT => 333
  | .KEY_KP_ADD => 334
  | .KEY_KP_ENTER => 335
  | .KEY_KP_EQUAL => 336
  | .KEY_LEFT_SHIFT => 340
  | .KEY_LEFT_CONTROL => 341
  | .KEY_LEFT_ALT => 342
  | .KEY_LEFT_SUPER => 343
  | .KEY_RIGHT_SHIFT => 344
  | .KEY_RIGHT_CONTROL => 345
  | .KEY_RIGHT_ALT => 346
  | .KEY_RIGHT_SUPER => 347
  | .KEY_MENU => 348

/-- The enumerators of `enum class mouse_button : uint8` that introduce a value. -/
inductive mouse_button where
  | MOUSE_BUTTON_1
  | MOUSE_BUTTON_2
  | MOUSE_BUTTON_3
  | MOUSE_BUTTON_4
  | MOUSE_BUTTON_5
  | MOUSE_BUTTON_6
  | MOUSE_BUTTON_7
  | MOUSE_BUTTON_8
  deriving DecidableEq, Repr

/-- The enumerator `MOUSE_BUTTON_LEFT = MOUSE_BUTTON_1`. -/
def mouse_button.MOUSE_BUTTON_LEFT : mouse_button := .MOUSE_BUTTON_1

/-- The enumerator `MOUSE_BUTTON_RIGHT = MOUSE_BUTTON_2`. -/
def mouse_button.MOUSE_BUTTON_RIGHT : mouse_button := .MOUSE_BUTTON_2

/-- The enumerator `MOUSE_BUTTON_MIDDLE = MOUSE_BUTTON_3`. -/
def mouse_button.MOUSE_BUTTON_MIDDLE : mouse_button := .MOUSE_BUTTON_3

/-- The numeric value that the header gives to each enumerator of `mouse_button`. -/
def mouse_button.value : mouse_button → Nat
  | .MOUSE_BUTTON_1 => 0
  | .MOUSE_BUTTON_2 => 1
  | .MOUSE_BUTTON_3 => 2
  | .MOUSE_BUTTON_4 => 3
  | .MOUSE_BUTTON_5 => 4
  | .MOUSE_BUTTON_6 => 5
  | .MOUSE_BUTTON_7 => 6
  | .MOUSE_BUTTON_8 => 7

/-- The tokens `GLFW_MOUSE_BUTTON_1` to `GLFW_MOUSE_BUTTON_8` of `glfw3.h`. -/
def glfw_mouse_button : mouse_button → ℤ
  | .MOUSE_BUTTON_1 => 0
  | .MOUSE_BUTTON_2 => 1
  | .MOUSE_BUTTON_3 => 2
  | .MOUSE_BUTTON_4 => 3
  | .MOUSE_BUTTON_5 => 4
  | .MOUSE_BUTTON_6 => 5
  | .MOUSE_BUTTON_7 => 6
  | .MOUSE_BUTTON_8 => 7

/-- The tokens `GLFW_MOUSE_BUTTON_LEFT`, `GLFW_MOUSE_BUTTON_RIGHT` and
`GLFW_MOUSE_BUTTON_MIDDLE` of `glfw3.h`: the buttons 1, 2 and 3. -/
def glfw_mouse_button_left_right_middle : ℤ × ℤ × ℤ := (0, 1, 2)

/-- The enumerators of `enum class input_action : uint8`. -/
inductive input_action where
  | RELEASE
  | PRESS
  | REPEAT
  deriving DecidableEq, Repr

/-- The numeric value that the header gives to each enumerator of `input_action`. -/
def input_action.value : input_action → Nat
  | .RELEASE => 0
  | .PRESS => 1
  | .REPEAT => 2

/-- The tokens `GLFW_RELEASE`, `GLFW_PRESS` and `GLFW_REPEAT` of `glfw3.h`. -/
def glfw_action : input_action → ℤ
  | .RELEASE => 0
  | .PRESS => 1
  | .REPEAT => 2

/-- The enumerators of `enum class modifier : uint8`. -/
inductive modifier where
  | NONE
  | MOD_SHIFT
  | MOD_CONTROL
  | MOD_ALT
  | MOD_SUPER
  | MOD_CAPS_LOCK
  | MOD_NUM_LOCK
  deriving DecidableEq, Repr

/-- The numeric value that the header gives to each enumerator of `modifier`. -/
def modifier.value : modifier → Nat
  | .NONE => 0
  | .MOD_SHIFT => 0x0001
  | .MOD_CONTROL => 0x0002
  | .MOD_ALT => 0x0004
  | .MOD_SUPER => 0x0008
  | .MOD_CAPS_LOCK => 0x0010
  | .MOD_NUM_LOCK => 0x0020

/-- The modifier bits `GLFW_MOD_*` of `glfw3.h`; GLFW has no token for the empty set
of modifiers, which is the bit field `0`. -/
def glfw_mod : modifier → Option ℤ
  | .NONE => none
  | .MOD_SHIFT => some 0x0001
  | .MOD_CONTROL => some 0x0002
  | .MOD_ALT => some 0x0004
  | .MOD_SUPER => some 0x0008
  | .MOD_CAPS_LOCK => some 0x0010
  | .MOD_NUM_LOCK => some 0x0020

/-! ## `render_system_impl`: the remaining entry points -/

/-- The member `render_system_impl::begin_render`. -/
def render_system_impl.begin_render (s : render_system_impl) :
    outcome Unit render_system_impl :=
  match s.m_current_render_system with
  | none => .assertion_failed "Current render sytem not valid!" s
  | some cur => .returned () (s.record (.call cur .begin_render))

/-- The member `render_system_impl::finish_render`. -/
def render_system_impl.finish_render (s : render_system_impl) :
    outcome Unit render_system_impl :=
  match s.m_current_render_system with
  | none => .assertion_failed "Current render sytem not valid!" s
  | some cur => .returned () (s.record (.call cur .finish_render))

/-- The member `render_system_impl::set_model_info`. -/
def render_system_impl.set_model_info (model_matrix : List ℚ) (has_normals has_tangents : Bool)
    (s : render_system_impl) : outcome Unit render_system_impl :=
  match s.m_current_render_system with
  | none => .assertion_failed "Current render sytem not valid!" s
  | some cur =>
    .returned () (s.record (.call cur (.set_model_info model_matrix has_normals has_tangents)))

/-- The member `render_system_impl::draw_mesh`: four assertions, then the call is
forwarded. -/
def render_system_impl.draw_mesh (mat : Nat) (topology : Nat) (first count : ℤ) (type : Nat)
    (instance_count : ℤ) (s : render_system_impl) : outcome Unit render_system_impl :=
  match s.m_current_render_system with
  | none => .assertion_failed "Current render sytem not valid!" s
  | some cur =>
    if ¬ (first ≥ 0) then .assertion_failed "The first index has to be greater than 0!" s
    else if ¬ (count ≥ 0) then .assertion_failed "The index count has to be greater than 0!" s
    else if ¬ (instance_count ≥ 0) then
      .assertion_failed "The instance count has to be greater than 0!" s
    else
      .returned ()
        (s.record (.call cur (.draw_mesh mat topology first count type instance_count)))

/-- The member `render_system_impl::set_view_projection_matrix`. -/
def render_system_impl.set_view_projection_matrix (view_projection : List ℚ)
    (s : render_system_impl) : outcome Unit render_system_impl :=
  match s.m_current_render_system with
  | none => .assertion_failed "Current render sytem not valid!" s
  | some cur => .returned () (s.record (.call cur (.set_view_projection_matrix view_projection)))

/-- The member `render_system_impl::set_environment_texture`. -/
def render_system_impl.set_environment_texture (hdr_texture : Nat) (render_level : ℚ)
    (s : render_system_impl) : outcome Unit render_system_impl :=
  match s.m_current_render_system with
  | none => .assertion_failed "Current render sytem not valid!" s
  | some cur =>
    .returned () (s.record (.call cur (.set_environment_texture hdr_texture render_level)))

/-- The member `render_system_impl::get_backbuffer`; `system_backbuffer` is the frame
buffer that a render system instance hands out. -/
def render_system_impl.get_backbuffer (system_backbuffer : Nat → Nat)
    (s : render_system_impl) : outcome Nat render_system_impl :=
  match s.m_current_render_system with
  | none => .assertion_failed "Current render sytem not valid!" s
  | some cur => .returned (system_backbuffer cur) (s.record (.call cur .get_backbuffer))

/-- The member `render_system_impl::update`. -/
def render_system_impl.update (dt : ℚ) (s : render_system_impl) :
    outcome Unit render_system_impl :=
  match s.m_current_render_system with
  | none => .assertion_failed "Current render sytem not valid!" s
  | some cur => .returned () (s.record (.call cur (.update dt)))

/-- The member `render_system_impl::destroy`:
`if (m_current_render_system) m_current_render_system->destroy();`. -/
def render_system_impl.destroy (s : render_system_impl) : render_system_impl :=
  match s.m_current_render_system with
  | some cur => s.record (.call cur .destroy)
  | none => s

/-- The member `render_system_impl::get_base_render_pipeline`; the query of the current
render system changes nothing and leaves no step in the trace. -/
def render_system_impl.get_base_render_pipeline (env : environment)
    (s : render_system_impl) : outcome render_pipeline render_system_impl :=
  match s.m_current_render_system with
  | none => .assertion_failed "Current render sytem not valid!" s
  | some cur => .returned (env.system_base_render_pipeline cur s.trace) s

/-- The number of `destroy()` calls in a trace. -/
def destroy_calls (steps : List event) : Nat :=
  (steps.filter (fun e => match e with
    | .call _ .destroy => true
    | _ => false)).length

/-- The number of render systems constructed in a trace. -/
def constructions (steps : List event) : Nat :=
  (steps.filter (fun e => match e with
    | .construct_deferred_pbr _ => true
    | _ => false)).length

/-- The number of creation failures logged in a trace. -/
def logged_creation_failures (steps : List event) : Nat :=
  (steps.filter (fun e => decide (e = .log_error
    "Render pipeline  failed to create and render system cannot be created!"))).length

/-- A configuration that selects the deferred pbr pipeline. -/
def render_configuration.deferred (vsync : Bool) (render_steps : List Bool) :
    render_configuration :=
  { base_render_pipeline := .deferred_pbr, vsync := vsync, render_steps := render_steps }

/-! ## Vectors and the `glm` functions used by the editor and the scene systems -/

/-- The type `glm::vec2`. -/
structure vec2 (K : Type) where
  x : K
  y : K

/-- The type `glm::vec3`. -/
structure vec3 (K : Type) where
  x : K
  y : K
  z : K

/-- The difference `a - b` of two `glm::vec3`. -/
def vec3.sub {K : Type} [LinearOrderedField K] (a b : vec3 K) : vec3 K :=
  ⟨a.x - b.x, a.y - b.y, a.z - b.z⟩

/-- The function `glm::dot` on `glm::vec3`. -/
def glm_dot {K : Type} [LinearOrderedField K] (a b : vec3 K) : K :=
  a.x * b.x + a.y * b.y + a.z * b.z

/-- The function `glm::cross`. -/
def glm_cross {K : Type} [LinearOrderedField K] (a b : vec3 K) : vec3 K :=
  ⟨a.y * b.z - b.y * a.z, a.z * b.x - b.z * a.x, a.x * b.y - b.x * a.y⟩

/-- The function `glm::normalize`: the vector divided by its length; `sqrt` is the
square root of the arithmetic in use. -/
def glm_normalize {K : Type} [LinearOrderedField K] (sqrt : K → K) (v : vec3 K) : vec3 K :=
  ⟨v.x / sqrt (glm_dot v v), v.y / sqrt (glm_dot v v), v.z / sqrt (glm_dot v v)⟩

/-- The function `glm::radians`: degrees times `π / 180`; `pi` is the value of `π` of
the arithmetic in use. -/
def glm_radians {K : Type} [LinearOrderedField K] (pi : K) (degrees : K) : K :=
  degrees * (pi / 180)

/-- The function `glm::clamp`: `min(max(x, lo), hi)`. -/
def glm_clamp {K : Type} [LinearOrderedField K] (x lo hi : K) : K :=
  min (max x lo) hi

/-- The function `glm::mod`: `a - b * floor(a / b)`. -/
def glm_mod {K : Type} [LinearOrderedField K] [FloorRing K] (a b : K) : K :=
  a - b * (⌊a / b⌋ : K)

/-! ## The orbit camera of the editor (`editor.cpp`) -/

/-- The members of `editor` that the camera controls use. -/
structure editor (K : Type) where
  m_camera_rotation : vec2 K
  m_last_mouse_position : vec2 K
  m_camera_radius : K

/-- The values that `editor::create` gives to the camera members: rotation
`(0, radians(90))`, last mouse position `(0, 0)` and radius `1`. -/
def editor.create {K : Type} [LinearOrderedField K] (pi : K) : editor K :=
  { m_camera_rotation := ⟨0, glm_radians pi 90⟩,
    m_last_mouse_position := ⟨0, 0⟩,
    m_camera_radius := 1 }

/-- The mouse position callback set in `editor::create`.  `left_button` is the state
that the input system reports for the left mouse button.  The test
`glm::length(m_last_mouse_position) == 0.0f` is the test that the sum of the squares
of the two coordinates is zero. -/
def editor.mouse_position_callback {K : Type} [LinearOrderedField K] [FloorRing K] (pi : K)
    (left_button : input_action) (x_position y_position : K) (e : editor K) : editor K :=
  if left_button = .RELEASE ∨
      e.m_last_mouse_position.x * e.m_last_mouse_position.x
        + e.m_last_mouse_position.y * e.m_last_mouse_position.y = 0 then
    { e with m_last_mouse_position := ⟨x_position, y_position⟩ }
  else
    let diff : vec2 K :=
      ⟨x_position - e.m_last_mouse_position.x, y_position - e.m_last_mouse_position.y⟩
    let diff : vec2 K := ⟨diff.x, diff.y * (-1)⟩
    let rotation : vec2 K :=
      ⟨e.m_camera_rotation.x + diff.x * (5 / 1000), e.m_camera_rotation.y + diff.y * (5 / 1000)⟩
    let rotation : vec2 K :=
      ⟨rotation.x, glm_clamp rotation.y (glm_radians pi 15) (glm_radians pi 165)⟩
    let rotation : vec2 K :=
      ⟨if rotation.x < 0 then rotation.x + glm_radians pi 360 else rotation.x, rotation.y⟩
    let rotation : vec2 K := ⟨glm_mod rotation.x (glm_radians pi 360), rotation.y⟩
    { e with
      m_camera_rotation := rotation,
      m_last_mouse_position := ⟨x_position, y_position⟩ }

/-- The mouse scroll callback set in `editor::create`. -/
def editor.mouse_scroll_callback {K : Type} [LinearOrderedField K]
    (x_offset y_offset : K) (e : editor K) : editor K :=
  let radius := if y_offset < 0 then e.m_camera_radius * (104 / 100)
    else e.m_camera_radius / (104 / 100)
  { e with m_camera_radius := glm_clamp radius (125 / 1000) (125 / 10) }

/-- An input that reaches the editor through one of the two callbacks. -/
inductive editor_input (K : Type) where
  | mouse_position (left_button : input_action) (x_position y_position : K)
  | mouse_scroll (x_offset y_offset : K)

/-- The callback that the input system invokes for an input. -/
def editor.handle {K : Type} [LinearOrderedField K] [FloorRing K] (pi : K)
    (e : editor K) : editor_input K → editor K
  | .mouse_position left_button x_position y_position =>
    e.mouse_position_callback pi left_button x_position y_position
  | .mouse_scroll x_offset y_offset => e.mouse_scroll_callback x_offset y_offset

/-- The editor after a sequence of inputs, the first input of the list first. -/
def editor.run {K : Type} [LinearOrderedField K] [FloorRing K] (pi : K)
    (e : editor K) (inputs : List (editor_input K)) : editor K :=
  inputs.foldl (editor.handle pi) e

/-- The member `editor::update`: the position that it writes into the transform of the
main camera, from the target of the camera; `sin` and `cos` are the functions of the
arithmetic in use. -/
def editor.update {K : Type} [LinearOrderedField K] (sin cos : K → K) (target : vec3 K)
    (e : editor K) : vec3 K :=
  { x := target.x + e.m_camera_radius * (sin e.m_camera_rotation.y * cos e.m_camera_rotation.x),
    y := target.y + e.m_camera_radius * (cos e.m_camera_rotation.y),
    z := target.z + e.m_camera_radius * (sin e.m_camera_rotation.y * sin e.m_camera_rotation.x) }

/-- The vector `front` of `camera_update_system::update`:
`glm::normalize(c.target - transform->position)`. -/
def camera_front {K : Type} [LinearOrderedField K] (sqrt : K → K) (target position : vec3 K) :
    vec3 K :=
  glm_normalize sqrt (target.sub position)

/-- The vector `right` of `camera_update_system::update`:
`glm::normalize(glm::cross(glm::vec3(0.0f, 1.0f, 0.0f), front))`. -/
def camera_right {K : Type} [LinearOrderedField K] (sqrt : K → K) (front : vec3 K) : vec3 K :=
  glm_normalize sqrt (glm_cross ⟨0, 1, 0⟩ front)

/-! ## Transformations of the scene (`ecs_internal.hpp`) -/

/-- The type `glm::vec4`. -/
structure vec4 (K : Type) where
  x : K
  y : K
  z : K
  w : K

/-- The type `glm::mat4`; the entry in row `r` of column `c`, `m[c][r]` in the source,
is `m r c`. -/
abbrev mat4 (K : Type) := Matrix (Fin 4) (Fin 4) K

/-- The function `glm::translate(m, v)`: the last column becomes
`m[0] * v[0] + m[1] * v[1] + m[2] * v[2] + m[3]`, the other columns are kept. -/
def glm_translate {K : Type} [LinearOrderedField K] (m : mat4 K) (v : vec3 K) : mat4 K :=
  Matrix.of fun r c =>
    if c = 3 then m r 0 * v.x + m r 1 * v.y + m r 2 * v.z + m r 3 else m r c

/-- The 3 by 3 matrix `Rotate` that `glm::rotate` builds from the angle and the
normalised axis, `Rotate[c][r]` in the source being the entry in row `r` of column
`c`. -/
def glm_rotate_block {K : Type} [LinearOrderedField K] (sin cos : K → K) (angle : K)
    (axis : vec3 K) : Matrix (Fin 3) (Fin 3) K :=
  let c := cos angle
  let s := sin angle
  let temp : vec3 K := ⟨(1 - c) * axis.x, (1 - c) * axis.y, (1 - c) * axis.z⟩
  Matrix.of fun row col =>
    match col, row with
    | 0, 0 => c + temp.x * axis.x
    | 0, 1 => temp.x * axis.y + s * axis.z
    | 0, 2 => temp.x * axis.z - s * axis.y
    | 1, 0 => temp.y * axis.x - s * axis.z
    | 1, 1 => c + temp.y * axis.y
    | 1, 2 => temp.y * axis.z + s * axis.x
    | 2, 0 => temp.z * axis.x + s * axis.y
    | 2, 1 => temp.z * axis.y - s * axis.x
    | 2, 2 => c + temp.z * axis.z

/-- The function `glm::rotate(m, angle, v)`: with `Rotate` built from the angle and
the normalised `v`, column `i < 3` of the result is
`m[0] * Rotate[i][0] + m[1] * Rotate[i][1] + m[2] * Rotate[i][2]` and the last
column is `m[3]`. -/
def glm_rotate {K : Type} [LinearOrderedField K] (sin cos sqrt : K → K) (m : mat4 K) (angle : K)
    (v : vec3 K) : mat4 K :=
  let rotate := glm_rotate_block sin cos angle (glm_normalize sqrt v)
  Matrix.of fun r c =>
    match c with
    | 0 => m r 0 * rotate 0 0 + m r 1 * rotate 1 0 + m r 2 * rotate 2 0
    | 1 => m r 0 * rotate 0 1 + m r 1 * rotate 1 1 + m r 2 * rotate 2 1
    | 2 => m r 0 * rotate 0 2 + m r 1 * rotate 1 2 + m r 2 * rotate 2 2
    | 3 => m r 3

/-- The function `glm::scale(m, v)`: column `i < 3` of the result is `m[i] * v[i]` and
the last column is `m[3]`. -/
def glm_scale {K : Type} [LinearOrderedField K] (m : mat4 K) (v : vec3 K) : mat4 K :=
  Matrix.of fun r c =>
    match c with
    | 0 => m r 0 * v.x
    | 1 => m r 1 * v.y
    | 2 => m r 2 * v.z
    | 3 => m r 3

/-- The members of `transform_component` that the systems read and write. -/
structure transform_component (K : Type) where
  position : vec3 K
  rotation : vec4 K
  scale : vec3 K
  local_transformation_matrix : mat4 K
  world_transformation_matrix : mat4 K

/-- The body of the lambda in `transformation_update_system::update`, applied to one
component. -/
def transformation_update_component {K : Type} [LinearOrderedField K] (sin cos sqrt : K → K)
    (c : transform_component K) : transform_component K :=
  let translated : mat4 K := glm_translate (1 : mat4 K) c.position
  let c : transform_component K := { c with local_transformation_matrix := translated }
  let rotated : mat4 K :=
    glm_rotate sin cos sqrt c.local_transformation_matrix c.rotation.x
      ⟨c.rotation.y, c.rotation.z, c.rotation.w⟩
  let c : transform_component K := { c with local_transformation_matrix := rotated }
  let scaled : mat4 K := glm_scale c.local_transformation_matrix c.scale
  let c : transform_component K := { c with local_transformation_matrix := scaled }
  { c with world_transformation_matrix := c.local_transformation_matrix }

/-- The member `transformation_update_system::update`: `for_each` applies the lambda
to every component of the pool. -/
def transformation_update_system.update {K : Type} [LinearOrderedField K]
    (sin cos sqrt : K → K) (transformations : List (transform_component K)) :
    List (transform_component K) :=
  transformations.map (transformation_update_component sin cos sqrt)

/-- The translation matrix `T(v)`. -/
def translation_matrix {K : Type} [LinearOrderedField K] (v : vec3 K) : mat4 K :=
  !![1, 0, 0, v.x;
     0, 1, 0, v.y;
     0, 0, 1, v.z;
     0, 0, 0, 1]

/-- The matrix `R(angle, axis)` of the rotation by `angle` about the unit vector
`axis`, with `c = cos(angle)` and `s = sin(angle)`:
`c * I + s * [axis]ₓ + (1 - c) * axis * axisᵀ`. -/
def rotation_matrix {K : Type} [LinearOrderedField K] (sin cos : K → K) (angle : K)
    (axis : vec3 K) : mat4 K :=
  let c := cos angle
  let s := sin angle
  !![c + (1 - c) * axis.x * axis.x, (1 - c) * axis.x * axis.y - s * axis.z,
       (1 - c) * axis.x * axis.z + s * axis.y, 0;
     (1 - c) * axis.y * axis.x + s * axis.z, c + (1 - c) * axis.y * axis.y,
       (1 - c) * axis.y * axis.z - s * axis.x, 0;
     (1 - c) * axis.z * axis.x - s * axis.y, (1 - c) * axis.z * axis.y + s * axis.x,
       c + (1 - c) * axis.z * axis.z, 0;
     0, 0, 0, 1]

/-- The scaling matrix `S(v)`. -/
def scaling_matrix {K : Type} [LinearOrderedField K] (v : vec3 K) : mat4 K :=
  !![v.x, 0, 0, 0;
     0, v.y, 0, 0;
     0, 0, v.z, 0;
     0, 0, 0, 1]

/-! ## The sortable command buffer -/

/-- Modelled from the spec: the class `command_buffer` is declared in
`command_buffer.hpp`, which is not part of the available sources (the header
`deferred_pbr_render_system.hpp` only holds `command_buffer_ptr` members).  A
command buffer is an ordered container of (key, command) pairs; a sort key is a
fixed-width unsigned integer. -/
structure command_buffer (command : Type) where
  entries : List (Nat × command)

/-- Modelled from the spec: a command buffer is cleared at frame start, it holds no
entry. -/
def command_buffer.empty {command : Type} : command_buffer command :=
  { entries := [] }

/-- Modelled from the spec: `record(command, key)` of the missing `command_buffer.hpp`
appends a command tagged with a sort key. -/
def command_buffer.record {command : Type} (b : command_buffer command) (c : command)
    (key : Nat) : command_buffer command :=
  { entries := b.entries ++ [(key, c)] }

/-- Insertion of an entry into a list sorted by key, in front of the first entry
whose key is not smaller. -/
def command_buffer.insert_by_key {command : Type} (e : Nat × command) :
    List (Nat × command) → List (Nat × command)
  | [] => [e]
  | h :: t => if e.1 ≤ h.1 then e :: h :: t else h :: command_buffer.insert_by_key e t

/-- Sort by key, ascending and stable: every entry is inserted in front of the entries
recorded after it that have the same or a larger key. -/
def command_buffer.sort_by_key {command : Type} :
    List (Nat × command) → List (Nat × command)
  | [] => []
  | e :: es => command_buffer.insert_by_key e (command_buffer.sort_by_key es)

/-- Modelled from the spec: `execute(device)` of the missing `command_buffer.hpp` sorts
all entries by key ascending (stable) and dispatches each to the graphics device in
order; the result is the list of entries in the order of their dispatch. -/
def command_buffer.execute {command : Type} (b : command_buffer command) :
    List (Nat × command) :=
  command_buffer.sort_by_key b.entries

/-- The buffer after recording the entries of a list, the first entry first. -/
def command_buffer.record_all {command : Type} (b : command_buffer command)
    (es : List (Nat × command)) : command_buffer command :=
  es.foldl (fun acc e => acc.record e.2 e.1) b

/-! ## The shadow cascades (`shadow_map_step.hpp`) -/

/-- The constant `shadow_map_step::max_shadow_mapping_cascades`. -/
def shadow_map_step.max_shadow_mapping_cascades : Nat := 4

/-- The initial value of the member `m_shadow_map_cascade_count`. -/
def shadow_map_step.default_shadow_map_cascade_count : Nat := 3

/-- The number of entries of the array `m_cascade_data.split_depth`:
`max_shadow_mapping_cascades + 1`. -/
def shadow_map_step.split_depth_size : Nat := shadow_map_step.max_shadow_mapping_cascades + 1

/-- Linear interpolation from `a` (at `t = 0`) to `b` (at `t = 1`). -/
def lerp {K : Type} [LinearOrderedField K] (a b t : K) : K := a + t * (b - a)

/-- Modelled from the spec: the body of `shadow_map_step::update_cascades` is in
`shadow_map_step.cpp`, which is not part of the available sources.  Boundary `i` of
`cascade_count` cascades is `lerp(uniform_split, log_split, lambda)`, the uniform
split dividing the range from `camera_near` to `camera_far` evenly and the
logarithmic split dividing the ratio `camera_far / camera_near` evenly; `pow` is the
power function of the arithmetic in use. -/
def shadow_map_step.split_boundary {K : Type} [LinearOrderedField K] (pow : K → K → K)
    (camera_near camera_far lambda : K) (cascade_count : Nat) (i : Nat) : K :=
  let p : K := (i : K) / (cascade_count : K)
  let uniform_split := camera_near + (camera_far - camera_near) * p
  let log_split := camera_near * pow (camera_far / camera_near) p
  lerp uniform_split log_split lambda

/-- Modelled from the spec: the split depths that `shadow_map_step::update_cascades`
(body in the missing `shadow_map_step.cpp`) stores in `m_cascade_data.split_depth`
for `cascade_count` cascades: the `cascade_count + 1` boundaries, near and far
included. -/
def shadow_map_step.update_cascades {K : Type} [LinearOrderedField K] (pow : K → K → K)
    (camera_near camera_far lambda : K) (cascade_count : Nat) : List K :=
  (List.range (cascade_count + 1)).map
    (shadow_map_step.split_boundary pow camera_near camera_far lambda cascade_count)

/-! ## The drag and drop callback of the editor (`editor.cpp`) -/

/-- The constant `std::string::npos`, the largest value of a 64 bit `size_t`. -/
def string_npos : Nat := 2 ^ 64 - 1

/-- The scan behind `find_last_of`: `i` is the index of the head of the rest of the
string and `found` the index of the last occurrence seen so far. -/
def find_last_of_from (c : Char) : List Char → Nat → Nat → Nat
  | [], _, found => found
  | x :: xs, i, found => find_last_of_from c xs (i + 1) (if x = c then i else found)

/-- The call `path.find_last_of(".")` for the character `c`: the index of the last
occurrence of `c`, or `npos` when there is none. -/
def find_last_of (path : List Char) (c : Char) : Nat :=
  find_last_of_from c path 0 string_npos

/-- The call `path.substr(pos)` for a position up to the length of the string: the
characters from `pos` on. -/
def substr (path : List Char) (pos : Nat) : List Char := path.drop pos

/-- The expression `path.substr(path.find_last_of(".") + 1)` of the callback; the sum
is a `size_t` sum and wraps, `npos + 1` is `0`. -/
def path_extension (path : List Char) : List Char :=
  substr path ((find_last_of path '.' + 1) % 2 ^ 64)

/-- Calls that the drag and drop callback makes on the current scene. -/
inductive scene_call where
  | remove_entity (e : Nat)
  | create_environment_from_hdr (path : List Char) (intensity : ℚ)
  | create_entities_from_model (path : List Char)
  deriving DecidableEq

/-- What the scene returns to the callback; the scene is outside the available
sources, its results are functions of the path and of the calls made so far. -/
structure scene_results where
  environment_from_hdr : List Char → List scene_call → Nat
  entities_from_model : List Char → List scene_call → List Nat

/-- The members `m_environment` and `m_model` of `editor`, with the calls made on the
scene so far. -/
structure editor_entities where
  m_environment : Nat
  m_model : List Nat
  scene_calls : List scene_call

/-- The body of the loop of the drag and drop callback, for one path. -/
def editor_entities.drop_path (scene : scene_results) (s : editor_entities)
    (path : List Char) : editor_entities :=
  let ext := path_extension path
  if ext = "hdr".toList then
    let calls := s.scene_calls ++ [.remove_entity s.m_environment]
    { m_environment := scene.environment_from_hdr path calls,
      m_model := s.m_model,
      scene_calls := calls ++ [.create_environment_from_hdr path (125 / 1000)] }
  else if ext = "glb".toList ∨ ext = "gltf".toList then
    let calls := s.scene_calls ++ s.m_model.map scene_call.remove_entity
    { m_environment := s.m_environment,
      m_model := scene.entities_from_model path calls,
      scene_calls := calls ++ [.create_entities_from_model path] }
  else s

/-- The drag and drop callback set in `editor::create`: the loop over the dropped
paths, the first path first. -/
def editor_entities.drag_and_drop_callback (scene : scene_results) (s : editor_entities)
    (paths : List (List Char)) : editor_entities :=
  paths.foldl (editor_entities.drop_path scene) s

/-- A scene that numbers the entities it creates by the number of calls made on it. -/
def scene_results.counting : scene_results :=
  { environment_from_hdr := fun _ calls => calls.length,
    entities_from_model := fun _ calls => [calls.length, calls.length + 1] }

/-! ## The scene graph (`ecs_internal.hpp`) -/

/-- The member of `node_component` that `scene_graph_update_system` reads. -/
structure node_component where
  parent_entity : Nat
  deriving DecidableEq, Repr

/-- Modelled from the spec: the class `scene_component_pool` is declared in
`scene_component_pool.hpp`, which is not part of the available sources, and the spec
leaves the storage of components open; here a pool is the list of its components,
each with the entity it belongs to, in the order in which `for_each` visits them. -/
structure scene_component_pool (component : Type) where
  entries : List (Nat × component)

/-- The component of an entity in a list of entries: the first entry of the entity. -/
def pool_lookup {component : Type} : List (Nat × component) → Nat → Option component
  | [], _ => none
  | q :: rest, e => if q.1 = e then some q.2 else pool_lookup rest e

/-- The entries after a write to the component of an entity. -/
def pool_modify {component : Type} (f : component → component) :
    List (Nat × component) → Nat → List (Nat × component)
  | [], _ => []
  | q :: rest, e => if q.1 = e then (q.1, f q.2) :: rest else q :: pool_modify f rest e

/-- The call `get_component_for_entity(e)`: the component of the entity, or nothing
(`nullptr`) when the entity has none in the pool. -/
def scene_component_pool.get_component_for_entity {component : Type}
    (pool : scene_component_pool component) (e : Nat) : Option component :=
  pool_lookup pool.entries e

/-- A write through the pointer that `get_component_for_entity(e)` returned. -/
def scene_component_pool.modify {component : Type} (pool : scene_component_pool component)
    (e : Nat) (f : component → component) : scene_component_pool component :=
  { entries := pool_modify f pool.entries e }

/-- The entities of a pool, in the order of the visits. -/
def scene_component_pool.entities {component : Type} (pool : scene_component_pool component) :
    List Nat :=
  pool.entries.map Prod.fst

/-- The call of `transformation_update_system::update` on the pool of the transform
components: every component is updated, its entity is kept. -/
def transformation_update_system.update_pool {K : Type} [LinearOrderedField K]
    (sin cos sqrt : K → K) (transformations : scene_component_pool (transform_component K)) :
    scene_component_pool (transform_component K) :=
  { entries := (transformations.entries.map Prod.fst).zip
      (transformation_update_system.update sin cos sqrt
        (transformations.entries.map Prod.snd)) }

/-- The body of the lambda in `scene_graph_update_system::update` for the node
component `node.2` of the entity `node.1`: when the entity and its parent entity both
have a transform, the world matrix of the entity becomes the world matrix of the
parent times the local matrix of the entity. -/
def scene_graph_update_system.visit {K : Type} [LinearOrderedField K]
    (transformations : scene_component_pool (transform_component K))
    (node : Nat × node_component) : scene_component_pool (transform_component K) :=
  let e := node.1
  let child_transform := transformations.get_component_for_entity e
  let parent_transform := transformations.get_component_for_entity node.2.parent_entity
  match child_transform, parent_transform with
  | some _, some parent =>
    transformations.modify e (fun child =>
      { child with world_transformation_matrix :=
          parent.world_transformation_matrix * child.local_transformation_matrix })
  | _, _ => transformations

/-- The member `scene_graph_update_system::update`: `for_each` visits the nodes in
the order of the pool. -/
def scene_graph_update_system.update {K : Type} [LinearOrderedField K]
    (nodes : scene_component_pool node_component)
    (transformations : scene_component_pool (transform_component K)) :
    scene_component_pool (transform_component K) :=
  nodes.entries.foldl scene_graph_update_system.visit transformations

/-- Every parent is visited before its children: the parent entity of a node is
neither the node itself nor the entity of a node visited later. -/
def parents_visited_first : List (Nat × node_component) → Bool
  | [] => true
  | node :: rest =>
    decide (node.2.parent_entity ≠ node.1)
      && rest.all (fun m => decide (m.1 ≠ node.2.parent_entity))
      && parents_visited_first rest

/-- The local matrix of an entity, the identity for an entity without transform. -/
def local_matrix {K : Type} [LinearOrderedField K]
    (transformations : scene_component_pool (transform_component K)) (e : Nat) : mat4 K :=
  match transformations.get_component_for_entity e with
  | some c => c.local_transformation_matrix
  | none => 1

/-- The ancestor chain of an entity, from the root down to the entity: the chain of
the parent entity followed by the entity, when the entity has a node whose parent
entity has a transform, and the entity alone otherwise; at most `steps` ancestors
are followed. -/
def ancestor_chain {K : Type} [LinearOrderedField K]
    (nodes : scene_component_pool node_component)
    (transformations : scene_component_pool (transform_component K)) : Nat → Nat → List Nat
  | 0, e => [e]
  | steps + 1, e =>
    match nodes.get_component_for_entity e with
    | some node =>
      match transformations.get_component_for_entity node.parent_entity with
      | some _ => ancestor_chain nodes transformations steps node.parent_entity ++ [e]
      | none => [e]
    | none => [e]

/-- The product of the local matrices along the ancestor chain of an entity, the
matrix of the root first. -/
def ancestor_product {K : Type} [LinearOrderedField K]
    (nodes : scene_component_pool node_component)
    (transformations : scene_component_pool (transform_component K)) (e : Nat) : mat4 K :=
  ((ancestor_chain nodes transformations nodes.entries.length e).map
    (local_matrix transformations)).prod

/-- A transform component at the position `(x, 0, 0)`, not rotated and not scaled,
whose matrices have not been computed yet. -/
def transform_component.at_x (x : ℚ) : transform_component ℚ :=
  { position := ⟨x, 0, 0⟩,
    rotation := ⟨0, 0, 1, 0⟩,
    scale := ⟨1, 1, 1⟩,
    local_transformation_matrix := 1,
    world_transformation_matrix := 1 }

/-- A pool of three transform components, for the entities 0, 1 and 2. -/
def scene_component_pool.three_transforms : scene_component_pool (transform_component ℚ) :=
  { entries :=
      [(0, transform_component.at_x 1), (1, transform_component.at_x 2),
       (2, transform_component.at_x 4)] }

/-- A pool of two nodes: entity 1 below entity 0 and entity 2 below entity 1, the
parent first. -/
def scene_component_pool.chain_of_nodes : scene_component_pool node_component :=
  { entries := [(1, { parent_entity := 0 }), (2, { parent_entity := 1 })] }

/-! ## Properties of the model cache -/

/-- C1: `valid()` is true exactly when both cached offsets are non-negative, and it is
false exactly when one of the two offsets is negative, whatever the other members of
the cache hold. -/
theorem C1_valid_iff_offsets_nonnegative (c : model_cache) :
    (c.valid = true ↔ 0 ≤ c.model_data_offset ∧ 0 ≤ c.material_data_offset) ∧
    (c.valid = false ↔ c.model_data_offset < 0 ∨ c.material_data_offset < 0) ∧
    ({ c with model_data_offset := -1 } : model_cache).valid = false ∧
    ({ c with material_data_offset := -1 } : model_cache).valid = false := by
  refine ⟨?_, ?_, ?_, ?_⟩
  · simp [model_cache.valid]
  · rw [← Bool.not_eq_true]
    simp only [model_cache.valid, Bool.and_eq_true, decide_eq_true_eq, ge_iff_le]
    omega
  · simp [model_cache.valid]
  · simp [model_cache.valid]

/-- C2: `draw_mesh` called while the active model cache is invalid fails the validity
check and enqueues nothing, the gbuffer and the transparent command buffer are the
ones from before the call; the cache is invalid after `begin_render`, and it stays
invalid after a `begin_mesh` without `use_material` and after a `use_material` without
`begin_mesh`. -/
theorem C2_draw_mesh_invalid_cache (s : deferred_pbr_render_system) (a : draw_mesh_arguments)
    (h : s.m_active_model.valid = false) :
    (∃ message, s.draw_mesh a = .assertion_failed message s) ∧
    (s.draw_mesh a).is_returned = false ∧
    (s.draw_mesh a).final_state.m_gbuffer_commands = s.m_gbuffer_commands ∧
    (s.draw_mesh a).final_state.m_transparent_commands = s.m_transparent_commands ∧
    (∀ t : deferred_pbr_render_system, t.begin_render.m_active_model.valid = false) ∧
    (∀ (t : deferred_pbr_render_system) (offset : Nat) (position : ℚ × ℚ × ℚ),
      (t.begin_render.begin_mesh offset position).m_active_model.valid = false) ∧
    (∀ (t : deferred_pbr_render_system) (offset : Nat) (mat_data : material_data)
      (blend face_culling : Bool),
      (t.begin_render.use_material offset mat_data blend face_culling).m_active_model.valid
        = false) := by
  have hd : s.draw_mesh a = .assertion_failed "Model cache not valid!" s := by
    simp [deferred_pbr_render_system.draw_mesh, h]
  refine ⟨⟨_, hd⟩, ?_, ?_, ?_, ?_, ?_, ?_⟩
  · rw [hd]; rfl
  · rw [hd]; rfl
  · rw [hd]; rfl
  · intro t
    simp [deferred_pbr_render_system.begin_render, model_cache.valid]
  · intro t offset position
    simp [deferred_pbr_render_system.begin_render, deferred_pbr_render_system.begin_mesh,
      model_cache.valid]
  · intro t offset mat_data blend face_culling
    simp [deferred_pbr_render_system.begin_render, deferred_pbr_render_system.use_material,
      model_cache.valid]

/-- C2, at the start of a frame: right after `begin_render` a draw call of three
vertices stops in the assertion and both buffers are still empty. -/
theorem C2_draw_mesh_invalid_cache_witness :
    deferred_pbr_render_system.init.begin_render.m_active_model.valid = false ∧
    (deferred_pbr_render_system.init.begin_render.draw_mesh ⟨1, 4, 0, 3, 0, 1⟩).is_returned
      = false ∧
    (deferred_pbr_render_system.init.begin_render.draw_mesh
      ⟨1, 4, 0, 3, 0, 1⟩).final_state.m_gbuffer_commands = [] ∧
    (deferred_pbr_render_system.init.begin_render.draw_mesh
      ⟨1, 4, 0, 3, 0, 1⟩).final_state.m_transparent_commands = [] :=
  have h := C2_draw_mesh_invalid_cache deferred_pbr_render_system.init.begin_render
    ⟨1, 4, 0, 3, 0, 1⟩ (by decide)
  ⟨by decide, h.2.1, h.2.2.1, h.2.2.2.1⟩

/-! ## The material id -/

theorem round_half_even_error (y : ℚ) : |(round_half_even y : ℚ) - y| ≤ 1 / 2 := by
  have h1 : (⌊y⌋ : ℚ) ≤ y := Int.floor_le y
  have h2 : y < ⌊y⌋ + 1 := Int.lt_floor_add_one y
  unfold round_half_even
  simp only
  rw [abs_le]
  split_ifs with ha hb hc
  · constructor <;> linarith
  · push_cast; constructor <;> linarith
  · have : y - ⌊y⌋ = 1 / 2 := le_antisymm (not_lt.mp hb) (not_lt.mp ha)
    constructor <;> linarith
  · have : y - ⌊y⌋ = 1 / 2 := le_antisymm (not_lt.mp hb) (not_lt.mp ha)
    push_cast; constructor <;> linarith

theorem f32_ulp_pos (x : ℚ) : 0 < f32_ulp x := by
  unfold f32_ulp; positivity

theorem f32_exp_le_three (x : ℚ) (h : |x| < 16) : f32_exp x ≤ 3 := by
  unfold f32_exp
  apply max_le _ (by norm_num)
  rcases eq_or_lt_of_le (abs_nonneg x) with h0 | h0
  · rw [← h0]; simp
  · have : Int.log 2 |x| < 4 := by
      rw [← Int.lt_zpow_iff_log_lt (by norm_num) h0]
      norm_num
      exact h
    omega

theorem f32_ulp_le (x : ℚ) (h : |x| < 16) : f32_ulp x ≤ 1 / 1048576 := by
  have he := f32_exp_le_three x h
  unfold f32_ulp
  calc (2 : ℚ) ^ (f32_exp x - 23) ≤ (2 : ℚ) ^ ((-20 : ℤ)) :=
        zpow_le_zpow_right₀ (by norm_num) (by omega)
    _ = 1 / 1048576 := by norm_num

theorem f32_round_error (x : ℚ) (h : |x| < 16) : |f32_round x - x| ≤ 1 / 2097152 := by
  have hu := f32_ulp_pos x
  have hl := f32_ulp_le x h
  have he := round_half_even_error (x / f32_ulp x)
  have hx : x = x / f32_ulp x * f32_ulp x := by field_simp
  have : f32_round x - x = ((round_half_even (x / f32_ulp x) : ℚ) - x / f32_ulp x) * f32_ulp x := by
    unfold f32_round
    rw [sub_mul, ← hx]
  rw [this, abs_mul, abs_of_pos hu]
  calc |(round_half_even (x / f32_ulp x) : ℚ) - x / f32_ulp x| * f32_ulp x
      ≤ 1 / 2 * (1 / 1048576) := mul_le_mul he hl hu.le (by norm_num)
    _ = 1 / 2097152 := by norm_num

theorem f32_exp_eq (x : ℚ) (e : ℤ) (he : -126 ≤ e) (h1 : (2 : ℚ) ^ e ≤ |x|)
    (h2 : |x| < (2 : ℚ) ^ (e + 1)) : f32_exp x = e := by
  have hpos : 0 < |x| := lt_of_lt_of_le (by positivity) h1
  have hl : e ≤ Int.log 2 |x| := by
    rw [← Int.zpow_le_iff_le_log (by norm_num) hpos]
    exact_mod_cast h1
  have hu : Int.log 2 |x| < e + 1 := by
    rw [← Int.lt_zpow_iff_log_lt (by norm_num) hpos]
    exact_mod_cast h2
  unfold f32_exp
  omega

/-- The single precision product rounds: the `float` nearest to `0.7` is smaller than
`0.7`, its exact product with `10` is `7 - 2⁻²³`, and the single precision product
is `7`. -/
theorem f32_mul_rounds_to_nearest :
    (11744051 : ℚ) / 16777216 * 10 < 7 ∧ f32_mul (11744051 / 16777216) 10 = 7 ∧
    trunc (f32_mul (11744051 / 16777216) 10) = 7 := by
  have he : f32_exp ((11744051 : ℚ) / 16777216 * 10) = 2 := by
    apply f32_exp_eq _ 2 (by norm_num)
    · rw [abs_of_pos (by norm_num)]; norm_num
    · rw [abs_of_pos (by norm_num)]; norm_num
  have hu : f32_ulp ((11744051 : ℚ) / 16777216 * 10) = 1 / 2097152 := by
    rw [f32_ulp, he]; norm_num
  have hf : ⌊((11744051 : ℚ) / 16777216 * 10) / (1 / 2097152)⌋ = 14680063 := by
    rw [Int.floor_eq_iff]
    constructor <;> norm_num
  have hr : round_half_even (((11744051 : ℚ) / 16777216 * 10) / (1 / 2097152)) = 14680064 := by
    simp only [round_half_even, hf]
    norm_num
  have hm : f32_mul (11744051 / 16777216) 10 = 7 := by
    rw [f32_mul, f32_round, hu, hr]
    norm_num
  refine ⟨by norm_num, hm, ?_⟩
  rw [hm]
  simp [trunc]

theorem trunc_nonneg (x : ℚ) (h : -1 < x) : 0 ≤ trunc x := by
  unfold trunc
  split_ifs with h0
  · exact Int.floor_nonneg.mpr h0
  · have : (-1 : ℤ) < ⌈x⌉ := Int.lt_ceil.mpr (by push_cast; linarith)
    omega

theorem trunc_bounds (x e : ℚ) (h0 : 0 ≤ e) (hx : -e ≤ x) (he : e < 1) :
    (trunc x : ℚ) - e ≤ x ∧ x < trunc x + 1 := by
  unfold trunc
  split_ifs with h
  · have h1 : (⌊x⌋ : ℚ) ≤ x := Int.floor_le x
    have h2 : x < ⌊x⌋ + 1 := Int.lt_floor_add_one x
    constructor <;> linarith
  · have hc : ⌈x⌉ = 0 := by
      rw [Int.ceil_eq_iff]
      push_neg at h
      constructor
      · push_cast; linarith
      · push_cast; linarith
    rw [hc]
    push_neg at h
    constructor
    · push_cast; linarith
    · push_cast; linarith

/-- The product `metallic * 10.0f` stays within `2⁻²¹` of the exact product. -/
theorem f32_mul_ten_error (m : ℚ) (h0 : 0 ≤ m) (h1 : m ≤ 1) :
    |f32_mul m 10 - m * 10| ≤ 1 / 2097152 := by
  unfold f32_mul
  apply f32_round_error
  rw [abs_lt]
  constructor <;> linarith

theorem metallic_bucket_range (m : ℚ) (h0 : 0 ≤ m) (h1 : m ≤ 1) :
    0 ≤ trunc (f32_mul m 10) ∧ trunc (f32_mul m 10) ≤ 10 := by
  obtain ⟨he1, he2⟩ := abs_le.mp (f32_mul_ten_error m h0 h1)
  obtain ⟨hb1, hb2⟩ :=
    trunc_bounds (f32_mul m 10) (1 / 2097152) (by norm_num) (by linarith) (by norm_num)
  constructor
  · exact trunc_nonneg _ (by linarith)
  · have : ((trunc (f32_mul m 10) : ℤ) : ℚ) < 11 := by linarith
    have : trunc (f32_mul m 10) < 11 := by exact_mod_cast this
    omega

theorem create_material_id_eq (c : model_cache) (mat_data : material_data)
    (h0 : 0 ≤ mat_data.metallic) (h1 : mat_data.metallic ≤ 1) :
    c.create_material_id mat_data
      = trunc (f32_mul mat_data.metallic 10) + (if c.face_culling then 0 else 100) := by
  obtain ⟨hl, hu⟩ := metallic_bucket_range mat_data.metallic h0 h1
  unfold model_cache.create_material_id wrap_int8
  simp only
  cases c.face_culling <;> simp <;> omega


theorem metallic_bucket_zero (m : ℚ) (h0 : 0 ≤ m) (h1 : m ≤ 9 / 100) :
    trunc (f32_mul m 10) = 0 := by
  have hm : m ≤ 1 := by linarith
  obtain ⟨he1, he2⟩ := abs_le.mp (f32_mul_ten_error m h0 hm)
  obtain ⟨hb1, hb2⟩ :=
    trunc_bounds (f32_mul m 10) (1 / 2097152) (by norm_num) (by linarith) (by norm_num)
  have hn := (metallic_bucket_range m h0 hm).1
  have : ((trunc (f32_mul m 10) : ℤ) : ℚ) < 1 := by linarith
  have : trunc (f32_mul m 10) < 1 := by exact_mod_cast this
  omega

theorem metallic_bucket_separation (m1 m2 : ℚ) (h10 : 0 ≤ m1) (h11 : m1 ≤ 1)
    (h20 : 0 ≤ m2) (h21 : m2 ≤ 1) (hd : 3 / 20 ≤ m1 - m2) :
    trunc (f32_mul m2 10) < trunc (f32_mul m1 10) := by
  obtain ⟨ha1, ha2⟩ := abs_le.mp (f32_mul_ten_error m1 h10 h11)
  obtain ⟨hb1, hb2⟩ := abs_le.mp (f32_mul_ten_error m2 h20 h21)
  obtain ⟨hc1, hc2⟩ :=
    trunc_bounds (f32_mul m1 10) (1 / 2097152) (by norm_num) (by linarith) (by norm_num)
  obtain ⟨hd1, hd2⟩ :=
    trunc_bounds (f32_mul m2 10) (1 / 2097152) (by norm_num) (by linarith) (by norm_num)
  have : ((trunc (f32_mul m2 10) : ℤ) : ℚ) < (trunc (f32_mul m1 10) : ℤ) := by linarith
  exact_mod_cast this

/-- C3: two metallic values of the valid range `[0, 1]` that differ by at least `0.15`
get different material ids whenever the two caches carry the same face culling flag. -/
theorem C3_material_ids_differ (c1 c2 : model_cache) (mat1 mat2 : material_data)
    (hc : c1.face_culling = c2.face_culling)
    (h10 : 0 ≤ mat1.metallic) (h11 : mat1.metallic ≤ 1)
    (h20 : 0 ≤ mat2.metallic) (h21 : mat2.metallic ≤ 1)
    (hd : 3 / 20 ≤ |mat1.metallic - mat2.metallic|) :
    c1.create_material_id mat1 ≠ c2.create_material_id mat2 := by
  rw [create_material_id_eq c1 mat1 h10 h11, create_material_id_eq c2 mat2 h20 h21, hc]
  intro h
  have heq : trunc (f32_mul mat1.metallic 10) = trunc (f32_mul mat2.metallic 10) := by
    omega
  rcases le_abs.mp hd with h | h
  · have := metallic_bucket_separation _ _ h10 h11 h20 h21 h
    omega
  · have := metallic_bucket_separation _ _ h20 h21 h10 h11 (by linarith)
    omega

/-- C3, at the boundary of the claim: metallic `0.5` and `0.65` differ by exactly
`0.15` and the ids differ, with the faces culled. -/
theorem C3_material_ids_differ_witness :
    (3 : ℚ) / 20 ≤ |(material_with_metallic (1 / 2)).metallic
      - (material_with_metallic (13 / 20)).metallic| ∧
    (cache_with_face_culling true).create_material_id (material_with_metallic (1 / 2))
      ≠ (cache_with_face_culling true).create_material_id (material_with_metallic (13 / 20)) :=
  have hd : (3 : ℚ) / 20 ≤ |(material_with_metallic (1 / 2)).metallic
      - (material_with_metallic (13 / 20)).metallic| := by
    norm_num [material_with_metallic, abs_of_neg]
  ⟨hd, C3_material_ids_differ (cache_with_face_culling true) (cache_with_face_culling true)
    (material_with_metallic (1 / 2)) (material_with_metallic (13 / 20)) rfl
    (by norm_num [material_with_metallic]) (by norm_num [material_with_metallic])
    (by norm_num [material_with_metallic]) (by norm_num [material_with_metallic]) hd⟩

/-- C4: for metallic values in `[0, 1]` and equal face culling flags two materials get
the same id exactly when their metallic buckets `trunc(metallic * 10.0f)` agree, the
product being the single precision product of the code; metallic `0.05` and `0.06`,
as decimal fractions and as the nearest `float` values, both fall into bucket `0`
and get the same id. -/
theorem C4_same_id_iff_same_bucket (c1 c2 : model_cache) (mat1 mat2 : material_data)
    (hc : c1.face_culling = c2.face_culling)
    (h10 : 0 ≤ mat1.metallic) (h11 : mat1.metallic ≤ 1)
    (h20 : 0 ≤ mat2.metallic) (h21 : mat2.metallic ≤ 1) :
    (c1.create_material_id mat1 = c2.create_material_id mat2
      ↔ trunc (f32_mul mat1.metallic 10) = trunc (f32_mul mat2.metallic 10)) ∧
    ((mat1.metallic = 1 / 20 ∨ mat1.metallic = 13421773 / 268435456) →
     (mat2.metallic = 3 / 50 ∨ mat2.metallic = 16106127 / 268435456) →
      trunc (f32_mul mat1.metallic 10) = 0 ∧ trunc (f32_mul mat2.metallic 10) = 0 ∧
      c1.create_material_id mat1 = c2.create_material_id mat2) := by
  have hiff : c1.create_material_id mat1 = c2.create_material_id mat2
      ↔ trunc (f32_mul mat1.metallic 10) = trunc (f32_mul mat2.metallic 10) := by
    rw [create_material_id_eq c1 mat1 h10 h11, create_material_id_eq c2 mat2 h20 h21, hc]
    constructor <;> intro h <;> omega
  refine ⟨hiff, ?_⟩
  intro h1 h2
  have hb1 : trunc (f32_mul mat1.metallic 10) = 0 := by
    apply metallic_bucket_zero _ h10
    rcases h1 with h | h <;> rw [h] <;> norm_num
  have hb2 : trunc (f32_mul mat2.metallic 10) = 0 := by
    apply metallic_bucket_zero _ h20
    rcases h2 with h | h <;> rw [h] <;> norm_num
  exact ⟨hb1, hb2, hiff.mpr (hb1.trans hb2.symm)⟩

/-- C4, for metallic `0.05` and `0.06` on a cache that does not cull faces: both
buckets are `0` and the two ids are equal. -/
theorem C4_same_id_iff_same_bucket_witness :
    trunc (f32_mul (material_with_metallic (1 / 20)).metallic 10) = 0 ∧
    trunc (f32_mul (material_with_metallic (3 / 50)).metallic 10) = 0 ∧
    (cache_with_face_culling false).create_material_id (material_with_metallic (1 / 20))
      = (cache_with_face_culling false).create_material_id (material_with_metallic (3 / 50)) :=
  (C4_same_id_iff_same_bucket (cache_with_face_culling false) (cache_with_face_culling false)
    (material_with_metallic (1 / 20)) (material_with_metallic (3 / 50)) rfl
    (by norm_num [material_with_metallic]) (by norm_num [material_with_metallic])
    (by norm_num [material_with_metallic]) (by norm_num [material_with_metallic])).2
    (Or.inl rfl) (Or.inl rfl)

/-- C5: for a metallic value in `[0, 1]` the id is the exact sum of the bucket and the
face culling offset, no conversion to `int8` wraps: it lies in `0..10` when faces
are culled and in `100..110` when they are not, hence inside `0..255` and below
the `int8` maximum `127`, and two materials whose face culling flags differ never
share an id. -/
theorem C5_material_id_range (c : model_cache) (mat_data : material_data)
    (h0 : 0 ≤ mat_data.metallic) (h1 : mat_data.metallic ≤ 1) :
    c.create_material_id mat_data
      = trunc (f32_mul mat_data.metallic 10) + (if c.face_culling then 0 else 100) ∧
    (c.face_culling = true →
      0 ≤ c.create_material_id mat_data ∧ c.create_material_id mat_data ≤ 10) ∧
    (c.face_culling = false →
      100 ≤ c.create_material_id mat_data ∧ c.create_material_id mat_data ≤ 110) ∧
    0 ≤ c.create_material_id mat_data ∧ c.create_material_id mat_data ≤ 127 ∧
    c.create_material_id mat_data ≤ 255 ∧
    (∀ (c2 : model_cache) (mat2 : material_data), 0 ≤ mat2.metallic → mat2.metallic ≤ 1 →
      c2.face_culling ≠ c.face_culling →
      c2.create_material_id mat2 ≠ c.create_material_id mat_data) := by
  have hid := create_material_id_eq c mat_data h0 h1
  obtain ⟨hl, hu⟩ := metallic_bucket_range mat_data.metallic h0 h1
  refine ⟨hid, ?_, ?_, ?_, ?_, ?_, ?_⟩
  · intro hf; rw [hid, hf]; simp; omega
  · intro hf; rw [hid, hf]; simp; omega
  · rw [hid]; split_ifs <;> omega
  · rw [hid]; split_ifs <;> omega
  · rw [hid]; split_ifs <;> omega
  · intro c2 mat2 h20 h21 hne
    obtain ⟨hl2, hu2⟩ := metallic_bucket_range mat2.metallic h20 h21
    rw [hid, create_material_id_eq c2 mat2 h20 h21]
    cases hc : c.face_culling <;> cases hc2 : c2.face_culling <;> simp_all <;> omega

/-- C5, at both ends of the metallic range: the ids of metallic `0` and of metallic `1`
lie in `0..10` with the faces culled. -/
theorem C5_material_id_range_witness :
    (0 ≤ (cache_with_face_culling true).create_material_id (material_with_metallic 0) ∧
      (cache_with_face_culling true).create_material_id (material_with_metallic 0) ≤ 10) ∧
    (0 ≤ (cache_with_face_culling true).create_material_id (material_with_metallic 1) ∧
      (cache_with_face_culling true).create_material_id (material_with_metallic 1) ≤ 10) :=
  ⟨(C5_material_id_range (cache_with_face_culling true) (material_with_metallic 0)
      (by norm_num [material_with_metallic]) (by norm_num [material_with_metallic])).2.1 rfl,
   (C5_material_id_range (cache_with_face_culling true) (material_with_metallic 1)
      (by norm_num [material_with_metallic]) (by norm_num [material_with_metallic])).2.1 rfl⟩

/-! ## The layout of the uniform blocks -/

theorem block_size_decomposition (b : uniform_block) :
    ∃ k, block_size b = 4 * scalar_count b + 16 * k := by
  induction b with
  | nil => exact ⟨0, rfl⟩
  | cons f fs ih =>
    obtain ⟨k, hk⟩ := ih
    have hs : block_size (f :: fs) = std140_size f.2 + block_size fs := by
      simp [block_size]
    have hc : scalar_count (f :: fs)
        = (if f.2.is_scalar then 1 else 0) + scalar_count fs := by
      simp only [scalar_count, List.filter_cons]
      split_ifs <;> simp
      omega
    rw [hs, hc, hk]
    rcases f with ⟨name, t⟩
    cases t
    · exact ⟨k, by simp [std140_size, std140_type.is_scalar]; omega⟩
    · exact ⟨k, by simp [std140_size, std140_type.is_scalar]; omega⟩
    · exact ⟨k, by simp [std140_size, std140_type.is_scalar]; omega⟩
    · exact ⟨k + 1, by simp [std140_size, std140_type.is_scalar]; omega⟩
    · exact ⟨k + 1, by simp [std140_size, std140_type.is_scalar]; omega⟩
    · exact ⟨k + 3, by simp [std140_size, std140_type.is_scalar]; omega⟩
    · exact ⟨k + 4, by simp [std140_size, std140_type.is_scalar]; omega⟩

/-- C6: the four uniform blocks `renderer_data`, `model_data`, `material_data` and
`lighting_pass_data`, laid out in declaration order with the std140 element sizes,
have a byte size that is a multiple of 16 (208, 128, 80 and 208 bytes); the
number of their 4 byte scalar fields, padding included, is a multiple of 4
(4, 4, 12 and 12); for every block the two conditions are equivalent. -/
theorem C6_uniform_block_size_multiple_of_16 :
    (block_size renderer_data_fields = 208 ∧ block_size renderer_data_fields % 16 = 0) ∧
    (block_size model_data_fields = 128 ∧ block_size model_data_fields % 16 = 0) ∧
    (block_size material_data_fields = 80 ∧ block_size material_data_fields % 16 = 0) ∧
    (block_size lighting_pass_data_fields = 208 ∧
      block_size lighting_pass_data_fields % 16 = 0) ∧
    (scalar_count renderer_data_fields = 4 ∧ scalar_count model_data_fields = 4 ∧
      scalar_count material_data_fields = 12 ∧ scalar_count lighting_pass_data_fields = 12) ∧
    (∀ b : uniform_block, block_size b % 16 = 0 ↔ scalar_count b % 4 = 0) := by
  refine ⟨⟨by decide, by decide⟩, ⟨by decide, by decide⟩, ⟨by decide, by decide⟩,
    ⟨by decide, by decide⟩, ⟨by decide, by decide, by decide, by decide⟩, ?_⟩
  intro b
  obtain ⟨k, hk⟩ := block_size_decomposition b
  omega

/-! ## `render_system_impl`: configuration, creation and the viewport -/

/-- C7, as stated, fails: configured with a pipeline that is not `deferred_pbr`, a
fresh `render_system_impl` raises no assertion; `configure` logs two errors and
returns normally with no render system installed. -/
theorem C7_unknown_pipeline_returns_normally :
    render_system_impl.init.configure environment.succeeding
        { base_render_pipeline := .other 1, vsync := true, render_steps := [] }
      = .returned ()
          { m_current_render_system := none,
            constructed := 0,
            trace :=
              [.log_error "Render pipeline is unknown and the render system cannot be created!",
               .log_error
                 "Render pipeline  failed to create and render system cannot be created!"] } ∧
    (render_system_impl.init.configure environment.succeeding
        { base_render_pipeline := .other 1, vsync := true, render_steps := [] }
      ).is_assertion_failed = false := by
  constructor <;> rfl

/-- C7, amended: `configure` called with a base render pipeline other than
`deferred_pbr` raises no assertion and returns normally; it constructs no render
system, leaves `m_current_render_system` as it was, logs that the pipeline is unknown
whenever it found the pipeline changed, and its last step is the error log that
the render system cannot be created. -/
theorem C7_unknown_pipeline_is_logged (env : environment) (configuration : render_configuration)
    (s : render_system_impl)
    (h : configuration.base_render_pipeline ≠ .deferred_pbr) :
    s.configure env configuration
      = .returned () { s with trace := s.trace ++ s.unknown_pipeline_steps env configuration } ∧
    (s.configure env configuration).is_assertion_failed = false ∧
    (s.configure env configuration).final_state.m_current_render_system
      = s.m_current_render_system ∧
    (s.configure env configuration).final_state.constructed = s.constructed ∧
    (∀ id, event.construct_deferred_pbr id ∉ s.unknown_pipeline_steps env configuration) ∧
    (s.configure env configuration).final_state.trace.getLast? = some (.log_error
      "Render pipeline  failed to create and render system cannot be created!") := by
  have heq : s.configure env configuration
      = .returned () { s with trace := s.trace ++ s.unknown_pipeline_steps env configuration } := by
    obtain ⟨pipeline, vsync, steps⟩ := configuration
    obtain ⟨cur, constructed, trace⟩ := s
    cases pipeline with
    | deferred_pbr => exact absurd rfl h
    | other code =>
      cases cur with
      | none =>
        simp [render_system_impl.configure, render_system_impl.unknown_pipeline_steps,
          render_configuration.get_base_render_pipeline,
          render_system_impl.configure_finish, MANGO_LOG_ERROR, render_system_impl.record]
      | some c =>
        by_cases hp : render_pipeline.other code = env.system_base_render_pipeline c trace
        · simp [render_system_impl.configure, render_system_impl.unknown_pipeline_steps,
            render_configuration.get_base_render_pipeline, ← hp,
            render_system_impl.configure_finish, MANGO_LOG_ERROR, render_system_impl.record]
        · simp [render_system_impl.configure, render_system_impl.unknown_pipeline_steps,
            render_configuration.get_base_render_pipeline, hp,
            render_system_impl.configure_finish, MANGO_LOG_ERROR, render_system_impl.record]
  refine ⟨heq, ?_, ?_, ?_, ?_, ?_⟩
  · rw [heq]; rfl
  · rw [heq]; rfl
  · rw [heq]; rfl
  · intro id
    cases hcur : s.m_current_render_system with
    | none => simp [render_system_impl.unknown_pipeline_steps, hcur]
    | some c =>
      simp only [render_system_impl.unknown_pipeline_steps, hcur]
      split_ifs <;> simp
  · rw [heq]
    cases hcur : s.m_current_render_system with
    | none => simp [outcome.final_state, render_system_impl.unknown_pipeline_steps, hcur]
    | some c =>
      simp only [outcome.final_state, render_system_impl.unknown_pipeline_steps, hcur]
      split_ifs <;> simp

/-- C7, amended, on a fresh `render_system_impl`: the call returns and its last step
is the error log. -/
theorem C7_unknown_pipeline_is_logged_witness :
    (render_system_impl.init.configure environment.succeeding
        { base_render_pipeline := .other 1, vsync := true, render_steps := [] }
      ).is_assertion_failed = false ∧
    (render_system_impl.init.configure environment.succeeding
        { base_render_pipeline := .other 1, vsync := true, render_steps := [] }
      ).final_state.trace.getLast? = some (.log_error
        "Render pipeline  failed to create and render system cannot be created!") :=
  have h := C7_unknown_pipeline_is_logged environment.succeeding
    { base_render_pipeline := .other 1, vsync := true, render_steps := [] }
    render_system_impl.init (by decide)
  ⟨h.2.1, h.2.2.2.2.2⟩

/-- C8: `set_viewport` stops in an assertion exactly when there is no current render
system or one of `x`, `y`, `width`, `height` is negative, and then it forwards nothing;
in every other case, zero width and height included, it returns and its only step
is the call `set_viewport(x, y, width, height)` on the current render system, with
the four values unchanged. -/
theorem C8_set_viewport_asserts_or_forwards (s : render_system_impl) (x y width height : ℤ) :
    ((s.set_viewport x y width height).is_assertion_failed = true
      ↔ (s.m_current_render_system = none ∨ x < 0 ∨ y < 0 ∨ width < 0 ∨ height < 0)) ∧
    ((s.set_viewport x y width height).is_assertion_failed = true →
      (s.set_viewport x y width height).final_state = s) ∧
    (∀ cur, s.m_current_render_system = some cur →
      0 ≤ x → 0 ≤ y → 0 ≤ width → 0 ≤ height →
      s.set_viewport x y width height
        = .returned ()
            { s with trace := s.trace ++ [.call cur (.set_viewport x y width height)] }) := by
  cases hcur : s.m_current_render_system with
  | none =>
    refine ⟨?_, ?_, ?_⟩
    · simp [render_system_impl.set_viewport, hcur, outcome.is_assertion_failed]
    · intro _
      simp [render_system_impl.set_viewport, hcur, outcome.final_state]
    · intro cur h
      cases h
  | some c =>
    refine ⟨?_, ?_, ?_⟩
    · simp only [render_system_impl.set_viewport, hcur]
      split_ifs <;> simp [outcome.is_assertion_failed] <;> omega
    · simp only [render_system_impl.set_viewport, hcur]
      split_ifs <;> simp [outcome.is_assertion_failed, outcome.final_state]
    · intro cur h hx hy hw hh
      cases h
      simp [render_system_impl.set_viewport, hcur, render_system_impl.record, hx, hy, hw, hh]

/-- C8, on a configured render system: a viewport of width and height zero is
forwarded unchanged, a viewport with a negative width stops in the assertion and
leaves the trace as it was. -/
theorem C8_set_viewport_asserts_or_forwards_witness :
    (render_system_impl.mk (some 0) 1 []).set_viewport 0 0 0 0
      = .returned () (render_system_impl.mk (some 0) 1 [.call 0 (.set_viewport 0 0 0 0)]) ∧
    ((render_system_impl.mk (some 0) 1 []).set_viewport 0 0 (-1) 0).final_state
      = render_system_impl.mk (some 0) 1 [] :=
  ⟨(C8_set_viewport_asserts_or_forwards (render_system_impl.mk (some 0) 1 []) 0 0 0 0).2.2
      0 rfl (by decide) (by decide) (by decide) (by decide),
   (C8_set_viewport_asserts_or_forwards (render_system_impl.mk (some 0) 1 []) 0 0 (-1) 0).2.1
      (by decide)⟩

/-- C9: `create` returns false exactly when a current render system exists and its
`create()` returns false; it returns the result of that call unchanged, and without
a current render system it returns true and calls nothing. -/
theorem C9_create_propagates_result (env : environment) (s : render_system_impl) :
    ((s.create env).1 = false
      ↔ ∃ cur, s.m_current_render_system = some cur ∧ env.system_create cur s.trace = false) ∧
    (∀ cur, s.m_current_render_system = some cur →
      (s.create env).1 = env.system_create cur s.trace ∧
      (s.create env).2 = { s with trace := s.trace ++ [.call cur .create] }) ∧
    (s.m_current_render_system = none → (s.create env).1 = true ∧ (s.create env).2 = s) := by
  cases hcur : s.m_current_render_system with
  | none =>
    refine ⟨?_, ?_, ?_⟩
    · simp [render_system_impl.create, hcur]
    · intro cur h
      cases h
    · intro _
      simp [render_system_impl.create, hcur]
  | some c =>
    refine ⟨?_, ?_, ?_⟩
    · simp [render_system_impl.create, hcur]
    · intro cur h
      cases h
      simp [render_system_impl.create, hcur, render_system_impl.record]
    · intro h
      cases h

/-- C9, in three states: a fresh `render_system_impl` creates successfully, and with a
current render system the result is the one of that system, false when its
creation fails and true when it succeeds. -/
theorem C9_create_propagates_result_witness :
    (render_system_impl.init.create environment.failing).1 = true ∧
    ((render_system_impl.mk (some 0) 1 []).create environment.failing).1 = false ∧
    ((render_system_impl.mk (some 0) 1 []).create environment.succeeding).1 = true :=
  ⟨((C9_create_propagates_result environment.failing render_system_impl.init).2.2 rfl).1,
   ((C9_create_propagates_result environment.failing
      (render_system_impl.mk (some 0) 1 [])).2.1 0 rfl).1,
   ((C9_create_propagates_result environment.succeeding
      (render_system_impl.mk (some 0) 1 [])).2.1 0 rfl).1⟩

/-- C10, as stated, fails: when `create()` of the new deferred pbr render system
returns false, `configure` does not return; it stops in the assertion on the
creation result, and nothing has been logged at that point. -/
theorem C10_creation_failure_asserts :
    render_system_impl.init.configure environment.failing
        { base_render_pipeline := .deferred_pbr, vsync := true, render_steps := [] }
      = .assertion_failed "Creation of the deferred pbr render system did fail!"
          { m_current_render_system := some 0,
            constructed := 1,
            trace := [.construct_deferred_pbr 0, .call 0 .create] } ∧
    (render_system_impl.init.configure environment.failing
        { base_render_pipeline := .deferred_pbr, vsync := true, render_steps := [] }
      ).is_returned = false := by
  constructor <;> rfl

/-- C10, amended: when `configure` installs a new deferred pbr render system (none is
current, or the current one reports another pipeline) and the `create()` of the new
system returns false, the assertion on the creation result fails right after that
call; `configure` does not return normally, `create()` has been called once on the
new system, nothing is logged and the configuration is not forwarded. -/
theorem C10_creation_failure_is_fatal (env : environment) (configuration : render_configuration)
    (s : render_system_impl)
    (hp : configuration.base_render_pipeline = .deferred_pbr)
    (hchanged : ∀ cur, s.m_current_render_system = some cur →
      env.system_base_render_pipeline cur s.trace ≠ .deferred_pbr)
    (hfail : ∀ id steps, env.system_create id steps = false) :
    s.configure env configuration
      = .assertion_failed "Creation of the deferred pbr render system did fail!"
          { m_current_render_system := some s.constructed,
            constructed := s.constructed + 1,
            trace := s.trace ++ s.recreation_steps } ∧
    (s.configure env configuration).is_returned = false ∧
    (s.recreation_steps.filter
      (fun e => decide (e = .call s.constructed .create))).length = 1 ∧
    (∀ message, event.log_error message ∉ s.recreation_steps) ∧
    (∀ id c, event.call id (.configure c) ∉ s.recreation_steps) := by
  have heq : s.configure env configuration
      = .assertion_failed "Creation of the deferred pbr render system did fail!"
          { m_current_render_system := some s.constructed,
            constructed := s.constructed + 1,
            trace := s.trace ++ s.recreation_steps } := by
    obtain ⟨pipeline, vsync, steps⟩ := configuration
    obtain ⟨cur, constructed, trace⟩ := s
    simp only at hp
    subst hp
    cases cur with
    | none =>
      simp [render_system_impl.configure, render_system_impl.recreation_steps,
        render_configuration.get_base_render_pipeline, hfail, render_system_impl.record]
    | some c =>
      have hne := hchanged c rfl
      simp only at hne
      simp [render_system_impl.configure, render_system_impl.recreation_steps,
        render_configuration.get_base_render_pipeline, hfail, render_system_impl.record,
        Ne.symm hne]
  refine ⟨heq, ?_, ?_, ?_, ?_⟩
  · rw [heq]; rfl
  · cases hcur : s.m_current_render_system with
    | none => simp [render_system_impl.recreation_steps, hcur]
    | some c => simp [render_system_impl.recreation_steps, hcur]
  · intro message
    cases hcur : s.m_current_render_system with
    | none => simp [render_system_impl.recreation_steps, hcur]
    | some c => simp [render_system_impl.recreation_steps, hcur]
  · intro id c
    cases hcur : s.m_current_render_system with
    | none => simp [render_system_impl.recreation_steps, hcur]
    | some c => simp [render_system_impl.recreation_steps, hcur]

/-- C10, amended, on a fresh `render_system_impl`: the call does not return. -/
theorem C10_creation_failure_is_fatal_witness :
    (render_system_impl.init.configure environment.failing
        { base_render_pipeline := .deferred_pbr, vsync := true, render_steps := [] }
      ).is_returned = false :=
  (C10_creation_failure_is_fatal environment.failing
    { base_render_pipeline := .deferred_pbr, vsync := true, render_steps := [] }
    render_system_impl.init rfl (fun cur h => by cases h) (fun _ _ => rfl)).2.1

/-! ## Input codes -/

theorem key_code_mem_all (k : key_code) : k ∈ key_code.all := by
  cases k <;> decide

set_option maxRecDepth 100000 in
theorem key_code_values_increasing :
    (key_code.all.map key_code.value).Pairwise (fun a b => a < b) := by
  decide

theorem key_code_value_injective : Function.Injective key_code.value := by
  intro a b h
  have hn : (key_code.all.map key_code.value).Nodup :=
    key_code_values_increasing.imp (fun h => Nat.ne_of_lt h)
  exact List.inj_on_of_nodup_map hn (key_code_mem_all a) (key_code_mem_all b) h

/-- C13: every enumerator of `key_code` other than `KEY_UNKNOWN` has the value of the
GLFW key of the same name, and `KEY_UNKNOWN` is `0` where GLFW has `-1`; the values are
pairwise distinct; `KEY_SPACE` is 32, `KEY_0` to `KEY_9` and `KEY_A` to `KEY_Z` carry the
codes of the characters `0` to `9` and `A` to `Z` (48 to 57 and 65 to 90); every other
key lies in the printable range 32 to 162 or is at least 256; the enumerators of
`mouse_button`, `input_action` and `modifier` have the GLFW values, with
`MOUSE_BUTTON_LEFT`, `MOUSE_BUTTON_RIGHT` and `MOUSE_BUTTON_MIDDLE` the buttons 1, 2, 3
and `NONE` the empty bit field. -/
theorem C13_input_codes_equal_glfw :
    (∀ k : key_code, k ≠ .KEY_UNKNOWN → (k.value : ℤ) = glfw_key k) ∧
    (key_code.KEY_UNKNOWN.value = 0 ∧ glfw_key .KEY_UNKNOWN = -1) ∧
    Function.Injective key_code.value ∧
    (key_code.KEY_SPACE.value = 32 ∧
      [key_code.KEY_0, key_code.KEY_1, key_code.KEY_2, key_code.KEY_3,
        key_code.KEY_4, key_code.KEY_5, key_code.KEY_6, key_code.KEY_7,
        key_code.KEY_8, key_code.KEY_9].map key_code.value
        = "0123456789".toList.map Char.toNat ∧
      [key_code.KEY_A, key_code.KEY_B, key_code.KEY_C, key_code.KEY_D,
        key_code.KEY_E, key_code.KEY_F, key_code.KEY_G, key_code.KEY_H,
        key_code.KEY_I, key_code.KEY_J, key_code.KEY_K, key_code.KEY_L,
        key_code.KEY_M, key_code.KEY_N, key_code.KEY_O, key_code.KEY_P,
        key_code.KEY_Q, key_code.KEY_R, key_code.KEY_S, key_code.KEY_T,
        key_code.KEY_U, key_code.KEY_V, key_code.KEY_W, key_code.KEY_X,
        key_code.KEY_Y, key_code.KEY_Z].map key_code.value
        = "ABCDEFGHIJKLMNOPQRSTUVWXYZ".toList.map Char.toNat ∧
      key_code.KEY_0.value = 48 ∧ key_code.KEY_9.value = 57 ∧
      key_code.KEY_A.value = 65 ∧ key_code.KEY_Z.value = 90) ∧
    (∀ k : key_code, k = .KEY_UNKNOWN ∨ (32 ≤ k.value ∧ k.value ≤ 162) ∨ 256 ≤ k.value) ∧
    (∀ b : mouse_button, (b.value : ℤ) = glfw_mouse_button b) ∧
    (((mouse_button.MOUSE_BUTTON_LEFT.value : ℤ), (mouse_button.MOUSE_BUTTON_RIGHT.value : ℤ),
        (mouse_button.MOUSE_BUTTON_MIDDLE.value : ℤ)) = glfw_mouse_button_left_right_middle ∧
      mouse_button.MOUSE_BUTTON_LEFT = .MOUSE_BUTTON_1 ∧
      mouse_button.MOUSE_BUTTON_RIGHT = .MOUSE_BUTTON_2 ∧
      mouse_button.MOUSE_BUTTON_MIDDLE = .MOUSE_BUTTON_3) ∧
    (∀ a : input_action, (a.value : ℤ) = glfw_action a) ∧
    (∀ m : modifier, m ≠ .NONE → some (m.value : ℤ) = glfw_mod m) ∧
    modifier.NONE.value = 0 := by
  refine ⟨?_, ⟨rfl, rfl⟩, key_code_value_injective, ?_, ?_, ?_, ?_, ?_, ?_, rfl⟩
  · intro k hk
    cases k <;> first | rfl | exact absurd rfl hk
  · refine ⟨rfl, by decide, by decide, rfl, rfl, rfl, rfl⟩
  · intro k
    cases k <;> simp [key_code.value]
  · intro b
    cases b <;> rfl
  · exact ⟨rfl, rfl, rfl, rfl⟩
  · intro a
    cases a <;> rfl
  · intro m hm
    cases m <;> first | rfl | exact absurd rfl hm

/-- C13, for the key `A`: it differs from `KEY_UNKNOWN` and has the GLFW value. -/
theorem C13_input_codes_equal_glfw_witness :
    ((key_code.KEY_A.value : ℤ) = glfw_key .KEY_A) ∧
    (some (modifier.MOD_ALT.value : ℤ) = glfw_mod .MOD_ALT) :=
  ⟨C13_input_codes_equal_glfw.1 .KEY_A (by decide),
   C13_input_codes_equal_glfw.2.2.2.2.2.2.2.2.1 .MOD_ALT (by decide)⟩

/-! ## `render_system_impl`: repeated configuration -/

/-- The call of `configure` when the current render system already reports the
configured pipeline: the configuration is forwarded and, `success` still being
false, the creation failure is logged. -/
theorem configure_without_recreation (env : environment) (configuration : render_configuration)
    (s : render_system_impl) (cur : Nat) (hcur : s.m_current_render_system = some cur)
    (hsame : configuration.base_render_pipeline = env.system_base_render_pipeline cur s.trace) :
    s.configure env configuration
      = .returned ()
          { s with trace := s.trace ++
            [.call cur (.configure configuration),
             .log_error
               "Render pipeline  failed to create and render system cannot be created!"] } := by
  obtain ⟨c, constructed, trace⟩ := s
  simp only at hcur hsame
  subst hcur
  simp [render_system_impl.configure, render_configuration.get_base_render_pipeline, hsame,
    render_system_impl.configure_finish, MANGO_LOG_ERROR, render_system_impl.record]

/-- The call of `configure` that installs a deferred pbr render system whose `create()`
succeeds: the current system, if any, is destroyed, the new one is constructed,
created, given the command buffer and configured; nothing is logged. -/
theorem configure_with_recreation (env : environment) (configuration : render_configuration)
    (s : render_system_impl)
    (hp : configuration.base_render_pipeline = .deferred_pbr)
    (hchanged : ∀ cur, s.m_current_render_system = some cur →
      env.system_base_render_pipeline cur s.trace ≠ .deferred_pbr)
    (hcreate : ∀ id steps, env.system_create id steps = true) :
    s.configure env configuration
      = .returned ()
          { m_current_render_system := some s.constructed,
            constructed := s.constructed + 1,
            trace := s.trace ++ s.recreation_steps ++
              [.share_command_buffer s.constructed,
               .call s.constructed (.configure configuration)] } := by
  obtain ⟨pipeline, vsync, steps⟩ := configuration
  obtain ⟨cur, constructed, trace⟩ := s
  simp only at hp
  subst hp
  cases cur with
  | none =>
    simp [render_system_impl.configure, render_system_impl.recreation_steps,
      render_configuration.get_base_render_pipeline, hcreate, render_system_impl.record,
      render_system_impl.configure_finish]
  | some c =>
    have hne := hchanged c rfl
    simp only at hne
    simp [render_system_impl.configure, render_system_impl.recreation_steps,
      render_configuration.get_base_render_pipeline, hcreate, render_system_impl.record,
      render_system_impl.configure_finish, Ne.symm hne]

/-- C14, failing input: a second `configure` with `deferred_pbr`, made while the
deferred pbr render system installed by the first call exists, creates nothing and
fails nothing, and still logs the creation failure as its last step. -/
theorem C14_reconfigure_logs_creation_failure :
    (render_system_impl.init.configure environment.succeeding
        (render_configuration.deferred true [])).final_state
      = { m_current_render_system := some 0,
          constructed := 1,
          trace :=
            [.construct_deferred_pbr 0, .call 0 .create, .share_command_buffer 0,
             .call 0 (.configure (render_configuration.deferred true []))] } ∧
    ((render_system_impl.init.configure environment.succeeding
        (render_configuration.deferred true [])).final_state.configure environment.succeeding
        (render_configuration.deferred true []))
      = .returned ()
          { m_current_render_system := some 0,
            constructed := 1,
            trace :=
              [.construct_deferred_pbr 0, .call 0 .create, .share_command_buffer 0,
               .call 0 (.configure (render_configuration.deferred true [])),
               .call 0 (.configure (render_configuration.deferred true [])),
               .log_error
                 "Render pipeline  failed to create and render system cannot be created!"] } := by
  constructor <;> rfl

theorem destroy_calls_append (xs ys : List event) :
    destroy_calls (xs ++ ys) = destroy_calls xs + destroy_calls ys := by
  simp [destroy_calls]

theorem constructions_append (xs ys : List event) :
    constructions (xs ++ ys) = constructions xs + constructions ys := by
  simp [constructions]

/-- C15: `configure` calls `destroy()` on the current render system exactly when one
exists and reports a pipeline other than the configured one; for the pipeline
`deferred_pbr` it constructs a new render system exactly when none exists or the
existing one reports another pipeline, and otherwise it keeps the current one.  When
the deferred system creates successfully and reports `deferred_pbr`, two calls in a row
with `deferred_pbr`, starting without a render system, construct one render system,
never call `destroy()`, keep that instance with the shared command buffer, and the
second call forwards `configure` to it and nothing else. -/
theorem C15_configure_recreates_iff_changed (env : environment)
    (configuration : render_configuration) (s : render_system_impl) :
    (destroy_calls (s.configure env configuration).final_state.trace
        = destroy_calls s.trace + 1
      ↔ ∃ cur, s.m_current_render_system = some cur ∧
          configuration.base_render_pipeline ≠ env.system_base_render_pipeline cur s.trace) ∧
    (configuration.base_render_pipeline = .deferred_pbr →
      (constructions (s.configure env configuration).final_state.trace
          = constructions s.trace + 1
        ↔ (s.m_current_render_system = none ∨
            ∃ cur, s.m_current_render_system = some cur ∧
              configuration.base_render_pipeline
                ≠ env.system_base_render_pipeline cur s.trace))) ∧
    ((∃ cur, s.m_current_render_system = some cur ∧
        configuration.base_render_pipeline = env.system_base_render_pipeline cur s.trace) →
      (s.configure env configuration).final_state.m_current_render_system
          = s.m_current_render_system ∧
        destroy_calls (s.configure env configuration).final_state.trace
          = destroy_calls s.trace ∧
        constructions (s.configure env configuration).final_state.trace
          = constructions s.trace) ∧
    ((∀ id steps, env.system_create id steps = true) →
      (∀ id steps, env.system_base_render_pipeline id steps = .deferred_pbr) →
      s.m_current_render_system = none →
      configuration.base_render_pipeline = .deferred_pbr →
      ∀ second : render_configuration, second.base_render_pipeline = .deferred_pbr →
        (s.configure env configuration).final_state.configure env second
          = .returned ()
              { m_current_render_system := some s.constructed,
                constructed := s.constructed + 1,
                trace := s.trace ++
                  [.construct_deferred_pbr s.constructed,
                   .call s.constructed .create,
                   .share_command_buffer s.constructed,
                   .call s.constructed (.configure configuration),
                   .call s.constructed (.configure second),
                   .log_error
                     "Render pipeline  failed to create and render system cannot be created!"] } ∧
        constructions ((s.configure env configuration).final_state.configure env
          second).final_state.trace = constructions s.trace + 1 ∧
        destroy_calls ((s.configure env configuration).final_state.configure env
          second).final_state.trace = destroy_calls s.trace ∧
        ((s.configure env configuration).final_state.configure env
          second).final_state.m_current_render_system
          = (s.configure env configuration).final_state.m_current_render_system) := by
  refine ⟨?_, ?_, ?_, ?_⟩
  · obtain ⟨pipeline, vsync, steps⟩ := configuration
    obtain ⟨cur, constructed, trace⟩ := s
    cases cur with
    | none =>
      cases pipeline with
      | deferred_pbr =>
        cases hc : env.system_create constructed (trace ++ [.construct_deferred_pbr constructed])
        all_goals
          simp [render_system_impl.configure, render_configuration.get_base_render_pipeline,
            render_system_impl.configure_finish, MANGO_LOG_ERROR, render_system_impl.record,
            outcome.final_state, destroy_calls, hc]
      | other code =>
        simp [render_system_impl.configure, render_configuration.get_base_render_pipeline,
          render_system_impl.configure_finish, MANGO_LOG_ERROR, render_system_impl.record,
          outcome.final_state, destroy_calls]
    | some c =>
      by_cases hp : pipeline = env.system_base_render_pipeline c trace
      · simp [render_system_impl.configure, render_configuration.get_base_render_pipeline,
          render_system_impl.configure_finish, MANGO_LOG_ERROR, render_system_impl.record,
          outcome.final_state, destroy_calls, ← hp]
      · cases pipeline with
        | deferred_pbr =>
          cases hc : env.system_create constructed
            (trace ++ [.call c .destroy, .construct_deferred_pbr constructed])
          all_goals
            simp [render_system_impl.configure, render_configuration.get_base_render_pipeline,
              render_system_impl.configure_finish, MANGO_LOG_ERROR, render_system_impl.record,
              outcome.final_state, destroy_calls, hc, hp]
        | other code =>
          simp [render_system_impl.configure, render_configuration.get_base_render_pipeline,
            render_system_impl.configure_finish, MANGO_LOG_ERROR, render_system_impl.record,
            outcome.final_state, destroy_calls, hp]
  · intro hdef
    obtain ⟨pipeline, vsync, steps⟩ := configuration
    obtain ⟨cur, constructed, trace⟩ := s
    simp only at hdef
    subst hdef
    cases cur with
    | none =>
      cases hc : env.system_create constructed (trace ++ [.construct_deferred_pbr constructed])
      all_goals
        simp [render_system_impl.configure, render_configuration.get_base_render_pipeline,
          render_system_impl.configure_finish, MANGO_LOG_ERROR, render_system_impl.record,
          outcome.final_state, constructions, hc]
    | some c =>
      by_cases hp : render_pipeline.deferred_pbr = env.system_base_render_pipeline c trace
      · simp [render_system_impl.configure, render_configuration.get_base_render_pipeline,
          render_system_impl.configure_finish, MANGO_LOG_ERROR, render_system_impl.record,
          outcome.final_state, constructions, ← hp]
      · cases hc : env.system_create constructed
          (trace ++ [.call c .destroy, .construct_deferred_pbr constructed])
        all_goals
          simp [render_system_impl.configure, render_configuration.get_base_render_pipeline,
            render_system_impl.configure_finish, MANGO_LOG_ERROR, render_system_impl.record,
            outcome.final_state, constructions, hc, hp]
  · rintro ⟨cur, hcur, hsame⟩
    rw [configure_without_recreation env configuration s cur hcur hsame]
    simp [outcome.final_state, destroy_calls_append, constructions_append, destroy_calls,
      constructions]
  · intro hcreate hbase hnone hp second hp2
    have h1 := configure_with_recreation env configuration s hp
      (fun cur h => by rw [hnone] at h; cases h) hcreate
    rw [h1]
    simp only [outcome.final_state]
    have h2 := configure_without_recreation env second
      { m_current_render_system := some s.constructed,
        constructed := s.constructed + 1,
        trace := s.trace ++ s.recreation_steps ++
          [.share_command_buffer s.constructed,
           .call s.constructed (.configure configuration)] }
      s.constructed rfl (by rw [hp2, hbase])
    rw [h2]
    simp [outcome.final_state, render_system_impl.recreation_steps, hnone,
      destroy_calls_append, constructions_append, destroy_calls, constructions]

/-- C15, on a fresh `render_system_impl`: after two calls with `deferred_pbr` one render
system has been constructed and `destroy()` has not been called. -/
theorem C15_configure_recreates_iff_changed_witness :
    constructions ((render_system_impl.init.configure environment.succeeding
        (render_configuration.deferred true [])).final_state.configure environment.succeeding
        (render_configuration.deferred false [])).final_state.trace
      = constructions render_system_impl.init.trace + 1 ∧
    destroy_calls ((render_system_impl.init.configure environment.succeeding
        (render_configuration.deferred true [])).final_state.configure environment.succeeding
        (render_configuration.deferred false [])).final_state.trace
      = destroy_calls render_system_impl.init.trace :=
  have h := (C15_configure_recreates_iff_changed environment.succeeding
    (render_configuration.deferred true []) render_system_impl.init).2.2.2
    (fun _ _ => rfl) (fun _ _ => rfl) rfl rfl (render_configuration.deferred false []) rfl
  ⟨h.2.1, h.2.2.1⟩

/-! ## `render_system_impl` without a current render system -/

/-- C16: while no render system is current, each of `begin_render`, `finish_render`,
`set_viewport`, `set_model_info`, `draw_mesh`, `set_view_projection_matrix`,
`set_environment_texture`, `get_backbuffer`, `update` and `get_base_render_pipeline`
stops in the assertion that the current render system is not valid, for all
arguments, and leaves the state with its trace as it was; `create` returns true and
`destroy` does nothing. -/
theorem C16_entry_points_without_render_system (env : environment) (s : render_system_impl)
    (h : s.m_current_render_system = none) :
    s.begin_render = .assertion_failed "Current render sytem not valid!" s ∧
    s.finish_render = .assertion_failed "Current render sytem not valid!" s ∧
    (∀ x y width height : ℤ,
      s.set_viewport x y width height
        = .assertion_failed "Current render sytem not valid!" s) ∧
    (∀ (model_matrix : List ℚ) (has_normals has_tangents : Bool),
      s.set_model_info model_matrix has_normals has_tangents
        = .assertion_failed "Current render sytem not valid!" s) ∧
    (∀ (mat topology : Nat) (first count : ℤ) (type : Nat) (instance_count : ℤ),
      s.draw_mesh mat topology first count type instance_count
        = .assertion_failed "Current render sytem not valid!" s) ∧
    (∀ view_projection : List ℚ,
      s.set_view_projection_matrix view_projection
        = .assertion_failed "Current render sytem not valid!" s) ∧
    (∀ (hdr_texture : Nat) (render_level : ℚ),
      s.set_environment_texture hdr_texture render_level
        = .assertion_failed "Current render sytem not valid!" s) ∧
    (∀ system_backbuffer : Nat → Nat,
      s.get_backbuffer system_backbuffer
        = .assertion_failed "Current render sytem not valid!" s) ∧
    (∀ dt : ℚ, s.update dt = .assertion_failed "Current render sytem not valid!" s) ∧
    s.get_base_render_pipeline env = .assertion_failed "Current render sytem not valid!" s ∧
    s.create env = (true, s) ∧
    s.destroy = s := by
  refine ⟨?_, ?_, ?_, ?_, ?_, ?_, ?_, ?_, ?_, ?_, ?_, ?_⟩
  · simp [render_system_impl.begin_render, h]
  · simp [render_system_impl.finish_render, h]
  · intro x y width height
    simp [render_system_impl.set_viewport, h]
  · intro model_matrix has_normals has_tangents
    simp [render_system_impl.set_model_info, h]
  · intro mat topology first count type instance_count
    simp [render_system_impl.draw_mesh, h]
  · intro view_projection
    simp [render_system_impl.set_view_projection_matrix, h]
  · intro hdr_texture render_level
    simp [render_system_impl.set_environment_texture, h]
  · intro system_backbuffer
    simp [render_system_impl.get_backbuffer, h]
  · intro dt
    simp [render_system_impl.update, h]
  · simp [render_system_impl.get_base_render_pipeline, h]
  · simp [render_system_impl.create, h]
  · simp [render_system_impl.destroy, h]

/-- C16, right after the constructor: `begin_render` stops in the assertion with an
empty trace, `create` returns true and `destroy` changes nothing. -/
theorem C16_entry_points_without_render_system_witness :
    render_system_impl.init.begin_render
      = .assertion_failed "Current render sytem not valid!" render_system_impl.init ∧
    render_system_impl.init.begin_render.final_state.trace = [] ∧
    render_system_impl.init.create environment.failing = (true, render_system_impl.init) ∧
    render_system_impl.init.destroy = render_system_impl.init :=
  have h := C16_entry_points_without_render_system environment.failing
    render_system_impl.init rfl
  ⟨h.1, by rw [h.1]; rfl, h.2.2.2.2.2.2.2.2.2.2.1, h.2.2.2.2.2.2.2.2.2.2.2⟩

/-! ## The orbit camera of the editor -/

theorem glm_clamp_mem {K : Type} [LinearOrderedField K] (x lo hi : K) (h : lo ≤ hi) :
    lo ≤ glm_clamp x lo hi ∧ glm_clamp x lo hi ≤ hi := by
  unfold glm_clamp
  exact ⟨le_min (le_max_right x lo) h, min_le_right _ _⟩

theorem glm_mod_mem {K : Type} [LinearOrderedField K] [FloorRing K] (a b : K) (hb : 0 < b) :
    0 ≤ glm_mod a b ∧ glm_mod a b < b := by
  unfold glm_mod
  have h1 : (⌊a / b⌋ : K) ≤ a / b := Int.floor_le _
  have h2 : a / b < ⌊a / b⌋ + 1 := Int.lt_floor_add_one _
  have h3 : b * (⌊a / b⌋ : K) ≤ a := by
    calc b * (⌊a / b⌋ : K) ≤ b * (a / b) := mul_le_mul_of_nonneg_left h1 hb.le
      _ = a := by field_simp
  have h4 : a < b * ((⌊a / b⌋ : K) + 1) := by
    calc a = b * (a / b) := by field_simp
      _ < b * ((⌊a / b⌋ : K) + 1) := mul_lt_mul_of_pos_left h2 hb
  constructor
  · linarith
  · linarith [mul_add b (⌊a / b⌋ : K) 1, mul_one b]

/-- The state of the camera controls that every callback preserves. -/
theorem editor_handle_invariant {K : Type} [LinearOrderedField K] [FloorRing K] (pi : K)
    (hpi : 0 < pi) (e : editor K) (i : editor_input K)
    (h : (glm_radians pi 15 ≤ e.m_camera_rotation.y ∧
          e.m_camera_rotation.y ≤ glm_radians pi 165) ∧
        (0 ≤ e.m_camera_rotation.x ∧ e.m_camera_rotation.x < glm_radians pi 360) ∧
        (125 / 1000 ≤ e.m_camera_radius ∧ e.m_camera_radius ≤ 125 / 10)) :
    (glm_radians pi 15 ≤ (e.handle pi i).m_camera_rotation.y ∧
          (e.handle pi i).m_camera_rotation.y ≤ glm_radians pi 165) ∧
        (0 ≤ (e.handle pi i).m_camera_rotation.x ∧
          (e.handle pi i).m_camera_rotation.x < glm_radians pi 360) ∧
        (125 / 1000 ≤ (e.handle pi i).m_camera_radius ∧
          (e.handle pi i).m_camera_radius ≤ 125 / 10) := by
  have h360 : 0 < glm_radians pi 360 := by unfold glm_radians; positivity
  have h15 : glm_radians pi 15 ≤ glm_radians pi 165 := by
    unfold glm_radians
    have : 0 < pi / 180 := by positivity
    nlinarith
  cases i with
  | mouse_position left_button x_position y_position =>
    simp only [editor.handle, editor.mouse_position_callback]
    split_ifs with hc
    · exact h
    · exact ⟨glm_clamp_mem _ _ _ h15, glm_mod_mem _ _ h360, h.2.2⟩
    · exact ⟨glm_clamp_mem _ _ _ h15, glm_mod_mem _ _ h360, h.2.2⟩
  | mouse_scroll x_offset y_offset =>
    simp only [editor.handle, editor.mouse_scroll_callback]
    exact ⟨h.1, h.2.1, glm_clamp_mem _ _ _ (by norm_num)⟩

theorem editor_run_invariant {K : Type} [LinearOrderedField K] [FloorRing K] (pi : K)
    (hpi : 0 < pi) (inputs : List (editor_input K)) :
    (glm_radians pi 15 ≤ ((editor.create pi).run pi inputs).m_camera_rotation.y ∧
          ((editor.create pi).run pi inputs).m_camera_rotation.y ≤ glm_radians pi 165) ∧
        (0 ≤ ((editor.create pi).run pi inputs).m_camera_rotation.x ∧
          ((editor.create pi).run pi inputs).m_camera_rotation.x < glm_radians pi 360) ∧
        (125 / 1000 ≤ ((editor.create pi).run pi inputs).m_camera_radius ∧
          ((editor.create pi).run pi inputs).m_camera_radius ≤ 125 / 10) := by
  induction inputs using List.reverseRecOn with
  | nil =>
    have : 0 < pi / 180 := by positivity
    simp only [editor.run, List.foldl_nil, editor.create, glm_radians]
    refine ⟨⟨by nlinarith, by nlinarith⟩, ⟨le_refl _, by nlinarith⟩, by norm_num, by norm_num⟩
  | append_singleton xs i ih =>
    have : (editor.create pi).run pi (xs ++ [i]) = ((editor.create pi).run pi xs).handle pi i := by
      simp [editor.run, List.foldl_append]
    rw [this]
    exact editor_handle_invariant pi hpi _ i ih

theorem editor_handle_radius {K : Type} [LinearOrderedField K] [FloorRing K] (pi : K)
    (e : editor K) (i : editor_input K)
    (h : 125 / 1000 ≤ e.m_camera_radius ∧ e.m_camera_radius ≤ 125 / 10) :
    125 / 1000 ≤ (e.handle pi i).m_camera_radius ∧
      (e.handle pi i).m_camera_radius ≤ 125 / 10 := by
  cases i with
  | mouse_position left_button x_position y_position =>
    simp only [editor.handle, editor.mouse_position_callback]
    split_ifs <;> exact h
  | mouse_scroll x_offset y_offset =>
    simp only [editor.handle, editor.mouse_scroll_callback]
    exact glm_clamp_mem _ _ _ (by norm_num)

theorem editor_run_radius {K : Type} [LinearOrderedField K] [FloorRing K] (pi : K)
    (inputs : List (editor_input K)) :
    125 / 1000 ≤ ((editor.create pi).run pi inputs).m_camera_radius ∧
      ((editor.create pi).run pi inputs).m_camera_radius ≤ 125 / 10 := by
  induction inputs using List.reverseRecOn with
  | nil =>
    simp only [editor.run, List.foldl_nil, editor.create]
    constructor <;> norm_num
  | append_singleton xs i ih =>
    have : (editor.create pi).run pi (xs ++ [i]) = ((editor.create pi).run pi xs).handle pi i := by
      simp [editor.run, List.foldl_append]
    rw [this]
    exact editor_handle_radius pi _ i ih

/-- C19: from the rotation `(0, 90°)` set by `editor::create`, after every sequence of
mouse position and scroll callbacks, with any positions and button states, the pitch
lies in `[15°, 165°]` and the yaw in `[0°, 360°)`; and a mouse position callback that
moves the camera, from any state and over any distance, leaves the pitch in
`[15°, 165°]` and the yaw in `[0°, 360°)`.  Exact arithmetic in any ordered field
with a floor function, `pi` being its positive value of `π`. -/
theorem C19_orbit_rotation_invariant {K : Type} [LinearOrderedField K] [FloorRing K]
    (pi : K) (hpi : 0 < pi) (inputs : List (editor_input K)) :
    (glm_radians pi 15 ≤ ((editor.create pi).run pi inputs).m_camera_rotation.y ∧
      ((editor.create pi).run pi inputs).m_camera_rotation.y ≤ glm_radians pi 165) ∧
    (0 ≤ ((editor.create pi).run pi inputs).m_camera_rotation.x ∧
      ((editor.create pi).run pi inputs).m_camera_rotation.x < glm_radians pi 360) ∧
    (∀ (e : editor K) (left_button : input_action) (x_position y_position : K),
      left_button ≠ .RELEASE →
      e.m_last_mouse_position.x * e.m_last_mouse_position.x
        + e.m_last_mouse_position.y * e.m_last_mouse_position.y ≠ 0 →
      (glm_radians pi 15
          ≤ (e.mouse_position_callback pi left_button x_position y_position).m_camera_rotation.y ∧
        (e.mouse_position_callback pi left_button x_position y_position).m_camera_rotation.y
          ≤ glm_radians pi 165) ∧
      (0 ≤ (e.mouse_position_callback pi left_button x_position y_position).m_camera_rotation.x ∧
        (e.mouse_position_callback pi left_button x_position y_position).m_camera_rotation.x
          < glm_radians pi 360)) := by
  have hinv := editor_run_invariant pi hpi inputs
  refine ⟨hinv.1, hinv.2.1, ?_⟩
  intro e left_button x_position y_position hb hl
  have h360 : 0 < glm_radians pi 360 := by unfold glm_radians; positivity
  have h15 : glm_radians pi 15 ≤ glm_radians pi 165 := by
    unfold glm_radians
    have : 0 < pi / 180 := by positivity
    nlinarith
  simp only [editor.mouse_position_callback]
  rw [if_neg (by tauto)]
  exact ⟨glm_clamp_mem _ _ _ h15, glm_mod_mem _ _ h360⟩

/-- C19, in real arithmetic: a drag from `(1, 1)` to `(-2000, 1)` takes the yaw to
`-10.005`, below `-360°`, and the callback brings it back into `[0°, 360°)`. -/
theorem C19_orbit_rotation_invariant_witness :
    (0 : ℝ) + (-2000 - 1) * (5 / 1000) < -glm_radians Real.pi 360 ∧
    0 ≤ ((editor.create Real.pi).run Real.pi
      [.mouse_position .PRESS 1 1, .mouse_position .PRESS (-2000) 1]).m_camera_rotation.x ∧
    ((editor.create Real.pi).run Real.pi
      [.mouse_position .PRESS 1 1, .mouse_position .PRESS (-2000) 1]).m_camera_rotation.x
      < glm_radians Real.pi 360 :=
  ⟨by
    have := Real.pi_le_four
    unfold glm_radians
    linarith,
   (C19_orbit_rotation_invariant Real.pi Real.pi_pos
      [.mouse_position .PRESS 1 1, .mouse_position .PRESS (-2000) 1]).2.1.1,
   (C19_orbit_rotation_invariant Real.pi Real.pi_pos
      [.mouse_position .PRESS 1 1, .mouse_position .PRESS (-2000) 1]).2.1.2⟩

/-- C20: from the radius `1` set by `editor::create`, after every sequence of callbacks
the radius lies in `[0.125, 12.5]`; a scroll with `y_offset < 0` sets the radius to
the clamped product with `1.04` and every other scroll, `y_offset = 0` included, to
the clamped quotient by `1.04`; on a reachable state the radius does not decrease on
a negative scroll and does not increase on any other scroll. -/
theorem C20_orbit_radius_invariant {K : Type} [LinearOrderedField K] [FloorRing K]
    (pi : K) (inputs : List (editor_input K)) (x_offset y_offset : K) :
    (125 / 1000 ≤ ((editor.create pi).run pi inputs).m_camera_radius ∧
      ((editor.create pi).run pi inputs).m_camera_radius ≤ 125 / 10) ∧
    (∀ e : editor K,
      125 / 1000 ≤ (e.mouse_scroll_callback x_offset y_offset).m_camera_radius ∧
      (e.mouse_scroll_callback x_offset y_offset).m_camera_radius ≤ 125 / 10) ∧
    (∀ e : editor K, y_offset < 0 →
      (e.mouse_scroll_callback x_offset y_offset).m_camera_radius
        = glm_clamp (e.m_camera_radius * (104 / 100)) (125 / 1000) (125 / 10)) ∧
    (∀ e : editor K, 0 ≤ y_offset →
      (e.mouse_scroll_callback x_offset y_offset).m_camera_radius
        = glm_clamp (e.m_camera_radius / (104 / 100)) (125 / 1000) (125 / 10)) ∧
    (y_offset < 0 →
      ((editor.create pi).run pi inputs).m_camera_radius
        ≤ (((editor.create pi).run pi inputs).mouse_scroll_callback
            x_offset y_offset).m_camera_radius) ∧
    (0 ≤ y_offset →
      (((editor.create pi).run pi inputs).mouse_scroll_callback
          x_offset y_offset).m_camera_radius
        ≤ ((editor.create pi).run pi inputs).m_camera_radius) := by
  obtain ⟨hlo, hhi⟩ := editor_run_radius pi inputs
  refine ⟨⟨hlo, hhi⟩, ?_, ?_, ?_, ?_, ?_⟩
  · intro e
    simp only [editor.mouse_scroll_callback]
    exact glm_clamp_mem _ _ _ (by norm_num)
  · intro e hy
    simp only [editor.mouse_scroll_callback, if_pos hy]
  · intro e hy
    simp only [editor.mouse_scroll_callback, if_neg (not_lt.mpr hy)]
  · intro hy
    simp only [editor.mouse_scroll_callback, if_pos hy, glm_clamp]
    apply le_min _ hhi
    apply le_max_of_le_left
    linarith
  · intro hy
    simp only [editor.mouse_scroll_callback, if_neg (not_lt.mpr hy), glm_clamp]
    apply min_le_of_left_le
    apply max_le _ hlo
    rw [div_le_iff₀ (by norm_num)]
    linarith

/-- C20, for the first scrolls after `editor::create`: a scroll down takes the radius
`1` to `1.04`, and a scroll with offset zero after it does not increase the radius. -/
theorem C20_orbit_radius_invariant_witness :
    ((editor.create (22 / 7 : ℚ)).mouse_scroll_callback 0 (-1)).m_camera_radius
      = glm_clamp (1 * (104 / 100)) (125 / 1000) (125 / 10) ∧
    (((editor.create (22 / 7 : ℚ)).run (22 / 7) [.mouse_scroll 0 (-1)]).mouse_scroll_callback
        0 0).m_camera_radius
      ≤ ((editor.create (22 / 7 : ℚ)).run (22 / 7) [.mouse_scroll 0 (-1)]).m_camera_radius :=
  ⟨(C20_orbit_radius_invariant (22 / 7 : ℚ) [] 0 (-1)).2.2.1 (editor.create (22 / 7))
      (by norm_num),
   (C20_orbit_radius_invariant (22 / 7 : ℚ) [.mouse_scroll 0 (-1)] 0 0).2.2.2.2.2
      (le_refl 0)⟩

/-- The geometry of `editor::update` in real arithmetic, for a radius and a pitch
inside the limits that the callbacks keep. -/
theorem editor_update_geometry (e : editor ℝ) (target : vec3 ℝ)
    (hr : 125 / 1000 ≤ e.m_camera_radius)
    (hp0 : 0 < e.m_camera_rotation.y) (hp1 : e.m_camera_rotation.y < Real.pi) :
    glm_dot ((e.update Real.sin Real.cos target).sub target)
        ((e.update Real.sin Real.cos target).sub target) = e.m_camera_radius ^ 2 ∧
    ((e.update Real.sin Real.cos target).x - target.x) ^ 2
        + ((e.update Real.sin Real.cos target).z - target.z) ^ 2
      = (e.m_camera_radius * Real.sin e.m_camera_rotation.y) ^ 2 ∧
    0 < e.m_camera_radius * Real.sin e.m_camera_rotation.y := by
  have hs := Real.sin_pos_of_pos_of_lt_pi hp0 hp1
  have h1 := Real.sin_sq_add_cos_sq e.m_camera_rotation.x
  have h2 := Real.sin_sq_add_cos_sq e.m_camera_rotation.y
  have hrpos : 0 < e.m_camera_radius := by linarith
  refine ⟨?_, ?_, mul_pos hrpos hs⟩
  · simp only [glm_dot, vec3.sub, editor.update]
    linear_combination
      (e.m_camera_radius ^ 2 * Real.sin e.m_camera_rotation.y ^ 2) * h1
        + e.m_camera_radius ^ 2 * h2
  · simp only [editor.update]
    linear_combination
      (e.m_camera_radius ^ 2 * Real.sin e.m_camera_rotation.y ^ 2) * h1

/-- C18: in real arithmetic, for every state that the editor reaches from the initial
rotation `(0, 90°)` and radius `1` by mouse position and scroll callbacks,
`editor::update` places the camera at distance `m_camera_radius >= 0.125` from its
target, with horizontal distance `m_camera_radius * sin(pitch) > 0`; the camera is
never at its target, and in `camera_update_system` neither the length of
`target - position` nor the length of `cross((0, 1, 0), front)`, by which the two
normalisations divide, is zero. -/
theorem C18_camera_never_degenerate (inputs : List (editor_input ℝ)) (target : vec3 ℝ) :
    let e := (editor.create Real.pi).run Real.pi inputs
    let position := e.update Real.sin Real.cos target
    let front := camera_front Real.sqrt target position
    Real.sqrt (glm_dot (position.sub target) (position.sub target)) = e.m_camera_radius ∧
    125 / 1000 ≤ e.m_camera_radius ∧
    Real.sqrt ((position.x - target.x) ^ 2 + (position.z - target.z) ^ 2)
      = e.m_camera_radius * Real.sin e.m_camera_rotation.y ∧
    0 < e.m_camera_radius * Real.sin e.m_camera_rotation.y ∧
    position ≠ target ∧
    Real.sqrt (glm_dot (target.sub position) (target.sub position)) ≠ 0 ∧
    Real.sqrt (glm_dot (glm_cross ⟨0, 1, 0⟩ front) (glm_cross ⟨0, 1, 0⟩ front)) ≠ 0 := by
  intro e position front
  obtain ⟨⟨hp15, hp165⟩, -, hrlo, -⟩ := editor_run_invariant Real.pi Real.pi_pos inputs
  have hpi := Real.pi_pos
  have hp0 : 0 < e.m_camera_rotation.y := by
    have : 0 < glm_radians Real.pi 15 := by unfold glm_radians; positivity
    exact lt_of_lt_of_le this hp15
  have hp1 : e.m_camera_rotation.y < Real.pi := by
    have : glm_radians Real.pi 165 < Real.pi := by unfold glm_radians; linarith
    exact lt_of_le_of_lt hp165 this
  obtain ⟨hd, hh, hpos⟩ := editor_update_geometry e target hrlo hp0 hp1
  have hrpos : 0 < e.m_camera_radius := by linarith
  have hlen : Real.sqrt (glm_dot (position.sub target) (position.sub target))
      = e.m_camera_radius := by
    rw [hd]
    exact Real.sqrt_sq hrpos.le
  have hflip : glm_dot (target.sub position) (target.sub position)
      = glm_dot (position.sub target) (position.sub target) := by
    simp only [glm_dot, vec3.sub]
    ring
  have hlen2 : Real.sqrt (glm_dot (target.sub position) (target.sub position))
      = e.m_camera_radius := by
    rw [hflip]
    exact hlen
  refine ⟨hlen, hrlo, ?_, hpos, ?_, ?_, ?_⟩
  · rw [hh]
    exact Real.sqrt_sq hpos.le
  · intro heq
    have : glm_dot (position.sub target) (position.sub target) = 0 := by
      rw [heq]
      simp [glm_dot, vec3.sub]
    rw [hd] at this
    have : e.m_camera_radius = 0 := by
      exact pow_eq_zero_iff (two_ne_zero) |>.mp this
    linarith
  · rw [hlen2]
    exact hrpos.ne'
  · have hc : glm_dot (glm_cross ⟨0, 1, 0⟩ front) (glm_cross ⟨0, 1, 0⟩ front)
        = Real.sin e.m_camera_rotation.y ^ 2 := by
      have hfront : front = ⟨(target.x - position.x) / e.m_camera_radius,
          (target.y - position.y) / e.m_camera_radius,
          (target.z - position.z) / e.m_camera_radius⟩ := by
        show glm_normalize Real.sqrt (target.sub position) = _
        unfold glm_normalize
        rw [hlen2]
        rfl
      rw [hfront]
      simp only [glm_dot, glm_cross]
      field_simp
      linear_combination hh
    rw [hc]
    have hs : 0 < Real.sin e.m_camera_rotation.y := Real.sin_pos_of_pos_of_lt_pi hp0 hp1
    rw [Real.sqrt_sq hs.le]
    exact hs.ne'

/-! ## The transformation update -/

theorem glm_translate_eq_mul {K : Type} [LinearOrderedField K] (m : mat4 K) (v : vec3 K) :
    glm_translate m v = m * translation_matrix v := by
  ext r c
  fin_cases c <;>
    simp [glm_translate, translation_matrix, Matrix.mul_apply, Fin.sum_univ_four,
      Matrix.vecHead, Matrix.vecTail]

theorem glm_rotate_eq_mul {K : Type} [LinearOrderedField K] (sin cos sqrt : K → K)
    (m : mat4 K) (angle : K) (v : vec3 K) :
    glm_rotate sin cos sqrt m angle v
      = m * rotation_matrix sin cos angle (glm_normalize sqrt v) := by
  ext r c
  fin_cases c <;>
    simp [glm_rotate, glm_rotate_block, rotation_matrix, Matrix.mul_apply,
      Fin.sum_univ_four, Matrix.vecHead, Matrix.vecTail] <;> ring

theorem glm_scale_eq_mul {K : Type} [LinearOrderedField K] (m : mat4 K) (v : vec3 K) :
    glm_scale m v = m * scaling_matrix v := by
  ext r c
  fin_cases c <;>
    simp [glm_scale, scaling_matrix, Matrix.mul_apply, Fin.sum_univ_four,
      Matrix.vecHead, Matrix.vecTail]

/-- C17: `transformation_update_system::update` gives every transform component the
local matrix `T(position) * R(rotation.x, axis) * S(scale)`, `axis` being the
normalised vector `(rotation.y, rotation.z, rotation.w)`, sets the world matrix to
the same matrix and keeps position, rotation and scale; the pool keeps its length and
order. -/
theorem C17_transformation_update {K : Type} [LinearOrderedField K] (sin cos sqrt : K → K)
    (transformations : List (transform_component K)) :
    transformation_update_system.update sin cos sqrt transformations
      = transformations.map (fun c =>
          { position := c.position,
            rotation := c.rotation,
            scale := c.scale,
            local_transformation_matrix :=
              translation_matrix c.position
                * rotation_matrix sin cos c.rotation.x
                    (glm_normalize sqrt ⟨c.rotation.y, c.rotation.z, c.rotation.w⟩)
                * scaling_matrix c.scale,
            world_transformation_matrix :=
              translation_matrix c.position
                * rotation_matrix sin cos c.rotation.x
                    (glm_normalize sqrt ⟨c.rotation.y, c.rotation.z, c.rotation.w⟩)
                * scaling_matrix c.scale }) ∧
    (transformation_update_system.update sin cos sqrt transformations).length
      = transformations.length ∧
    (transformation_update_system.update sin cos sqrt transformations).map
        (fun c => (c.position, c.rotation, c.scale))
      = transformations.map (fun c => (c.position, c.rotation, c.scale)) ∧
    (∀ c ∈ transformation_update_system.update sin cos sqrt transformations,
      c.world_transformation_matrix = c.local_transformation_matrix) := by
  have hc : ∀ c : transform_component K,
      transformation_update_component sin cos sqrt c
        = { position := c.position,
            rotation := c.rotation,
            scale := c.scale,
            local_transformation_matrix :=
              translation_matrix c.position
                * rotation_matrix sin cos c.rotation.x
                    (glm_normalize sqrt ⟨c.rotation.y, c.rotation.z, c.rotation.w⟩)
                * scaling_matrix c.scale,
            world_transformation_matrix :=
              translation_matrix c.position
                * rotation_matrix sin cos c.rotation.x
                    (glm_normalize sqrt ⟨c.rotation.y, c.rotation.z, c.rotation.w⟩)
                * scaling_matrix c.scale } := by
    intro c
    simp only [transformation_update_component, glm_scale_eq_mul, glm_rotate_eq_mul,
      glm_translate_eq_mul, one_mul]
  have hu : transformation_update_system.update sin cos sqrt transformations
      = transformations.map (fun c =>
          { position := c.position,
            rotation := c.rotation,
            scale := c.scale,
            local_transformation_matrix :=
              translation_matrix c.position
                * rotation_matrix sin cos c.rotation.x
                    (glm_normalize sqrt ⟨c.rotation.y, c.rotation.z, c.rotation.w⟩)
                * scaling_matrix c.scale,
            world_transformation_matrix :=
              translation_matrix c.position
                * rotation_matrix sin cos c.rotation.x
                    (glm_normalize sqrt ⟨c.rotation.y, c.rotation.z, c.rotation.w⟩)
                * scaling_matrix c.scale }) := by
    unfold transformation_update_system.update
    exact List.map_congr_left (fun c _ => hc c)
  refine ⟨hu, ?_, ?_, ?_⟩
  · simp [transformation_update_system.update]
  · rw [hu, List.map_map]
    rfl
  · intro c hmem
    rw [hu] at hmem
    obtain ⟨d, -, rfl⟩ := List.mem_map.mp hmem
    rfl

/-! ## The sortable command buffer -/

theorem insert_by_key_perm {command : Type} (e : Nat × command) (l : List (Nat × command)) :
    (command_buffer.insert_by_key e l).Perm (e :: l) := by
  induction l with
  | nil => exact List.Perm.refl _
  | cons h t ih =>
    simp only [command_buffer.insert_by_key]
    split_ifs
    · exact List.Perm.refl _
    · exact (List.Perm.cons h ih).trans (List.Perm.swap e h t)

theorem sort_by_key_perm {command : Type} (l : List (Nat × command)) :
    (command_buffer.sort_by_key l).Perm l := by
  induction l with
  | nil => exact List.Perm.refl _
  | cons e es ih =>
    simp only [command_buffer.sort_by_key]
    exact (insert_by_key_perm e _).trans (List.Perm.cons e ih)

theorem insert_by_key_sorted {command : Type} (e : Nat × command) (l : List (Nat × command))
    (h : l.Pairwise (fun a b => a.1 ≤ b.1)) :
    (command_buffer.insert_by_key e l).Pairwise (fun a b => a.1 ≤ b.1) := by
  induction l with
  | nil => simp [command_buffer.insert_by_key]
  | cons x t ih =>
    obtain ⟨hx, ht⟩ := List.pairwise_cons.mp h
    simp only [command_buffer.insert_by_key]
    split_ifs with hle
    · refine List.pairwise_cons.mpr ⟨?_, h⟩
      intro a ha
      rcases List.mem_cons.mp ha with rfl | ha
      · exact hle
      · exact le_trans hle (hx a ha)
    · refine List.pairwise_cons.mpr ⟨?_, ih ht⟩
      intro a ha
      rcases List.mem_cons.mp ((insert_by_key_perm e t).subset ha) with rfl | ha
      · exact Nat.le_of_lt (Nat.lt_of_not_le hle)
      · exact hx a ha

theorem sort_by_key_sorted {command : Type} (l : List (Nat × command)) :
    (command_buffer.sort_by_key l).Pairwise (fun a b => a.1 ≤ b.1) := by
  induction l with
  | nil => exact List.Pairwise.nil
  | cons e es ih => exact insert_by_key_sorted e _ ih

theorem insert_by_key_filter {command : Type} (k : Nat) (e : Nat × command)
    (l : List (Nat × command)) :
    (command_buffer.insert_by_key e l).filter (fun a => decide (a.1 = k))
      = (e :: l).filter (fun a => decide (a.1 = k)) := by
  induction l with
  | nil => rfl
  | cons h t ih =>
    simp only [command_buffer.insert_by_key]
    split_ifs with hle
    · rfl
    · have hne : e.1 ≠ h.1 := fun heq => hle (le_of_eq heq)
      rw [List.filter_cons, ih]
      by_cases he : e.1 = k
      · have hh : h.1 ≠ k := fun hh => hne (he.trans hh.symm)
        simp [List.filter_cons, he, hh]
      · simp [List.filter_cons, he]

theorem sort_by_key_filter {command : Type} (k : Nat) (l : List (Nat × command)) :
    (command_buffer.sort_by_key l).filter (fun a => decide (a.1 = k))
      = l.filter (fun a => decide (a.1 = k)) := by
  induction l with
  | nil => rfl
  | cons e es ih =>
    simp only [command_buffer.sort_by_key]
    rw [insert_by_key_filter, List.filter_cons, List.filter_cons, ih]

theorem record_all_entries {command : Type} (b : command_buffer command)
    (es : List (Nat × command)) : (b.record_all es).entries = b.entries ++ es := by
  induction es generalizing b with
  | nil => simp [command_buffer.record_all]
  | cons e es ih =>
    have : b.record_all (e :: es) = (b.record e.2 e.1).record_all es := rfl
    rw [this, ih]
    simp [command_buffer.record]

/-- C11: for every sequence of (key, command) entries recorded into an empty command
buffer, `execute` dispatches a permutation of the recorded entries, in ascending key
order, in strictly ascending key order when the keys are distinct, and for every key
the entries with that key are dispatched in the order of their recording. -/
theorem C11_execute_sorts_stably {command : Type} (es : List (Nat × command)) :
    (command_buffer.empty.record_all es).entries = es ∧
    ((command_buffer.empty.record_all es).execute).Perm es ∧
    ((command_buffer.empty.record_all es).execute).Pairwise (fun a b => a.1 ≤ b.1) ∧
    ((es.map Prod.fst).Nodup →
      ((command_buffer.empty.record_all es).execute).Pairwise (fun a b => a.1 < b.1)) ∧
    (∀ k : Nat,
      ((command_buffer.empty.record_all es).execute).filter (fun a => decide (a.1 = k))
        = es.filter (fun a => decide (a.1 = k))) := by
  have he : (command_buffer.empty.record_all es).entries = es := by
    rw [record_all_entries]
    rfl
  refine ⟨he, ?_, ?_, ?_, ?_⟩
  · unfold command_buffer.execute
    rw [he]
    exact sort_by_key_perm es
  · unfold command_buffer.execute
    exact sort_by_key_sorted _
  · intro hnd
    unfold command_buffer.execute
    rw [he]
    have hs := sort_by_key_sorted es
    have hn : ((command_buffer.sort_by_key es).map Prod.fst).Nodup :=
      ((sort_by_key_perm es).map Prod.fst).nodup_iff.mpr hnd
    have hp : (command_buffer.sort_by_key es).Pairwise (fun a b => a.1 ≠ b.1) := by
      rw [List.Nodup, List.pairwise_map] at hn
      exact hn
    exact (hs.and hp).imp (fun h => lt_of_le_of_ne h.1 h.2)
  · intro k
    unfold command_buffer.execute
    rw [he]
    exact sort_by_key_filter k es

/-- C11, for four recorded entries of which two share the key `1`: the dispatch order
is strictly ascending for the distinct keys `2, 0, 1`, and the two entries with key
`1` keep their order. -/
theorem C11_execute_sorts_stably_witness :
    ((command_buffer.empty.record_all [(2, "a"), (0, "b"), (1, "c")]).execute).Pairwise
      (fun a b => a.1 < b.1) ∧
    (command_buffer.empty.record_all [(1, "first"), (0, "clear"), (1, "second")]).execute
      = [(0, "clear"), (1, "first"), (1, "second")] :=
  ⟨(C11_execute_sorts_stably [(2, "a"), (0, "b"), (1, "c")]).2.2.2.1 (by decide), by decide⟩

/-! ## The shadow cascades -/

theorem split_boundary_strict_mono (camera_near camera_far lambda : ℝ) (cascade_count : Nat)
    (hn : 0 < cascade_count) (h0 : 0 < camera_near) (h1 : camera_near < camera_far)
    (hl0 : 0 ≤ lambda) (hl1 : lambda ≤ 1) (i j : Nat) (hij : i < j) :
    shadow_map_step.split_boundary (fun x y => x ^ y) camera_near camera_far lambda
        cascade_count i
      < shadow_map_step.split_boundary (fun x y => x ^ y) camera_near camera_far lambda
        cascade_count j := by
  have hN : (0 : ℝ) < cascade_count := by exact_mod_cast hn
  have hp : (i : ℝ) / cascade_count < (j : ℝ) / cascade_count := by
    apply div_lt_div_of_pos_right _ hN
    exact_mod_cast hij
  have hr : 1 < camera_far / camera_near := by
    rw [lt_div_iff₀ h0]
    linarith
  have hu : camera_near + (camera_far - camera_near) * ((i : ℝ) / cascade_count)
      < camera_near + (camera_far - camera_near) * ((j : ℝ) / cascade_count) := by
    have : 0 < camera_far - camera_near := by linarith
    nlinarith
  have hlog : camera_near * (camera_far / camera_near) ^ ((i : ℝ) / cascade_count)
      < camera_near * (camera_far / camera_near) ^ ((j : ℝ) / cascade_count) := by
    apply mul_lt_mul_of_pos_left _ h0
    exact (Real.rpow_lt_rpow_left_iff hr).mpr hp
  simp only [shadow_map_step.split_boundary, lerp]
  rcases eq_or_lt_of_le hl1 with h | h
  · rw [h]
    linarith
  · nlinarith

theorem split_boundary_zero (camera_near camera_far lambda : ℝ) (cascade_count : Nat) :
    shadow_map_step.split_boundary (fun x y => x ^ y) camera_near camera_far lambda
      cascade_count 0 = camera_near := by
  simp [shadow_map_step.split_boundary, lerp]

theorem split_boundary_last (camera_near camera_far lambda : ℝ) (cascade_count : Nat)
    (hn : 0 < cascade_count) (h0 : 0 < camera_near) :
    shadow_map_step.split_boundary (fun x y => x ^ y) camera_near camera_far lambda
      cascade_count cascade_count = camera_far := by
  have hN : (cascade_count : ℝ) ≠ 0 := by exact_mod_cast hn.ne'
  simp only [shadow_map_step.split_boundary, lerp, div_self hN, Real.rpow_one]
  field_simp

/-- C12: in real arithmetic, for a cascade count `N` with `1 ≤ N ≤ 4`, a `lambda` in
`[0, 1]` and `0 < camera_near < camera_far`, `update_cascades` produces `N + 1` split
boundaries, which fit into the `max_shadow_mapping_cascades + 1 = 5` entries of
`split_depth`; the first is `camera_near`, the last is `camera_far`, all of them lie
in `[camera_near, camera_far]` and they are strictly increasing. -/
theorem C12_cascade_split_boundaries (camera_near camera_far lambda : ℝ) (cascade_count : Nat)
    (hn1 : 1 ≤ cascade_count)
    (hn4 : cascade_count ≤ shadow_map_step.max_shadow_mapping_cascades)
    (hl0 : 0 ≤ lambda) (hl1 : lambda ≤ 1)
    (h0 : 0 < camera_near) (h1 : camera_near < camera_far) :
    (shadow_map_step.update_cascades (fun x y => x ^ y) camera_near camera_far lambda
      cascade_count).length = cascade_count + 1 ∧
    (shadow_map_step.update_cascades (fun x y => x ^ y) camera_near camera_far lambda
      cascade_count).length ≤ shadow_map_step.split_depth_size ∧
    (shadow_map_step.update_cascades (fun x y => x ^ y) camera_near camera_far lambda
      cascade_count).head? = some camera_near ∧
    (shadow_map_step.update_cascades (fun x y => x ^ y) camera_near camera_far lambda
      cascade_count).getLast? = some camera_far ∧
    (∀ d ∈ shadow_map_step.update_cascades (fun x y => x ^ y) camera_near camera_far lambda
      cascade_count, camera_near ≤ d ∧ d ≤ camera_far) ∧
    (shadow_map_step.update_cascades (fun x y => x ^ y) camera_near camera_far lambda
      cascade_count).Pairwise (fun a b => a < b) := by
  have hn : 0 < cascade_count := hn1
  have hmono := split_boundary_strict_mono camera_near camera_far lambda cascade_count hn h0 h1
    hl0 hl1
  have hfirst := split_boundary_zero camera_near camera_far lambda cascade_count
  have hlast := split_boundary_last camera_near camera_far lambda cascade_count hn h0
  refine ⟨?_, ?_, ?_, ?_, ?_, ?_⟩
  · simp [shadow_map_step.update_cascades]
  · simp only [shadow_map_step.update_cascades, List.length_map, List.length_range,
      shadow_map_step.split_depth_size]
    omega
  · simp only [shadow_map_step.update_cascades, List.range_succ_eq_map, List.map_cons,
      List.head?_cons, hfirst]
  · simp only [shadow_map_step.update_cascades, List.range_succ, List.map_append,
      List.map_cons, List.map_nil, List.getLast?_append, List.getLast?_singleton, hlast]
    rfl
  · intro d hd
    simp only [shadow_map_step.update_cascades, List.mem_map, List.mem_range] at hd
    obtain ⟨i, hi, rfl⟩ := hd
    constructor
    · rcases Nat.eq_zero_or_pos i with h | h
      · rw [h, hfirst]
      · have hle := (hmono 0 i h).le
        rw [hfirst] at hle
        exact hle
    · rcases Nat.lt_or_ge i cascade_count with h | h
      · have hle := (hmono i cascade_count h).le
        rw [hlast] at hle
        exact hle
      · have : i = cascade_count := by omega
        rw [this, hlast]
  · simp only [shadow_map_step.update_cascades]
    rw [List.pairwise_map]
    exact (List.pairwise_lt_range _).imp (fun h => hmono _ _ h)

/-- C12, for the default count of three cascades between the planes `1` and `8` with
`lambda = 1 / 2`: four boundaries, strictly increasing, from `1` to `8`. -/
theorem C12_cascade_split_boundaries_witness :
    (shadow_map_step.update_cascades (fun x y => x ^ y) (1 : ℝ) 8 (1 / 2)
      shadow_map_step.default_shadow_map_cascade_count).length = 4 ∧
    (shadow_map_step.update_cascades (fun x y => x ^ y) (1 : ℝ) 8 (1 / 2)
      shadow_map_step.default_shadow_map_cascade_count).head? = some 1 ∧
    (shadow_map_step.update_cascades (fun x y => x ^ y) (1 : ℝ) 8 (1 / 2)
      shadow_map_step.default_shadow_map_cascade_count).getLast? = some 8 ∧
    (shadow_map_step.update_cascades (fun x y => x ^ y) (1 : ℝ) 8 (1 / 2)
      shadow_map_step.default_shadow_map_cascade_count).Pairwise (fun a b => a < b) :=
  have h := C12_cascade_split_boundaries (1 : ℝ) 8 (1 / 2)
    shadow_map_step.default_shadow_map_cascade_count (by decide) (by decide)
    (by norm_num) (by norm_num) (by norm_num) (by norm_num)
  ⟨h.1, h.2.2.1, h.2.2.2.1, h.2.2.2.2.2⟩

/-! ## The drag and drop callback -/

theorem find_last_of_from_absent (c : Char) (s : List Char) (i found : Nat) (h : c ∉ s) :
    find_last_of_from c s i found = found := by
  induction s generalizing i found with
  | nil => rfl
  | cons x xs ih =>
    have hx : x ≠ c := fun hxc => h (by simp [hxc])
    have hxs : c ∉ xs := fun hm => h (List.mem_cons_of_mem _ hm)
    simp only [find_last_of_from, if_neg hx]
    exact ih _ _ hxs

theorem find_last_of_from_last (c : Char) (before after : List Char) (i found : Nat)
    (h : c ∉ after) :
    find_last_of_from c (before ++ c :: after) i found = i + before.length := by
  induction before generalizing i found with
  | nil =>
    simp only [List.nil_append, find_last_of_from, if_true, List.length_nil, Nat.add_zero]
    exact find_last_of_from_absent c after _ _ h
  | cons x xs ih =>
    have hstep : find_last_of_from c ((x :: xs) ++ c :: after) i found
        = find_last_of_from c (xs ++ c :: after) (i + 1) (if x = c then i else found) := rfl
    rw [hstep, ih, List.length_cons]
    omega

theorem path_extension_after_last_dot (before after : List Char) (h : '.' ∉ after)
    (hlen : (before ++ '.' :: after).length < 2 ^ 64) :
    path_extension (before ++ '.' :: after) = after := by
  have hb : before.length + 1 < 2 ^ 64 := by
    simp only [List.length_append, List.length_cons] at hlen
    omega
  unfold path_extension find_last_of substr
  rw [find_last_of_from_last _ _ _ _ _ h, Nat.zero_add, Nat.mod_eq_of_lt hb]
  simp

theorem path_extension_without_dot (path : List Char) (h : '.' ∉ path) :
    path_extension path = path := by
  unfold path_extension find_last_of substr
  rw [find_last_of_from_absent _ _ _ _ h]
  simp [string_npos]

theorem drop_path_hdr (scene : scene_results) (s : editor_entities) (path : List Char)
    (h : path_extension path = "hdr".toList) :
    s.drop_path scene path
      = { m_environment :=
            scene.environment_from_hdr path (s.scene_calls ++ [.remove_entity s.m_environment]),
          m_model := s.m_model,
          scene_calls := s.scene_calls ++
            [.remove_entity s.m_environment,
             .create_environment_from_hdr path (125 / 1000)] } := by
  simp [editor_entities.drop_path, h]

theorem drop_path_model (scene : scene_results) (s : editor_entities) (path : List Char)
    (h : path_extension path = "glb".toList ∨ path_extension path = "gltf".toList) :
    s.drop_path scene path
      = { m_environment := s.m_environment,
          m_model := scene.entities_from_model path
            (s.scene_calls ++ s.m_model.map scene_call.remove_entity),
          scene_calls := s.scene_calls ++ s.m_model.map scene_call.remove_entity ++
            [.create_entities_from_model path] } := by
  have hne : path_extension path ≠ "hdr".toList := by
    rcases h with h | h <;> rw [h] <;> decide
  simp only [editor_entities.drop_path, if_neg hne, if_pos h]

theorem drop_path_other (scene : scene_results) (s : editor_entities) (path : List Char)
    (h1 : path_extension path ≠ "hdr".toList) (h2 : path_extension path ≠ "glb".toList)
    (h3 : path_extension path ≠ "gltf".toList) :
    s.drop_path scene path = s := by
  have h23 : ¬ (path_extension path = "glb".toList ∨ path_extension path = "gltf".toList) :=
    fun h => h.elim h2 h3
  simp only [editor_entities.drop_path, if_neg h1, if_neg h23]

theorem callback_keeps_environment (scene : scene_results) (s : editor_entities)
    (paths : List (List Char)) (h : ∀ q ∈ paths, path_extension q ≠ "hdr".toList) :
    (s.drag_and_drop_callback scene paths).m_environment = s.m_environment := by
  induction paths generalizing s with
  | nil => rfl
  | cons q qs ih =>
    have hq := h q (List.mem_cons_self _ _)
    have hqs : ∀ r ∈ qs, path_extension r ≠ "hdr".toList :=
      fun r hr => h r (List.mem_cons_of_mem _ hr)
    have hstep : s.drag_and_drop_callback scene (q :: qs)
        = (s.drop_path scene q).drag_and_drop_callback scene qs := rfl
    rw [hstep, ih _ hqs]
    by_cases hm : path_extension q = "glb".toList ∨ path_extension q = "gltf".toList
    · rw [drop_path_model scene s q hm]
    · rw [drop_path_other scene s q hq (fun h => hm (Or.inl h)) (fun h => hm (Or.inr h))]

theorem callback_keeps_model (scene : scene_results) (s : editor_entities)
    (paths : List (List Char))
    (h : ∀ q ∈ paths, path_extension q ≠ "glb".toList ∧ path_extension q ≠ "gltf".toList) :
    (s.drag_and_drop_callback scene paths).m_model = s.m_model := by
  induction paths generalizing s with
  | nil => rfl
  | cons q qs ih =>
    have hq := h q (List.mem_cons_self _ _)
    have hqs : ∀ r ∈ qs, path_extension r ≠ "glb".toList ∧ path_extension r ≠ "gltf".toList :=
      fun r hr => h r (List.mem_cons_of_mem _ hr)
    have hstep : s.drag_and_drop_callback scene (q :: qs)
        = (s.drop_path scene q).drag_and_drop_callback scene qs := rfl
    rw [hstep, ih _ hqs]
    by_cases hh : path_extension q = "hdr".toList
    · rw [drop_path_hdr scene s q hh]
    · rw [drop_path_other scene s q hh hq.1 hq.2]

theorem callback_append (scene : scene_results) (s : editor_entities)
    (xs ys : List (List Char)) :
    s.drag_and_drop_callback scene (xs ++ ys)
      = (s.drag_and_drop_callback scene xs).drag_and_drop_callback scene ys := by
  simp [editor_entities.drag_and_drop_callback, List.foldl_append]

/-- C22: the drag and drop callback compares the text after the last `.` of a path,
or the whole path when it holds no `.`, character by character: the environment is
removed and created from the path exactly when that text is `hdr`, the model entities
are removed and created from the path exactly when it is `glb` or `gltf`, and every
other path, such as `x.HDR` or `x.png`, leaves `m_environment`, `m_model` and the
scene untouched; the paths are processed in the order given, so that the environment
is the one of the last `hdr` path and the model the one of the last model path. -/
theorem C22_drag_and_drop_classifies_by_extension (scene : scene_results)
    (s : editor_entities) (path : List Char) (hlen : path.length < 2 ^ 64) :
    (∀ before after : List Char, path = before ++ '.' :: after → '.' ∉ after →
      path_extension path = after) ∧
    ('.' ∉ path → path_extension path = path) ∧
    ((s.drop_path scene path).scene_calls
        = s.scene_calls ++
          [.remove_entity s.m_environment, .create_environment_from_hdr path (125 / 1000)]
      ↔ path_extension path = "hdr".toList) ∧
    (path_extension path = "hdr".toList →
      (s.drop_path scene path).m_environment
          = scene.environment_from_hdr path
              (s.scene_calls ++ [.remove_entity s.m_environment]) ∧
        (s.drop_path scene path).m_model = s.m_model) ∧
    ((s.drop_path scene path).scene_calls
        = s.scene_calls ++ s.m_model.map scene_call.remove_entity ++
          [.create_entities_from_model path]
      ↔ (path_extension path = "glb".toList ∨ path_extension path = "gltf".toList)) ∧
    ((path_extension path = "glb".toList ∨ path_extension path = "gltf".toList) →
      (s.drop_path scene path).m_model
          = scene.entities_from_model path
              (s.scene_calls ++ s.m_model.map scene_call.remove_entity) ∧
        (s.drop_path scene path).m_environment = s.m_environment) ∧
    (path_extension path ≠ "hdr".toList → path_extension path ≠ "glb".toList →
      path_extension path ≠ "gltf".toList → s.drop_path scene path = s) ∧
    (s.drop_path scene "x.HDR".toList = s ∧ s.drop_path scene "x.png".toList = s ∧
      s.drop_path scene "x.hdr.bak".toList = s ∧ s.drop_path scene "Hdr".toList = s) ∧
    (path_extension "x.HDR".toList = "HDR".toList ∧
      path_extension "a.b/scene.gltf".toList = "gltf".toList ∧
      path_extension "hdr".toList = "hdr".toList) ∧
    (∀ earlier later : List (List Char),
      s.drag_and_drop_callback scene (earlier ++ path :: later)
        = ((s.drag_and_drop_callback scene earlier).drop_path scene
            path).drag_and_drop_callback scene later) ∧
    (∀ earlier later : List (List Char), path_extension path = "hdr".toList →
      (∀ q ∈ later, path_extension q ≠ "hdr".toList) →
      (s.drag_and_drop_callback scene (earlier ++ path :: later)).m_environment
        = scene.environment_from_hdr path
            ((s.drag_and_drop_callback scene earlier).scene_calls ++
              [.remove_entity (s.drag_and_drop_callback scene earlier).m_environment])) ∧
    (∀ earlier later : List (List Char),
      (path_extension path = "glb".toList ∨ path_extension path = "gltf".toList) →
      (∀ q ∈ later,
        path_extension q ≠ "glb".toList ∧ path_extension q ≠ "gltf".toList) →
      (s.drag_and_drop_callback scene (earlier ++ path :: later)).m_model
        = scene.entities_from_model path
            ((s.drag_and_drop_callback scene earlier).scene_calls ++
              (s.drag_and_drop_callback scene earlier).m_model.map
                scene_call.remove_entity)) := by
  have horder : ∀ (t : editor_entities) (earlier later : List (List Char)),
      t.drag_and_drop_callback scene (earlier ++ path :: later)
        = ((t.drag_and_drop_callback scene earlier).drop_path scene
            path).drag_and_drop_callback scene later := by
    intro t earlier later
    rw [callback_append]
    rfl
  refine ⟨?_, path_extension_without_dot path, ?_, ?_, ?_, ?_, drop_path_other scene s path,
    ?_, ?_, horder s, ?_, ?_⟩
  · intro before after hp hdot
    subst hp
    exact path_extension_after_last_dot before after hdot hlen
  · constructor
    · intro hc
      by_contra hne
      by_cases hm : path_extension path = "glb".toList ∨ path_extension path = "gltf".toList
      · rw [drop_path_model scene s path hm] at hc
        have hl := congrArg List.getLast? hc
        simp at hl
      · rw [drop_path_other scene s path hne (fun h => hm (Or.inl h))
          (fun h => hm (Or.inr h))] at hc
        have hl := congrArg List.length hc
        simp at hl
    · intro h
      rw [drop_path_hdr scene s path h]
  · intro h
    rw [drop_path_hdr scene s path h]
    exact ⟨rfl, rfl⟩
  · constructor
    · intro hc
      by_contra hm
      by_cases hh : path_extension path = "hdr".toList
      · rw [drop_path_hdr scene s path hh] at hc
        have hl := congrArg List.getLast? hc
        simp at hl
      · rw [drop_path_other scene s path hh (fun h => hm (Or.inl h))
          (fun h => hm (Or.inr h))] at hc
        have hl := congrArg List.length hc
        simp at hl
    · intro h
      rw [drop_path_model scene s path h]
  · intro h
    rw [drop_path_model scene s path h]
    exact ⟨rfl, rfl⟩
  · refine ⟨?_, ?_, ?_, ?_⟩ <;>
      exact drop_path_other scene s _ (by decide) (by decide) (by decide)
  · exact ⟨by decide, by decide, by decide⟩
  · intro earlier later hh hlater
    rw [horder s, callback_keeps_environment scene _ later hlater,
      drop_path_hdr scene _ path hh]
  · intro earlier later hm hlater
    rw [horder s, callback_keeps_model scene _ later hlater,
      drop_path_model scene _ path hm]

/-- C22, for the paths `a.hdr`, `b.glb`, `c.hdr`, `x.png`, `d.gltf`, `e.HDR` dropped
together on a scene that numbers its entities: the environment is the one created
from `c.hdr` and the model the one created from `d.gltf`. -/
theorem C22_drag_and_drop_classifies_by_extension_witness :
    (((editor_entities.mk 0 [] []).drag_and_drop_callback scene_results.counting
        (["a.hdr".toList, "b.glb".toList] ++ "c.hdr".toList ::
          ["x.png".toList, "d.gltf".toList, "e.HDR".toList])).m_environment
      = scene_results.counting.environment_from_hdr "c.hdr".toList
          (((editor_entities.mk 0 [] []).drag_and_drop_callback scene_results.counting
              ["a.hdr".toList, "b.glb".toList]).scene_calls ++
            [.remove_entity ((editor_entities.mk 0 [] []).drag_and_drop_callback
              scene_results.counting ["a.hdr".toList, "b.glb".toList]).m_environment])) ∧
    path_extension "c.hdr".toList = "hdr".toList :=
  ⟨(C22_drag_and_drop_classifies_by_extension scene_results.counting
      (editor_entities.mk 0 [] []) "c.hdr".toList (by decide)).2.2.2.2.2.2.2.2.2.2.1
      ["a.hdr".toList, "b.glb".toList] ["x.png".toList, "d.gltf".toList, "e.HDR".toList]
      (by decide) (by decide),
   by decide⟩

/-! ## The scene graph -/

theorem pool_lookup_modify {component : Type} (f : component → component)
    (l : List (Nat × component)) (e x : Nat) :
    pool_lookup (pool_modify f l e) x
      = if x = e then (pool_lookup l e).map f else pool_lookup l x := by
  induction l with
  | nil => simp [pool_lookup, pool_modify]
  | cons q rest ih =>
    by_cases hq : q.1 = e
    · by_cases hx : x = e
      · simp [pool_lookup, pool_modify, hq, hx]
      · have hqx : ¬ e = x := fun h => hx h.symm
        simp [pool_lookup, pool_modify, hq, hx, hqx]
    · by_cases hx : x = e
      · subst hx
        simp only [pool_modify, if_neg hq, pool_lookup, ih, if_true]
      · simp only [pool_modify, if_neg hq, pool_lookup, ih, if_neg hx]

theorem pool_lookup_map {component : Type} (g : component → component)
    (l : List (Nat × component)) (x : Nat) :
    pool_lookup (l.map (fun q => (q.1, g q.2))) x = (pool_lookup l x).map g := by
  induction l with
  | nil => rfl
  | cons q rest ih =>
    by_cases hq : q.1 = x
    · simp [pool_lookup, hq]
    · simp [pool_lookup, hq, ih]

theorem pool_lookup_not_mem {component : Type} (l : List (Nat × component)) (x : Nat)
    (h : x ∉ l.map Prod.fst) : pool_lookup l x = none := by
  induction l with
  | nil => rfl
  | cons q rest ih =>
    have hq : q.1 ≠ x := fun hq => h (by simp [hq])
    have hr : x ∉ rest.map Prod.fst := fun hm => h (by simp at hm ⊢; exact Or.inr hm)
    simp [pool_lookup, hq, ih hr]

theorem pool_lookup_middle {component : Type} (before after : List (Nat × component))
    (e : Nat) (c : component) (h : e ∉ before.map Prod.fst) :
    pool_lookup (before ++ (e, c) :: after) e = some c := by
  induction before with
  | nil => simp [pool_lookup]
  | cons q rest ih =>
    have hq : q.1 ≠ e := fun hq => h (by simp [hq])
    have hr : e ∉ rest.map Prod.fst := fun hm => h (by simp at hm ⊢; exact Or.inr hm)
    simp [pool_lookup, hq, ih hr]

theorem update_pool_entries {K : Type} [LinearOrderedField K] (sin cos sqrt : K → K)
    (transformations : scene_component_pool (transform_component K)) :
    (transformation_update_system.update_pool sin cos sqrt transformations).entries
      = transformations.entries.map
          (fun q => (q.1, transformation_update_component sin cos sqrt q.2)) := by
  unfold transformation_update_system.update_pool transformation_update_system.update
  simp only
  induction transformations.entries with
  | nil => rfl
  | cons q rest ih =>
    simp only [List.map_cons, List.zip_cons_cons, ih]

theorem update_pool_lookup {K : Type} [LinearOrderedField K] (sin cos sqrt : K → K)
    (transformations : scene_component_pool (transform_component K)) (x : Nat) :
    (transformation_update_system.update_pool sin cos sqrt
        transformations).get_component_for_entity x
      = (transformations.get_component_for_entity x).map
          (transformation_update_component sin cos sqrt) := by
  unfold scene_component_pool.get_component_for_entity
  rw [update_pool_entries]
  exact pool_lookup_map _ _ _

theorem update_pool_world_eq_local {K : Type} [LinearOrderedField K] (sin cos sqrt : K → K)
    (transformations : scene_component_pool (transform_component K)) (x : Nat)
    (c : transform_component K)
    (h : (transformation_update_system.update_pool sin cos sqrt
        transformations).get_component_for_entity x = some c) :
    c.world_transformation_matrix = c.local_transformation_matrix := by
  rw [update_pool_lookup] at h
  obtain ⟨d, -, rfl⟩ := Option.map_eq_some'.mp h
  rfl

/-- The effect of one visit on the component of every entity. -/
theorem visit_lookup {K : Type} [LinearOrderedField K]
    (transformations : scene_component_pool (transform_component K))
    (node : Nat × node_component) (x : Nat) :
    (scene_graph_update_system.visit transformations node).get_component_for_entity x
      = match transformations.get_component_for_entity node.1,
          transformations.get_component_for_entity node.2.parent_entity with
        | some child, some parent =>
          if x = node.1 then
            some { child with world_transformation_matrix :=
              parent.world_transformation_matrix * child.local_transformation_matrix }
          else transformations.get_component_for_entity x
        | _, _ => transformations.get_component_for_entity x := by
  unfold scene_graph_update_system.visit
  simp only
  cases hc : transformations.get_component_for_entity node.1 with
  | none => rfl
  | some child =>
    cases hp : transformations.get_component_for_entity node.2.parent_entity with
    | none => rfl
    | some parent =>
      simp only [scene_component_pool.get_component_for_entity, scene_component_pool.modify]
      rw [pool_lookup_modify]
      unfold scene_component_pool.get_component_for_entity at hc
      by_cases hx : x = node.1
      · simp [hx, hc]
      · simp [hx]

theorem visit_lookup_other {K : Type} [LinearOrderedField K]
    (transformations : scene_component_pool (transform_component K))
    (node : Nat × node_component) (x : Nat) (hx : x ≠ node.1) :
    (scene_graph_update_system.visit transformations node).get_component_for_entity x
      = transformations.get_component_for_entity x := by
  rw [visit_lookup]
  cases transformations.get_component_for_entity node.1 with
  | none => rfl
  | some child =>
    cases transformations.get_component_for_entity node.2.parent_entity with
    | none => rfl
    | some parent => simp only [if_neg hx]

theorem visits_lookup_not_visited {K : Type} [LinearOrderedField K]
    (l : List (Nat × node_component))
    (transformations : scene_component_pool (transform_component K)) (x : Nat)
    (hx : x ∉ l.map Prod.fst) :
    (l.foldl scene_graph_update_system.visit transformations).get_component_for_entity x
      = transformations.get_component_for_entity x := by
  induction l generalizing transformations with
  | nil => rfl
  | cons node rest ih =>
    have hn : x ≠ node.1 := fun h => hx (by simp [h])
    have hr : x ∉ rest.map Prod.fst := fun hm => hx (by simp at hm ⊢; exact Or.inr hm)
    simp only [List.foldl_cons]
    rw [ih _ hr, visit_lookup_other _ _ _ hn]

theorem visits_lookup_none {K : Type} [LinearOrderedField K]
    (l : List (Nat × node_component))
    (transformations : scene_component_pool (transform_component K)) (x : Nat)
    (hx : transformations.get_component_for_entity x = none) :
    (l.foldl scene_graph_update_system.visit transformations).get_component_for_entity x
      = none := by
  induction l generalizing transformations with
  | nil => exact hx
  | cons node rest ih =>
    simp only [List.foldl_cons]
    apply ih
    rw [visit_lookup]
    cases hc : transformations.get_component_for_entity node.1 with
    | none => exact hx
    | some child =>
      cases transformations.get_component_for_entity node.2.parent_entity with
      | none => exact hx
      | some parent =>
        by_cases hxe : x = node.1
        · rw [hxe, hc] at hx
          cases hx
        · simp only [if_neg hxe]
          exact hx

theorem parents_visited_first_middle (before after : List (Nat × node_component))
    (node : Nat × node_component)
    (h : parents_visited_first (before ++ node :: after) = true) :
    node.2.parent_entity ≠ node.1 ∧ node.2.parent_entity ∉ after.map Prod.fst := by
  induction before with
  | nil =>
    simp only [List.nil_append, parents_visited_first, Bool.and_eq_true, decide_eq_true_eq,
      List.all_eq_true] at h
    refine ⟨h.1.1, ?_⟩
    intro hm
    obtain ⟨m, hm1, hm2⟩ := List.mem_map.mp hm
    exact h.1.2 m hm1 hm2
  | cons q rest ih =>
    simp only [List.cons_append, parents_visited_first, Bool.and_eq_true] at h
    exact ih h.2

theorem ancestor_chain_without_node {K : Type} [LinearOrderedField K]
    (nodes : scene_component_pool node_component)
    (transformations : scene_component_pool (transform_component K)) (steps x : Nat)
    (h : nodes.get_component_for_entity x = none) :
    ancestor_chain nodes transformations steps x = [x] := by
  cases steps with
  | zero => rfl
  | succ k => simp only [ancestor_chain, h]

theorem ancestor_chain_step {K : Type} [LinearOrderedField K]
    (nodes : scene_component_pool node_component)
    (transformations : scene_component_pool (transform_component K)) (steps e : Nat)
    (node : node_component) (parent : transform_component K)
    (hn : nodes.get_component_for_entity e = some node)
    (hp : transformations.get_component_for_entity node.parent_entity = some parent) :
    ancestor_chain nodes transformations (steps + 1) e
      = ancestor_chain nodes transformations steps node.parent_entity ++ [e] := by
  simp only [ancestor_chain, hn, hp]

theorem ancestor_chain_root {K : Type} [LinearOrderedField K]
    (nodes : scene_component_pool node_component)
    (transformations : scene_component_pool (transform_component K)) (steps e : Nat)
    (node : node_component)
    (hn : nodes.get_component_for_entity e = some node)
    (hp : transformations.get_component_for_entity node.parent_entity = none) :
    ancestor_chain nodes transformations steps e = [e] := by
  cases steps with
  | zero => rfl
  | succ k => simp only [ancestor_chain, hn, hp]

theorem node_lookup_of_entries (nodes : scene_component_pool node_component)
    (hnd : nodes.entities.Nodup) (before after : List (Nat × node_component)) (e : Nat)
    (node : node_component) (h : nodes.entries = before ++ (e, node) :: after) :
    nodes.get_component_for_entity e = some node ∧ e ∉ before.map Prod.fst ∧
      e ∉ after.map Prod.fst := by
  have hnd2 : (before.map Prod.fst ++ e :: after.map Prod.fst).Nodup := by
    have := hnd
    unfold scene_component_pool.entities at this
    rw [h] at this
    simpa using this
  have hb : e ∉ before.map Prod.fst := by
    intro hm
    exact (List.nodup_append.mp hnd2).2.2 hm (List.mem_cons_self _ _)
  have ha : e ∉ after.map Prod.fst :=
    (List.nodup_cons.mp (List.nodup_append.mp hnd2).2.1).1
  refine ⟨?_, hb, ha⟩
  unfold scene_component_pool.get_component_for_entity
  rw [h]
  exact pool_lookup_middle before after e node hb

/-- With the parents first, following more ancestors than an entity has nodes in
front of it does not change its chain. -/
theorem ancestor_chain_stable {K : Type} [LinearOrderedField K]
    (nodes : scene_component_pool node_component)
    (transformations : scene_component_pool (transform_component K))
    (hnd : nodes.entities.Nodup) (hpf : parents_visited_first nodes.entries = true) :
    ∀ (k : Nat) (before after : List (Nat × node_component)) (e : Nat) (node : node_component),
      nodes.entries = before ++ (e, node) :: after → before.length < k →
      ∀ steps, k ≤ steps →
        ancestor_chain nodes transformations steps e
          = ancestor_chain nodes transformations k e := by
  intro k
  induction k with
  | zero =>
    intro before after e node _ hlt
    exact absurd hlt (Nat.not_lt_zero _)
  | succ k ih =>
    intro before after e node hentries hlt steps hsteps
    obtain ⟨hget, -, -⟩ := node_lookup_of_entries nodes hnd before after e node hentries
    obtain ⟨g, rfl⟩ : ∃ g, steps = g + 1 := ⟨steps - 1, by omega⟩
    have hg : k ≤ g := by omega
    cases hp : transformations.get_component_for_entity node.parent_entity with
    | none =>
      rw [ancestor_chain_root nodes transformations _ e node hget hp,
        ancestor_chain_root nodes transformations _ e node hget hp]
    | some parent =>
      rw [ancestor_chain_step nodes transformations g e node parent hget hp,
        ancestor_chain_step nodes transformations k e node parent hget hp]
      congr 1
      have hpf2 := parents_visited_first_middle before after (e, node) (by rw [← hentries]; exact hpf)
      by_cases hmem : node.parent_entity ∈ before.map Prod.fst
      · obtain ⟨q, hq, hq1⟩ := List.mem_map.mp hmem
        obtain ⟨b1, b2, hb⟩ := List.append_of_mem hq
        have hentries2 : nodes.entries
            = b1 ++ (node.parent_entity, q.2) :: (b2 ++ (e, node) :: after) := by
          rw [hentries, hb, ← hq1]
          simp
        have hlen : b1.length < k := by
          have : before.length = b1.length + 1 + b2.length := by
            rw [hb]
            simp
            omega
          omega
        rw [ih b1 _ node.parent_entity q.2 hentries2 hlen g hg,
          ih b1 _ node.parent_entity q.2 hentries2 hlen k (le_refl k)]
      · have hnone : nodes.get_component_for_entity node.parent_entity = none := by
          unfold scene_component_pool.get_component_for_entity
          apply pool_lookup_not_mem
          rw [hentries]
          simp only [List.map_append, List.map_cons, List.mem_append, List.mem_cons, not_or]
          exact ⟨hmem, hpf2.1, hpf2.2⟩
        rw [ancestor_chain_without_node nodes transformations g _ hnone,
          ancestor_chain_without_node nodes transformations k _ hnone]

theorem ancestor_product_root {K : Type} [LinearOrderedField K]
    (nodes : scene_component_pool node_component)
    (transformations : scene_component_pool (transform_component K)) (e : Nat)
    (h : ancestor_chain nodes transformations nodes.entries.length e = [e]) :
    ancestor_product nodes transformations e = local_matrix transformations e := by
  unfold ancestor_product
  rw [h]
  simp

/-- The state after the visits of the first nodes of the pool, with the parents first:
the entities visited so far hold the product along their ancestor chain, the others
still hold the matrix they had. -/
theorem visits_invariant {K : Type} [LinearOrderedField K]
    (nodes : scene_component_pool node_component)
    (transformations : scene_component_pool (transform_component K))
    (hnd : nodes.entities.Nodup) (hpf : parents_visited_first nodes.entries = true)
    (hwl : ∀ x c, transformations.get_component_for_entity x = some c →
      c.world_transformation_matrix = c.local_transformation_matrix) :
    ∀ (before after : List (Nat × node_component)), nodes.entries = before ++ after →
      ∀ x, (before.foldl scene_graph_update_system.visit
            transformations).get_component_for_entity x
        = (transformations.get_component_for_entity x).map (fun c =>
            { c with world_transformation_matrix :=
                if x ∈ before.map Prod.fst then ancestor_product nodes transformations x
                else c.world_transformation_matrix }) := by
  intro before
  induction before using List.reverseRecOn with
  | nil =>
    intro after _ x
    show transformations.get_component_for_entity x = _
    cases transformations.get_component_for_entity x with
    | none => rfl
    | some c => simp
  | append_singleton before node ih =>
    intro after hentries x
    obtain ⟨e, n⟩ := node
    have hentries2 : nodes.entries = before ++ (e, n) :: after := by
      rw [hentries]
      simp
    obtain ⟨hget, he_before, -⟩ := node_lookup_of_entries nodes hnd before after e n hentries2
    obtain ⟨hpe, hp_after⟩ := parents_visited_first_middle before after (e, n)
      (by rw [← hentries2]; exact hpf)
    have hlen : nodes.entries.length = before.length + 1 + after.length := by
      rw [hentries2]
      simp
      omega
    have ihx := ih ((e, n) :: after) hentries2
    rw [List.foldl_append, List.foldl_cons, List.foldl_nil, visit_lookup]
    simp only
    rw [ihx e, ihx n.parent_entity, ihx x]
    have hmem : ∀ y, y ≠ e →
        (y ∈ (before ++ [(e, n)]).map Prod.fst ↔ y ∈ before.map Prod.fst) := by
      intro y hy
      simp [hy]
    have hmem_e : e ∈ (before ++ [(e, n)]).map Prod.fst := by simp
    cases hce : transformations.get_component_for_entity e with
    | none =>
      simp only [Option.map_none']
      by_cases hx : x = e
      · rw [hx, hce]
        rfl
      · simp only [hmem x hx]
    | some c =>
      have hcw := hwl e c hce
      cases hcp : transformations.get_component_for_entity n.parent_entity with
      | none =>
        simp only [Option.map_none', Option.map_some']
        by_cases hx : x = e
        · subst hx
          have hroot := ancestor_product_root nodes transformations x
            (ancestor_chain_root nodes transformations _ x n hget hcp)
          have hloc : local_matrix transformations x = c.local_transformation_matrix := by
            simp [local_matrix, hce]
          rw [hce]
          simp only [Option.map_some', if_pos hmem_e, if_neg he_before, hroot, hloc, ← hcw]
        · simp only [hmem x hx]
      | some cp =>
        have hcpw := hwl n.parent_entity cp hcp
        simp only [Option.map_some']
        by_cases hx : x = e
        · subst hx
          rw [hce]
          simp only [if_true, Option.map_some', if_pos hmem_e, if_neg he_before]
          have hchain : ancestor_product nodes transformations x
              = ancestor_product nodes transformations n.parent_entity
                * c.local_transformation_matrix := by
            have hloc : local_matrix transformations x = c.local_transformation_matrix := by
              simp [local_matrix, hce]
            unfold ancestor_product
            rw [hlen, show before.length + 1 + after.length
              = (before.length + after.length) + 1 by omega,
              ancestor_chain_step nodes transformations _ x n cp hget hcp]
            simp only [List.map_append, List.prod_append, List.map_cons, List.map_nil,
              List.prod_cons, List.prod_nil, mul_one, hloc]
            congr 2
            by_cases hpm : n.parent_entity ∈ before.map Prod.fst
            · obtain ⟨q, hq, hq1⟩ := List.mem_map.mp hpm
              obtain ⟨b1, b2, hb⟩ := List.append_of_mem hq
              have hentries3 : nodes.entries
                  = b1 ++ (n.parent_entity, q.2) :: (b2 ++ (x, n) :: after) := by
                rw [hentries2, hb, ← hq1]
                simp
              have hb1 : b1.length < before.length + after.length := by
                have : before.length = b1.length + 1 + b2.length := by
                  rw [hb]
                  simp
                  omega
                omega
              have hle : before.length + after.length ≤ before.length + after.length + 1 := by
                omega
              have hst := ancestor_chain_stable nodes transformations hnd hpf
                (before.length + after.length) b1 _ n.parent_entity q.2 hentries3 hb1
                (before.length + after.length + 1) hle
              rw [hst]
            · have hnone : nodes.get_component_for_entity n.parent_entity = none := by
                unfold scene_component_pool.get_component_for_entity
                apply pool_lookup_not_mem
                rw [hentries2]
                simp only [List.map_append, List.map_cons, List.mem_append, List.mem_cons,
                  not_or]
                exact ⟨hpm, hpe, hp_after⟩
              rw [ancestor_chain_without_node nodes transformations _ _ hnone,
                ancestor_chain_without_node nodes transformations _ _ hnone]
          rw [hchain]
          by_cases hpm : n.parent_entity ∈ before.map Prod.fst
          · simp only [if_pos hpm]
          · have hnone : nodes.get_component_for_entity n.parent_entity = none := by
              unfold scene_component_pool.get_component_for_entity
              apply pool_lookup_not_mem
              rw [hentries2]
              simp only [List.map_append, List.map_cons, List.mem_append, List.mem_cons,
                not_or]
              exact ⟨hpm, hpe, hp_after⟩
            have hroot := ancestor_product_root nodes transformations n.parent_entity
              (ancestor_chain_without_node nodes transformations _ _ hnone)
            have hloc : local_matrix transformations n.parent_entity
                = cp.local_transformation_matrix := by
              simp [local_matrix, hcp]
            simp only [if_neg hpm, hroot, hloc, hcpw]
        · simp only [if_neg hx, hmem x hx]

/-- C21: after `transformation_update_system` and `scene_graph_update_system`, for a
node pool with one node per entity: a node whose entity and parent entity both have
a transform holds the world matrix that the parent had when the node was visited
times its own local matrix; an entity without transform has none afterwards, and an
entity whose node has a parent without transform, or that has no node, keeps
`world = local`; when every parent is visited before its children the world matrix of
every entity is the product of the local matrices along its ancestor chain, the root
first; and a child visited before the node of its parent holds the parent's local
matrix times its own. -/
theorem C21_scene_graph_world_matrices {K : Type} [LinearOrderedField K]
    (sin cos sqrt : K → K) (nodes : scene_component_pool node_component)
    (initial : scene_component_pool (transform_component K))
    (hnd : nodes.entities.Nodup) :
    let updated := transformation_update_system.update_pool sin cos sqrt initial
    let final := scene_graph_update_system.update nodes updated
    (∀ (before after : List (Nat × node_component)) (e : Nat) (node : node_component)
      (c parent : transform_component K),
      nodes.entries = before ++ (e, node) :: after →
      updated.get_component_for_entity e = some c →
      (before.foldl scene_graph_update_system.visit updated).get_component_for_entity
        node.parent_entity = some parent →
      final.get_component_for_entity e
        = some { c with world_transformation_matrix :=
            parent.world_transformation_matrix * c.local_transformation_matrix }) ∧
    (∀ e, updated.get_component_for_entity e = none →
      final.get_component_for_entity e = none) ∧
    (∀ (before after : List (Nat × node_component)) (e : Nat) (node : node_component)
      (c : transform_component K),
      nodes.entries = before ++ (e, node) :: after →
      updated.get_component_for_entity e = some c →
      updated.get_component_for_entity node.parent_entity = none →
      final.get_component_for_entity e = some c ∧
        c.world_transformation_matrix = c.local_transformation_matrix) ∧
    (∀ (e : Nat) (c : transform_component K), e ∉ nodes.entities →
      updated.get_component_for_entity e = some c →
      final.get_component_for_entity e = some c ∧
        c.world_transformation_matrix = c.local_transformation_matrix) ∧
    (parents_visited_first nodes.entries = true →
      ∀ (e : Nat) (c : transform_component K),
        updated.get_component_for_entity e = some c →
        final.get_component_for_entity e
          = some { c with world_transformation_matrix :=
              ancestor_product nodes updated e }) ∧
    (∀ (before after : List (Nat × node_component)) (e : Nat) (node : node_component)
      (c parent : transform_component K),
      nodes.entries = before ++ (e, node) :: after →
      node.parent_entity ∉ before.map Prod.fst →
      updated.get_component_for_entity e = some c →
      updated.get_component_for_entity node.parent_entity = some parent →
      final.get_component_for_entity e
        = some { c with world_transformation_matrix :=
            parent.local_transformation_matrix * c.local_transformation_matrix }) := by
  intro updated final
  have hwl : ∀ x c, updated.get_component_for_entity x = some c →
      c.world_transformation_matrix = c.local_transformation_matrix :=
    fun x c h => update_pool_world_eq_local sin cos sqrt initial x c h
  have hvisit : ∀ (before after : List (Nat × node_component)) (e : Nat)
      (node : node_component), nodes.entries = before ++ (e, node) :: after →
      final.get_component_for_entity e
        = (scene_graph_update_system.visit
            (before.foldl scene_graph_update_system.visit updated)
            (e, node)).get_component_for_entity e ∧
      (before.foldl scene_graph_update_system.visit updated).get_component_for_entity e
        = updated.get_component_for_entity e := by
    intro before after e node hentries
    obtain ⟨-, hb, ha⟩ := node_lookup_of_entries nodes hnd before after e node hentries
    constructor
    · show (nodes.entries.foldl scene_graph_update_system.visit
          updated).get_component_for_entity e = _
      rw [hentries, List.foldl_append, List.foldl_cons]
      exact visits_lookup_not_visited after _ e ha
    · exact visits_lookup_not_visited before _ e hb
  have hA : ∀ (before after : List (Nat × node_component)) (e : Nat) (node : node_component)
      (c parent : transform_component K),
      nodes.entries = before ++ (e, node) :: after →
      updated.get_component_for_entity e = some c →
      (before.foldl scene_graph_update_system.visit updated).get_component_for_entity
        node.parent_entity = some parent →
      final.get_component_for_entity e
        = some { c with world_transformation_matrix :=
            parent.world_transformation_matrix * c.local_transformation_matrix } := by
    intro before after e node c parent hentries hc hp
    obtain ⟨h1, h2⟩ := hvisit before after e node hentries
    rw [h1, visit_lookup]
    simp only
    rw [h2, hc, hp]
    simp
  refine ⟨hA, ?_, ?_, ?_, ?_, ?_⟩
  · intro e he
    exact visits_lookup_none nodes.entries updated e he
  · intro before after e node c hentries hc hp
    obtain ⟨h1, h2⟩ := hvisit before after e node hentries
    refine ⟨?_, hwl e c hc⟩
    rw [h1, visit_lookup]
    simp only
    rw [h2, hc, visits_lookup_none before updated _ hp]
  · intro e c he hc
    refine ⟨?_, hwl e c hc⟩
    have := visits_lookup_not_visited nodes.entries updated e he
    exact this.trans hc
  · intro hpf e c hc
    have hinv := visits_invariant nodes updated hnd hpf hwl nodes.entries [] (by simp) e
    show (nodes.entries.foldl scene_graph_update_system.visit
      updated).get_component_for_entity e = _
    rw [hinv, hc]
    by_cases hm : e ∈ nodes.entries.map Prod.fst
    · simp only [Option.map_some', if_pos hm]
    · have hnone : nodes.get_component_for_entity e = none :=
        pool_lookup_not_mem _ _ hm
      have hroot := ancestor_product_root nodes updated e
        (ancestor_chain_without_node nodes updated _ e hnone)
      have hloc : local_matrix updated e = c.local_transformation_matrix := by
        simp [local_matrix, hc]
      simp only [Option.map_some', if_neg hm, hroot, hloc, hwl e c hc]
  · intro before after e node c parent hentries hpb hc hp
    have hpw := hwl node.parent_entity parent hp
    have hpv := visits_lookup_not_visited before updated node.parent_entity hpb
    rw [hp] at hpv
    rw [hA before after e node c parent hentries hc hpv, hpw]

/-- C21, for entity 2 below entity 1 below entity 0, the parents first: the world
matrix of entity 2 is the product along its chain. -/
theorem C21_scene_graph_world_matrices_witness :
    (scene_graph_update_system.update scene_component_pool.chain_of_nodes
        (transformation_update_system.update_pool id id id
          scene_component_pool.three_transforms)).get_component_for_entity 2
      = some
          { transformation_update_component id id id (transform_component.at_x 4) with
            world_transformation_matrix :=
              ancestor_product scene_component_pool.chain_of_nodes
                (transformation_update_system.update_pool id id id
                  scene_component_pool.three_transforms) 2 } ∧
    ancestor_chain scene_component_pool.chain_of_nodes
        (transformation_update_system.update_pool id id id
          scene_component_pool.three_transforms) 2 2 = [0, 1, 2] :=
  ⟨(C21_scene_graph_world_matrices id id id scene_component_pool.chain_of_nodes
      scene_component_pool.three_transforms (by decide)).2.2.2.2.1 (by decide) 2
      (transformation_update_component id id id (transform_component.at_x 4)) rfl,
   rfl⟩

end mango
